import Mathlib

/-!
Vent escape game: the simulation core of `src/game.js`.

The JavaScript numbers of the program are read as elements of a linearly
ordered field `K` (exact arithmetic; `ℚ` for evaluation, `ℝ` for the ideal
semantics).  The functions of the host `Math` object that the program calls
(`Math.hypot`, `Math.atan2`, `Math.PI`) are not code of the repository and are
taken as a parameter `JsMath K`.  `Math.random()` is an input: a frame receives
the sequence `rand 0, rand 1, ...` of values that the successive calls return,
and the functions that draw from it thread a cursor.  `Date.now()` is an input
in the same way.  The key table `this.keys`, written by the event handlers, is
sampled once per frame and is an input as well.

Canvas drawing and the DOM text nodes that only mirror a state field (oxygen
bar, distance label, score line) are not modelled; of `render` only its one
write to the state is kept (the pulse of the tanks), and the two text nodes
written by `showMessage` and `gameOver` are kept as the fields `message` and
`deathMessage`.
-/

namespace VentEscape

/-! ## Host functions and inputs -/

/-- The functions of the host `Math` object used by the program. -/
structure JsMath (K : Type) where
  hypot : K → K → K
  atan2 : K → K → K
  PI : K

/-- The host `Math.hypot` is the Euclidean norm: non-negative, with the
expected square. -/
def JsMath.Exact {K : Type} [LinearOrderedField K] (M : JsMath K) : Prop :=
  ∀ a b : K, 0 ≤ M.hypot a b ∧ M.hypot a b * M.hypot a b = a * a + b * b

/-- The entries of `this.keys` that `update` reads. -/
structure Keys where
  shift : Bool
  w : Bool
  arrowup : Bool
  s : Bool
  arrowdown : Bool
  a : Bool
  arrowleft : Bool
  d : Bool
  arrowright : Bool
deriving DecidableEq, Repr

/-- No key is held. -/
def Keys.none : Keys :=
  ⟨false, false, false, false, false, false, false, false, false⟩

/-- What one frame reads from its environment: the key table, the successive
readings of `Date.now()` and the successive results of `Math.random()`. -/
structure Input (K : Type) where
  keys : Keys
  now : Nat → K
  rand : Nat → K

/-- Every draw of `Math.random()` lies in `[0, 1)`. -/
def Input.RandOk {K : Type} [LinearOrderedField K] (i : Input K) : Prop :=
  ∀ n : Nat, 0 ≤ i.rand n ∧ i.rand n < 1

/-! ## CONFIG -/

namespace CONFIG

variable {K : Type} [LinearOrderedField K]

@[simp] def canvas.width : K := 1200
@[simp] def canvas.height : K := 800
@[simp] def player.size : K := 16
@[simp] def player.speed : K := 2.5
@[simp] def player.sprintMultiplier : K := 1.8
@[simp] def player.startX : K := 100
@[simp] def player.startY : K := 400
@[simp] def oxygen.max : K := 100
@[simp] def oxygen.drainRate : K := 0.08
@[simp] def oxygen.sprintDrainMultiplier : K := 2.5
@[simp] def oxygen.tankRestore : K := 40
@[simp] def monster.size : K := 24
@[simp] def monster.baseSpeed : K := 1.2
@[simp] def monster.speedIncrease : K := 0.0003
@[simp] def monster.maxSpeed : K := 3.5
@[simp] def monster.startDistance : K := 800
@[simp] def vent.wallThickness : K := 80
@[simp] def vent.segmentLength : K := 150
@[simp] def vent.turningChance : K := 0.15

end CONFIG

/-! ## Data model -/

structure Wall (K : Type) where
  x : K
  y : K
  width : K
  height : K

structure VentSystem (K : Type) where
  walls : List (Wall K)

structure Player (K : Type) where
  x : K
  y : K
  size : K
  flashlightAngle : K

structure Tentacle (K : Type) where
  angle : K
  length : K
  phase : K

structure Monster (K : Type) where
  x : K
  y : K
  size : K
  tentacles : List (Tentacle K)

structure OxygenTank (K : Type) where
  x : K
  y : K
  size : K
  pulse : K

structure Particle (K : Type) where
  x : K
  y : K
  vx : K
  vy : K
  life : K
  color : String
  size : K

structure Camera (K : Type) where
  x : K
  y : K

structure Game (K : Type) where
  player : Player K
  monster : Monster K
  ventSystem : VentSystem K
  oxygenTanks : List (OxygenTank K)
  particles : List (Particle K)
  camera : Camera K
  distance : K
  gameRunning : Bool
  oxygen : K
  lastOxygenWarning : K
  flashAlpha : K
  message : Option String
  deathMessage : Option String

section Defs

variable {K : Type} [LinearOrderedField K]

/-! ## VentSystem -/

/-- The body of the `for` loop of `generateVents`, run `n` more times from
cursor `x`, centerline `y`, the walls pushed so far and the random cursor. -/
def VentSystem.generateLoop (rand : Nat → K) :
    Nat → K → K → List (Wall K) → Nat → List (Wall K) × Nat
  | 0, _, _, walls, c => (walls, c)
  | n + 1, x, y, walls, c =>
    let wallHeight : K := CONFIG.vent.wallThickness
    let walls1 := walls ++ [{ x := x, y := y - CONFIG.canvas.height / 4,
                              width := CONFIG.vent.segmentLength, height := wallHeight }]
    let walls2 := walls1 ++ [{ x := x, y := y + CONFIG.canvas.height / 4,
                               width := CONFIG.vent.segmentLength, height := wallHeight }]
    let x1 := x + CONFIG.vent.segmentLength
    if rand c < CONFIG.vent.turningChance then
      let y1 := y + (rand (c + 1) - 0.5) * 100
      let y2 := max (CONFIG.canvas.height / 3) (min (CONFIG.canvas.height * 2 / 3) y1)
      VentSystem.generateLoop rand n x1 y2 walls2 (c + 2)
    else
      VentSystem.generateLoop rand n x1 y walls2 (c + 1)

/-- `generateVents` on the empty wall list of the constructor. -/
def VentSystem.generateVents (rand : Nat → K) (c : Nat) : List (Wall K) × Nat :=
  VentSystem.generateLoop rand 100 (-500) (CONFIG.canvas.height / 2) [] c

/-- `new VentSystem()`. -/
def VentSystem.new (rand : Nat → K) (c : Nat) : VentSystem K × Nat :=
  let r := VentSystem.generateVents rand c
  ({ walls := r.1 }, r.2)

def VentSystem.checkCollision (v : VentSystem K) (x y size : K) : Bool :=
  let halfSize := size / 2
  v.walls.any (fun wall =>
    decide (x + halfSize > wall.x) &&
    decide (x - halfSize < wall.x + wall.width) &&
    decide (y + halfSize > wall.y) &&
    decide (y - halfSize < wall.y + wall.height))

/-! ## Player -/

/-- `new Player(x, y)`. -/
def Player.new (x y : K) : Player K :=
  { x := x, y := y, size := CONFIG.player.size, flashlightAngle := 0 }

def Player.move (M : JsMath K) (p : Player K) (dx dy : K) (ventSystem : VentSystem K) :
    Player K :=
  let newX := p.x + dx
  let newY := p.y + dy
  let p1 := if ventSystem.checkCollision newX p.y p.size = false then { p with x := newX } else p
  let p2 := if ventSystem.checkCollision p1.x newY p1.size = false then { p1 with y := newY } else p1
  if dx ≠ 0 ∨ dy ≠ 0 then { p2 with flashlightAngle := M.atan2 dy dx } else p2

/-! ## Monster -/

/-- The tentacle loop of the constructor: tentacles `i, i+1, ...`, `n` of them. -/
def Monster.newTentacles (M : JsMath K) (rand : Nat → K) : Nat → Nat → Nat → List (Tentacle K)
  | 0, _, _ => []
  | n + 1, i, c =>
    { angle := (M.PI * 2 / 6) * (i : K), length := 20 + rand c * 10,
      phase := rand (c + 1) * M.PI * 2 } :: Monster.newTentacles M rand n (i + 1) (c + 2)

/-- `new Monster(x, y)`; it draws twelve random numbers. -/
def Monster.new (M : JsMath K) (rand : Nat → K) (c : Nat) (x y : K) : Monster K × Nat :=
  ({ x := x, y := y, size := CONFIG.monster.size,
     tentacles := Monster.newTentacles M rand 6 0 c }, c + 12)

def Monster.update (M : JsMath K) (m : Monster K) (player : Player K) (speed : K) : Monster K :=
  let dx := player.x - m.x
  let dy := player.y - m.y
  let dist := M.hypot dx dy
  let m1 := if dist > 0 then { m with x := m.x + (dx / dist) * speed,
                                      y := m.y + (dy / dist) * speed } else m
  { m1 with tentacles := m1.tentacles.map (fun t => { t with phase := t.phase + 0.1 }) }

/-! ## OxygenTank and Particle -/

/-- `new OxygenTank(x, y)`. -/
def OxygenTank.new (x y : K) : OxygenTank K :=
  { x := x, y := y, size := 20, pulse := 0 }

/-- `new Particle(x, y, color)`; it draws three random numbers. -/
def Particle.new (rand : Nat → K) (c : Nat) (x y : K) (color : String) : Particle K × Nat :=
  ({ x := x, y := y, vx := (rand c - 0.5) * 4, vy := (rand (c + 1) - 0.5) * 4, life := 1,
     color := color, size := rand (c + 2) * 4 + 2 }, c + 3)

def Particle.update (p : Particle K) : Particle K :=
  let p1 := { p with x := p.x + p.vx }
  let p2 := { p1 with y := p1.y + p1.vy }
  let p3 := { p2 with vx := p2.vx * 0.95 }
  let p4 := { p3 with vy := p3.vy * 0.95 }
  { p4 with life := p4.life - 0.02 }

/-! ## Game -/

def Game.showMessage (g : Game K) (text : String) : Game K :=
  { g with message := some text }

def Game.gameOver (g : Game K) (message : String) : Game K :=
  { g with gameRunning := false, deathMessage := some message }

def Game.createParticles (g : Game K) (rand : Nat → K) (c : Nat) (x y : K) (color : String) :
    Nat → Game K × Nat
  | 0 => (g, c)
  | count + 1 =>
    let r := Particle.new rand c x y color
    Game.createParticles { g with particles := g.particles ++ [r.1] } rand r.2 x y color count

def Game.spawnOxygenTank (g : Game K) (rand : Nat → K) (c : Nat) : Game K × Nat :=
  match g.oxygenTanks.getLast? with
  | some last =>
    let baseX := last.x + 400 + rand c * 300
    let y := CONFIG.canvas.height / 2 + (rand (c + 1) - 0.5) * 200
    ({ g with oxygenTanks := g.oxygenTanks ++ [OxygenTank.new baseX y] }, c + 2)
  | none =>
    let baseX := g.player.x + 300
    let y := CONFIG.canvas.height / 2 + (rand c - 0.5) * 200
    ({ g with oxygenTanks := g.oxygenTanks ++ [OxygenTank.new baseX y] }, c + 1)

/-- The `filter` over `oxygenTanks` in `update`, with the effects of its
callback: the tanks kept, in order, and the game after the callbacks ran. -/
def Game.collectTanks (M : JsMath K) (rand : Nat → K) :
    List (OxygenTank K) → Game K → Nat → List (OxygenTank K) × Game K × Nat
  | [], g, c => ([], g, c)
  | tank :: rest, g, c =>
    let dist := M.hypot (g.player.x - tank.x) (g.player.y - tank.y)
    if dist < 30 then
      let g1 := { g with oxygen := min CONFIG.oxygen.max (g.oxygen + CONFIG.oxygen.tankRestore) }
      let g2 := g1.showMessage "+OXYGEN"
      let r := g2.createParticles rand c tank.x tank.y "#00ff88" 20
      Game.collectTanks M rand rest r.1 r.2
    else
      let r := Game.collectTanks M rand rest g c
      (tank :: r.1, r.2.1, r.2.2)

/-- The constant `moveSpeed` of `update`. -/
def Game.moveSpeed (keys : Keys) : K :=
  if keys.shift then CONFIG.player.speed * CONFIG.player.sprintMultiplier
  else CONFIG.player.speed

/-- The intended displacement `(dx, dy)` of the frame, after the diagonal
normalisation (section "Player movement" of `update`, before the move). -/
def Game.moveDelta (keys : Keys) : K × K :=
  let moveSpeed : K := Game.moveSpeed keys
  let dx : K := 0
  let dy : K := 0
  let dy : K := if keys.w || keys.arrowup then dy - moveSpeed else dy
  let dy : K := if keys.s || keys.arrowdown then dy + moveSpeed else dy
  let dx : K := if keys.a || keys.arrowleft then dx - moveSpeed else dx
  let dx : K := if keys.d || keys.arrowright then dx + moveSpeed else dx
  if dx ≠ 0 ∧ dy ≠ 0 then (dx * 0.707, dy * 0.707) else (dx, dy)

/-- The statement `this.player.move(dx, dy, this.ventSystem)` of `update`. -/
def Game.movePlayer (M : JsMath K) (g : Game K) (dx dy : K) : Game K :=
  { g with player := g.player.move M dx dy g.ventSystem }

/-- Section "Update distance" of `update`. -/
def Game.updateDistance (g : Game K) (dx : K) : Game K :=
  if dx > 0 then { g with distance := g.distance + |dx| } else g

/-- The constant `oxygenDrain` of `update`. -/
def Game.oxygenDrain (keys : Keys) : K :=
  if keys.shift then CONFIG.oxygen.drainRate * CONFIG.oxygen.sprintDrainMultiplier
  else CONFIG.oxygen.drainRate

/-- Section "Oxygen management" of `update`. -/
def Game.oxygenManagement (g : Game K) (keys : Keys) : Game K :=
  let g : Game K := { g with oxygen := g.oxygen - Game.oxygenDrain keys }
  { g with oxygen := max 0 g.oxygen }

/-- Section "Oxygen warnings" of `update`. -/
def Game.oxygenWarnings (g : Game K) (now : Nat → K) : Game K :=
  if g.oxygen < 30 ∧ now 0 - g.lastOxygenWarning > 3000 then
    { g.showMessage "OXYGEN LOW" with lastOxygenWarning := now 1, flashAlpha := 0.3 }
  else g

/-- The constant `monsterSpeed` of `update`, from the distance travelled. -/
def Game.monsterSpeed (distance : K) : K :=
  min (CONFIG.monster.baseSpeed + distance * CONFIG.monster.speedIncrease) CONFIG.monster.maxSpeed

/-- Section "Update monster" of `update`. -/
def Game.updateMonster (M : JsMath K) (g : Game K) : Game K :=
  { g with monster := g.monster.update M g.player (Game.monsterSpeed g.distance) }

/-- Section "Check oxygen tank collection" of `update`; the cursor counts the
random draws of the particles created. -/
def Game.checkTankCollection (M : JsMath K) (g : Game K) (rand : Nat → K) : Game K × Nat :=
  let r : List (OxygenTank K) × Game K × Nat := Game.collectTanks M rand g.oxygenTanks g 0
  ({ r.2.1 with oxygenTanks := r.1 }, r.2.2)

/-- Section "Spawn new oxygen tanks" of `update`. -/
def Game.spawnNewTanks (g : Game K) (rand : Nat → K) (c : Nat) : Game K :=
  match g.oxygenTanks.getLast? with
  | none => (g.spawnOxygenTank rand c).1
  | some last => if g.player.x - last.x > 400 then (g.spawnOxygenTank rand c).1 else g

/-- Section "Update particles" of `update`. -/
def Game.updateParticles (g : Game K) : Game K :=
  { g with particles := (g.particles.map Particle.update).filter (fun p => p.life > 0) }

/-- Section "Update camera" of `update`. -/
def Game.updateCamera (g : Game K) : Game K :=
  { g with camera := { x := g.player.x - CONFIG.canvas.width / 3,
                       y := g.player.y - CONFIG.canvas.height / 2 } }

/-- Section "Check game over conditions" of `update`. -/
def Game.checkGameOver (M : JsMath K) (g : Game K) : Game K :=
  let g : Game K := if g.oxygen ≤ 0 then g.gameOver "You suffocated in the darkness..." else g
  let distToMonster : K := M.hypot (g.player.x - g.monster.x) (g.player.y - g.monster.y)
  if distToMonster < 35 then g.gameOver "It caught you..." else g

/-- Section "Update flash" of `update`. -/
def Game.updateFlash (g : Game K) : Game K :=
  if g.flashAlpha > 0 then { g with flashAlpha := g.flashAlpha - 0.01 } else g

/-- The state before the section "Check oxygen tank collection": the player
moved, distance and oxygen accounted, the monster updated. -/
def Game.updateHead (M : JsMath K) (g : Game K) (inp : Input K) : Game K :=
  let delta : K × K := Game.moveDelta inp.keys
  let g : Game K := g.movePlayer M delta.1 delta.2
  let g : Game K := g.updateDistance delta.1
  let g : Game K := g.oxygenManagement inp.keys
  let g : Game K := g.oxygenWarnings inp.now
  g.updateMonster M

/-- The sections of `update` in their order. -/
def Game.update (M : JsMath K) (g : Game K) (inp : Input K) : Game K :=
  let g : Game K := g.updateHead M inp
  let r : Game K × Nat := g.checkTankCollection M inp.rand
  let g : Game K := r.1.spawnNewTanks inp.rand r.2
  let g : Game K := g.updateParticles
  let g : Game K := g.updateCamera
  let g : Game K := g.checkGameOver M
  g.updateFlash

/-- What `OxygenTank.render` does to the tank: the pulse advances (the drawing
itself is not modelled). -/
def OxygenTank.render (t : OxygenTank K) : OxygenTank K :=
  { t with pulse := t.pulse + 0.05 }

/-- What `render` does to the state: of all the `render` methods it calls, only
the one of the tanks writes a field. -/
def Game.render (g : Game K) : Game K :=
  { g with oxygenTanks := g.oxygenTanks.map OxygenTank.render }

/-- One tick of `gameLoop`: nothing once the game stopped, else `update` and
`render` (`requestAnimationFrame` schedules the next tick). -/
def Game.gameLoop (M : JsMath K) (g : Game K) (inp : Input K) : Game K :=
  if g.gameRunning = false then g else (g.update M inp).render

/-- The assignments of `start()` before its call of `gameLoop()`. -/
def Game.startSetup (M : JsMath K) (g : Game K) (rand : Nat → K) : Game K × Nat :=
  let g := { g with gameRunning := true }
  let g := { g with oxygen := CONFIG.oxygen.max }
  let g := { g with distance := 0 }
  let g := { g with particles := [] }
  let g := { g with oxygenTanks := [] }
  let g := { g with player := Player.new CONFIG.player.startX CONFIG.player.startY }
  let rm := Monster.new M rand 0 (-CONFIG.monster.startDistance) CONFIG.player.startY
  let g := { g with monster := rm.1 }
  let rv := VentSystem.new rand rm.2
  let g := { g with ventSystem := rv.1 }
  g.spawnOxygenTank rand rv.2

/-- `start()`: the reset, then the first tick of the loop, which continues the
same sequence of random draws. -/
def Game.start (M : JsMath K) (g : Game K) (inp : Input K) : Game K :=
  let r := Game.startSetup M g inp.rand
  Game.gameLoop M r.1 { inp with rand := fun i => inp.rand (r.2 + i) }

/-- The ticks that follow, one per input. -/
def Game.run (M : JsMath K) (g : Game K) (inps : List (Input K)) : Game K :=
  inps.foldl (Game.gameLoop M) g

/-! ## Auxiliary definitions for the statements -/

/-- Restoring oxygen from one tank, as the collection callback does. -/
def restoreOxygen (o : K) : K := min CONFIG.oxygen.max (o + CONFIG.oxygen.tankRestore)

/-! ## Concrete instances -/

/-- The host functions in exact real arithmetic. -/
noncomputable def realMath : JsMath ℝ :=
  { hypot := fun a b => Real.sqrt (a * a + b * b)
    atan2 := fun y x => Complex.arg ⟨x, y⟩
    PI := Real.pi }

/-- The state left by the constructor of `Game`.  There `player`, `monster`
and `ventSystem` are `null`; `start` assigns them before any use, and they
stand here as an object at the origin and an empty wall list. -/
def Game.blank : Game K :=
  { player := { x := 0, y := 0, size := CONFIG.player.size, flashlightAngle := 0 }
    monster := { x := 0, y := 0, size := CONFIG.monster.size, tentacles := [] }
    ventSystem := { walls := [] }
    oxygenTanks := []
    particles := []
    camera := { x := 0, y := 0 }
    distance := 0
    gameRunning := false
    oxygen := CONFIG.oxygen.max
    lastOxygenWarning := 0
    flashAlpha := 0
    message := none
    deathMessage := none }

/-- A frame with no key held, the clock at 0 and every random draw `r`. -/
def idleInput (r : K) : Input K :=
  { keys := Keys.none, now := fun _ => 0, rand := fun _ => r }

/-- A frame with only `d` held, the clock at 0 and every random draw `r`. -/
def rightInput (r : K) : Input K :=
  { keys := { Keys.none with d := true }, now := fun _ => 0, rand := fun _ => r }

/-- A running game with a breath of oxygen left and the monster 35.5 to the
left of the player, in an open space. -/
noncomputable def lastBreath : Game ℝ :=
  { (Game.blank : Game ℝ) with
    player := { x := 100, y := 400, size := 16, flashlightAngle := 0 }
    monster := { x := 64.5, y := 400, size := 24, tentacles := [] }
    gameRunning := true
    oxygen := 0.05 }

/-- A vent system of one wall to the right of the origin. -/
def oneWall : VentSystem ℝ :=
  { walls := [{ x := 10, y := -100, width := 10, height := 200 }] }

/-- A player at the origin. -/
def originPlayer : Player ℝ :=
  { x := 0, y := 0, size := 16, flashlightAngle := 0 }

/-- The test of the collection callback: the tank is within 30 of the player. -/
def Game.tankInReach (M : JsMath K) (p : Player K) (tank : OxygenTank K) : Bool :=
  decide (M.hypot (p.x - tank.x) (p.y - tank.y) < 30)

/-- Consecutive tanks of the list are at least 400 apart in X, in list order. -/
def TanksSpaced (ts : List (OxygenTank K)) : Prop :=
  ts.Pairwise (fun a b => a.x + 400 ≤ b.x)

/-- A running game with the player at (100, 400) and three tanks on its row,
at the distances 29, 30 and 31. -/
noncomputable def threeTanks : Game ℝ :=
  { (Game.blank : Game ℝ) with
    player := { x := 100, y := 400, size := 16, flashlightAngle := 0 }
    monster := { x := -800, y := 400, size := 24, tentacles := [] }
    oxygenTanks := [OxygenTank.new 129 400, OxygenTank.new 130 400, OxygenTank.new 131 400]
    gameRunning := true
    oxygen := 50 }

/-- The state of a run in which only `d` is held, after `k` frames: the player
has walked right along the row `y = 400`, the first tank is still ahead, and
the monster follows on the same row. -/
def RightRun (k : Nat) (g : Game K) : Prop :=
  g.gameRunning = true ∧ g.player.x = 100 + 2.5 * (k : K) ∧ g.player.y = 400 ∧
  g.player.size = 16 ∧
  (∀ w ∈ g.ventSystem.walls, w.y + w.height ≤ 392 ∨ 408 ≤ w.y) ∧
  (∃ t : OxygenTank K, g.oxygenTanks = [t] ∧ t.x = 400 ∧ t.y = 400) ∧
  g.monster.y = 400 ∧ g.monster.x ≤ -800 + 3.5 * (k : K) ∧
  100 - 0.08 * (k : K) ≤ g.oxygen

/-- A monster at the origin. -/
def originMonster : Monster ℝ :=
  { x := 0, y := 0, size := 24, tentacles := [] }

/-- A player at (3, 4), at distance 5 from the origin. -/
def awayPlayer : Player ℝ :=
  { x := 3, y := 4, size := 16, flashlightAngle := 0 }

/-- The state of a run in which no key is held, after `k` frames: the player
stands at the start position, the first tank is out of reach, and the monster
closes in along the row `y = 400` at the base speed. -/
def IdleRun (k : Nat) (g : Game K) : Prop :=
  g.gameRunning = true ∧ g.player.x = 100 ∧ g.player.y = 400 ∧ g.distance = 0 ∧
  (∃ t : OxygenTank K, g.oxygenTanks = [t] ∧ t.x = 400) ∧
  g.monster.x = -800 + 1.2 * (k : K) ∧ g.monster.y = 400 ∧
  g.oxygen = 100 - 0.08 * (k : K)

/-- The state of a run along the row `y = 400` between straight walls, with
every tank on the row `y = 340`, out of reach: the player at `px`, the distance
travelled `dist`, the monster at `mx` on the row of the player, the oxygen `ox`. -/
def OnRow (px dist mx ox : K) (g : Game K) : Prop :=
  g.gameRunning = true ∧ g.player.x = px ∧ g.player.y = 400 ∧ g.player.size = 16 ∧
  (∀ w ∈ g.ventSystem.walls, w.y + w.height ≤ 392 ∨ 408 ≤ w.y) ∧
  g.oxygenTanks ≠ [] ∧ (∀ t ∈ g.oxygenTanks, t.y = 340) ∧
  g.distance = dist ∧ g.monster.x = mx ∧ g.monster.y = 400 ∧ g.oxygen = ox

/-- The inputs of the frames 2 to 1248 of a run: `d` held up to frame 372, then
no key; every random draw is `1/5`. -/
noncomputable def walkThenWait : List (Input ℝ) :=
  List.replicate 371 (rightInput (1 / 5)) ++ List.replicate 876 (idleInput (1 / 5))

/-- The state after frame 1248 of the run that starts with `d` held and
continues with the inputs `walkThenWait`. -/
noncomputable def frame1248 : Game ℝ :=
  Game.run realMath (Game.start realMath Game.blank (rightInput (1 / 5))) walkThenWait

/-- The last statement of the loop body of `generateVents`: the centerline and
the random cursor after the possible turn. -/
def VentSystem.turn (rand : Nat → K) (y : K) (c : Nat) : K × Nat :=
  if rand c < CONFIG.vent.turningChance then
    (max (CONFIG.canvas.height / 3)
      (min (CONFIG.canvas.height * 2 / 3) (y + (rand (c + 1) - 0.5) * 100)), c + 2)
  else (y, c + 1)

/-- The values of the variable `y` (the centerline) and of the random cursor at
the start of iteration `i` of the loop of `generateVents`, when the loop is
entered with the cursor `c0`. -/
def VentSystem.centerline (rand : Nat → K) (c0 : Nat) : Nat → K × Nat
  | 0 => (CONFIG.canvas.height / 2, c0)
  | i + 1 => VentSystem.turn rand (VentSystem.centerline rand c0 i).1
      (VentSystem.centerline rand c0 i).2

/-- The top wall pushed by an iteration at cursor `x` and centerline `y`. -/
def VentSystem.topWall (x y : K) : Wall K :=
  { x := x, y := y - CONFIG.canvas.height / 4, width := CONFIG.vent.segmentLength,
    height := CONFIG.vent.wallThickness }

/-- The bottom wall pushed by an iteration at cursor `x` and centerline `y`. -/
def VentSystem.bottomWall (x y : K) : Wall K :=
  { x := x, y := y + CONFIG.canvas.height / 4, width := CONFIG.vent.segmentLength,
    height := CONFIG.vent.wallThickness }

/-- Draws that turn the tunnel upwards in every segment: each chance draw is 0
and each offset draw is 0.99. -/
noncomputable def upRand : Nat → ℝ := fun n => if n % 2 = 0 then 0 else 99 / 100

/-- Draws that turn the tunnel downwards in every segment (the 212 draws of the
monster and of the walls are 0) and then place the first tank low (0.9). -/
noncomputable def downRand : Nat → ℝ := fun n => if n < 212 then 0 else 9 / 10

/-- The input of a `start()` with no key held and the draws `upRand`. -/
noncomputable def upInput : Input ℝ :=
  { keys := Keys.none, now := fun _ => 0, rand := upRand }

/-- The input of a `start()` with no key held and the draws `downRand`. -/
noncomputable def downInput : Input ℝ :=
  { keys := Keys.none, now := fun _ => 0, rand := downRand }

/-- Exactly one of the two vertical directions is held, so that `dy` is not 0
before the normalisation. -/
def Keys.vertical (k : Keys) : Bool := xor (k.w || k.arrowup) (k.s || k.arrowdown)

/-- Exactly one of the two horizontal directions is held, so that `dx` is not 0
before the normalisation. -/
def Keys.horizontal (k : Keys) : Bool := xor (k.a || k.arrowleft) (k.d || k.arrowright)

/-- The keys `w` and `d`: up and right, without sprint. -/
def diagonalKeys : Keys := { Keys.none with w := true, d := true }

/-- A frame with only `shift` held, the clock at 0 and every random draw `r`. -/
def sprintInput (r : K) : Input K :=
  { keys := { Keys.none with shift := true }, now := fun _ => 0, rand := fun _ => r }

/-- A running game with the player at the origin, just left of the wall of
`oneWall`. -/
noncomputable def blockedGame : Game ℝ :=
  { (Game.blank : Game ℝ) with
    player := originPlayer
    ventSystem := oneWall
    gameRunning := true }

/-- A particle as `createParticles` makes it, at the origin, every draw `1/2`. -/
noncomputable def freshParticle : Particle ℝ :=
  (Particle.new (fun _ => (1 / 2 : ℝ)) 0 0 0 "#00ff88").1

/-- The box of the player is free of walls. -/
def Game.PlayerFree (g : Game K) : Prop :=
  g.ventSystem.checkCollision g.player.x g.player.y g.player.size = false

/-- Two states agree on the fields of the simulation proper: player, monster,
walls, tanks, particles, distance, running flag and oxygen (all but the camera,
the warning clock, the flash and the two text nodes). -/
def Game.SameRun (g1 g2 : Game K) : Prop :=
  g1.player = g2.player ∧ g1.monster = g2.monster ∧ g1.ventSystem = g2.ventSystem ∧
  g1.oxygenTanks = g2.oxygenTanks ∧ g1.particles = g2.particles ∧
  g1.distance = g2.distance ∧ g1.gameRunning = g2.gameRunning ∧ g1.oxygen = g2.oxygen

/-- The state of a run in which only `d` is held, after `k` frames, before any
pickup: the player has walked right along the row `y = 400` between straight
walls, the tanks of the list are at the coordinates `ts`, in list order, and
the monster follows on the same row. -/
def WalkRun (k : Nat) (ts : List (K × K)) (g : Game K) : Prop :=
  g.gameRunning = true ∧ g.player.x = 100 + 2.5 * (k : K) ∧ g.player.y = 400 ∧
  g.player.size = 16 ∧
  (∀ w ∈ g.ventSystem.walls, w.y + w.height ≤ 392 ∨ 408 ≤ w.y) ∧
  g.oxygenTanks.map (fun t => (t.x, t.y)) = ts ∧
  g.monster.y = 400 ∧ g.monster.x ≤ -800 + 3.5 * (k : K) ∧
  g.oxygen = 100 - 0.08 * (k : K)

/-- The inputs of the frames 2 to 281 of a run with `d` held: every random draw
is `1/4` up to frame 280 and `1/2` in frame 281. -/
noncomputable def walkToSecondTank : List (Input ℝ) :=
  List.replicate 279 (rightInput (1 / 4)) ++ [rightInput (1 / 2)]

/-- The inputs of the frames 2 to 328 of the same run: `d` held, every random
draw `1/2` from frame 281 on. -/
noncomputable def walkToPickup : List (Input ℝ) :=
  walkToSecondTank ++ List.replicate 47 (rightInput (1 / 2))

/-- The state after frame 280 of the run that starts with `d` held and the
draws `1/4`: the tank of the initial spawn is the only one. -/
noncomputable def frame280 : Game ℝ :=
  Game.run realMath (Game.start realMath Game.blank (rightInput (1 / 4)))
    (List.replicate 279 (rightInput (1 / 4)))

/-- The state after frame 281 of that run, the frame in which the second tank
is spawned. -/
noncomputable def frame281 : Game ℝ :=
  Game.run realMath (Game.start realMath Game.blank (rightInput (1 / 4))) walkToSecondTank

/-- The state after frame 328 of that run, the last frame before the player
reaches the second tank. -/
noncomputable def frame328 : Game ℝ :=
  Game.run realMath (Game.start realMath Game.blank (rightInput (1 / 4))) walkToPickup

/-- The state after frame 329 of that run, with `d` held and the draw `3/4`:
the frame in which the second tank is picked up. -/
noncomputable def frame329 : Game ℝ :=
  Game.run realMath (Game.start realMath Game.blank (rightInput (1 / 4)))
    (walkToPickup ++ [rightInput (3 / 4)])

end Defs

/-! ## What each section of `update` leaves unchanged -/

section Theorems

variable {K : Type} [LinearOrderedField K]

theorem Game.createParticles_frame (rand : Nat → K) (x y : K) (color : String) (count : Nat) :
    ∀ (g : Game K) (c : Nat),
      (g.createParticles rand c x y color count).1 =
        { g with particles := (g.createParticles rand c x y color count).1.particles } := by
  induction count with
  | zero => intro g c; rfl
  | succ n ih =>
    intro g c
    simp only [Game.createParticles]
    rw [ih]

theorem Game.collectTanks_frame (M : JsMath K) (rand : Nat → K) (ts : List (OxygenTank K)) :
    ∀ (g : Game K) (c : Nat),
      (Game.collectTanks M rand ts g c).2.1 =
        { g with oxygen := (Game.collectTanks M rand ts g c).2.1.oxygen,
                 message := (Game.collectTanks M rand ts g c).2.1.message,
                 particles := (Game.collectTanks M rand ts g c).2.1.particles } := by
  induction ts with
  | nil => intro g c; rfl
  | cons t ts ih =>
    intro g c
    simp only [Game.collectTanks]
    split_ifs with h
    · rw [ih, Game.createParticles_frame]
      simp [Game.showMessage]
    · exact ih g c

theorem Game.spawnOxygenTank_frame (g : Game K) (rand : Nat → K) (c : Nat) :
    (g.spawnOxygenTank rand c).1 =
      { g with oxygenTanks := (g.spawnOxygenTank rand c).1.oxygenTanks } := by
  unfold Game.spawnOxygenTank
  split <;> rfl

theorem Game.spawnNewTanks_frame (g : Game K) (rand : Nat → K) (c : Nat) :
    g.spawnNewTanks rand c = { g with oxygenTanks := (g.spawnNewTanks rand c).oxygenTanks } := by
  unfold Game.spawnNewTanks
  split
  · exact Game.spawnOxygenTank_frame g rand c
  · split_ifs
    · exact Game.spawnOxygenTank_frame g rand c
    · rfl

theorem Game.checkTankCollection_frame (M : JsMath K) (g : Game K) (rand : Nat → K) :
    (g.checkTankCollection M rand).1 =
      { g with oxygen := (g.checkTankCollection M rand).1.oxygen,
               message := (g.checkTankCollection M rand).1.message,
               particles := (g.checkTankCollection M rand).1.particles,
               oxygenTanks := (g.checkTankCollection M rand).1.oxygenTanks } := by
  unfold Game.checkTankCollection
  simp only
  rw [Game.collectTanks_frame]

@[simp]
theorem Game.movePlayer_frame_fields (M : JsMath K) (g : Game K) (dx dy : K) :
    (g.movePlayer M dx dy).monster = g.monster ∧
    (g.movePlayer M dx dy).ventSystem = g.ventSystem ∧
    (g.movePlayer M dx dy).oxygenTanks = g.oxygenTanks ∧
    (g.movePlayer M dx dy).particles = g.particles ∧
    (g.movePlayer M dx dy).camera = g.camera ∧
    (g.movePlayer M dx dy).distance = g.distance ∧
    (g.movePlayer M dx dy).gameRunning = g.gameRunning ∧
    (g.movePlayer M dx dy).oxygen = g.oxygen ∧
    (g.movePlayer M dx dy).lastOxygenWarning = g.lastOxygenWarning ∧
    (g.movePlayer M dx dy).flashAlpha = g.flashAlpha ∧
    (g.movePlayer M dx dy).message = g.message ∧
    (g.movePlayer M dx dy).deathMessage = g.deathMessage := by
  unfold Game.movePlayer; simp

@[simp]
theorem Game.updateDistance_frame_fields (g : Game K) (dx : K) :
    (g.updateDistance dx).player = g.player ∧
    (g.updateDistance dx).monster = g.monster ∧
    (g.updateDistance dx).ventSystem = g.ventSystem ∧
    (g.updateDistance dx).oxygenTanks = g.oxygenTanks ∧
    (g.updateDistance dx).particles = g.particles ∧
    (g.updateDistance dx).camera = g.camera ∧
    (g.updateDistance dx).gameRunning = g.gameRunning ∧
    (g.updateDistance dx).oxygen = g.oxygen ∧
    (g.updateDistance dx).lastOxygenWarning = g.lastOxygenWarning ∧
    (g.updateDistance dx).flashAlpha = g.flashAlpha ∧
    (g.updateDistance dx).message = g.message ∧
    (g.updateDistance dx).deathMessage = g.deathMessage := by
  unfold Game.updateDistance; split_ifs <;> simp

@[simp]
theorem Game.oxygenManagement_frame_fields (g : Game K) (keys : Keys) :
    (g.oxygenManagement keys).player = g.player ∧
    (g.oxygenManagement keys).monster = g.monster ∧
    (g.oxygenManagement keys).ventSystem = g.ventSystem ∧
    (g.oxygenManagement keys).oxygenTanks = g.oxygenTanks ∧
    (g.oxygenManagement keys).particles = g.particles ∧
    (g.oxygenManagement keys).camera = g.camera ∧
    (g.oxygenManagement keys).distance = g.distance ∧
    (g.oxygenManagement keys).gameRunning = g.gameRunning ∧
    (g.oxygenManagement keys).lastOxygenWarning = g.lastOxygenWarning ∧
    (g.oxygenManagement keys).flashAlpha = g.flashAlpha ∧
    (g.oxygenManagement keys).message = g.message ∧
    (g.oxygenManagement keys).deathMessage = g.deathMessage := by
  unfold Game.oxygenManagement; simp

@[simp]
theorem Game.oxygenWarnings_frame_fields (g : Game K) (now : Nat → K) :
    (g.oxygenWarnings now).player = g.player ∧
    (g.oxygenWarnings now).monster = g.monster ∧
    (g.oxygenWarnings now).ventSystem = g.ventSystem ∧
    (g.oxygenWarnings now).oxygenTanks = g.oxygenTanks ∧
    (g.oxygenWarnings now).particles = g.particles ∧
    (g.oxygenWarnings now).camera = g.camera ∧
    (g.oxygenWarnings now).distance = g.distance ∧
    (g.oxygenWarnings now).gameRunning = g.gameRunning ∧
    (g.oxygenWarnings now).oxygen = g.oxygen ∧
    (g.oxygenWarnings now).deathMessage = g.deathMessage := by
  unfold Game.oxygenWarnings; split_ifs <;> simp [Game.showMessage]

@[simp]
theorem Game.updateMonster_frame_fields (M : JsMath K) (g : Game K) :
    (g.updateMonster M).player = g.player ∧
    (g.updateMonster M).ventSystem = g.ventSystem ∧
    (g.updateMonster M).oxygenTanks = g.oxygenTanks ∧
    (g.updateMonster M).particles = g.particles ∧
    (g.updateMonster M).camera = g.camera ∧
    (g.updateMonster M).distance = g.distance ∧
    (g.updateMonster M).gameRunning = g.gameRunning ∧
    (g.updateMonster M).oxygen = g.oxygen ∧
    (g.updateMonster M).lastOxygenWarning = g.lastOxygenWarning ∧
    (g.updateMonster M).flashAlpha = g.flashAlpha ∧
    (g.updateMonster M).message = g.message ∧
    (g.updateMonster M).deathMessage = g.deathMessage := by
  unfold Game.updateMonster; simp

@[simp]
theorem Game.checkTankCollection_frame_fields (M : JsMath K) (g : Game K) (rand : Nat → K) :
    ((g.checkTankCollection M rand).1).player = g.player ∧
    ((g.checkTankCollection M rand).1).monster = g.monster ∧
    ((g.checkTankCollection M rand).1).ventSystem = g.ventSystem ∧
    ((g.checkTankCollection M rand).1).camera = g.camera ∧
    ((g.checkTankCollection M rand).1).distance = g.distance ∧
    ((g.checkTankCollection M rand).1).gameRunning = g.gameRunning ∧
    ((g.checkTankCollection M rand).1).lastOxygenWarning = g.lastOxygenWarning ∧
    ((g.checkTankCollection M rand).1).flashAlpha = g.flashAlpha ∧
    ((g.checkTankCollection M rand).1).deathMessage = g.deathMessage := by
  rw [Game.checkTankCollection_frame]; simp

@[simp]
theorem Game.spawnNewTanks_frame_fields (g : Game K) (rand : Nat → K) (c : Nat) :
    (g.spawnNewTanks rand c).player = g.player ∧
    (g.spawnNewTanks rand c).monster = g.monster ∧
    (g.spawnNewTanks rand c).ventSystem = g.ventSystem ∧
    (g.spawnNewTanks rand c).particles = g.particles ∧
    (g.spawnNewTanks rand c).camera = g.camera ∧
    (g.spawnNewTanks rand c).distance = g.distance ∧
    (g.spawnNewTanks rand c).gameRunning = g.gameRunning ∧
    (g.spawnNewTanks rand c).oxygen = g.oxygen ∧
    (g.spawnNewTanks rand c).lastOxygenWarning = g.lastOxygenWarning ∧
    (g.spawnNewTanks rand c).flashAlpha = g.flashAlpha ∧
    (g.spawnNewTanks rand c).message = g.message ∧
    (g.spawnNewTanks rand c).deathMessage = g.deathMessage := by
  rw [Game.spawnNewTanks_frame]; simp

@[simp]
theorem Game.updateParticles_frame_fields (g : Game K) :
    (g.updateParticles).player = g.player ∧
    (g.updateParticles).monster = g.monster ∧
    (g.updateParticles).ventSystem = g.ventSystem ∧
    (g.updateParticles).oxygenTanks = g.oxygenTanks ∧
    (g.updateParticles).camera = g.camera ∧
    (g.updateParticles).distance = g.distance ∧
    (g.updateParticles).gameRunning = g.gameRunning ∧
    (g.updateParticles).oxygen = g.oxygen ∧
    (g.updateParticles).lastOxygenWarning = g.lastOxygenWarning ∧
    (g.updateParticles).flashAlpha = g.flashAlpha ∧
    (g.updateParticles).message = g.message ∧
    (g.updateParticles).deathMessage = g.deathMessage := by
  unfold Game.updateParticles; simp

@[simp]
theorem Game.updateCamera_frame_fields (g : Game K) :
    (g.updateCamera).player = g.player ∧
    (g.updateCamera).monster = g.monster ∧
    (g.updateCamera).ventSystem = g.ventSystem ∧
    (g.updateCamera).oxygenTanks = g.oxygenTanks ∧
    (g.updateCamera).particles = g.particles ∧
    (g.updateCamera).distance = g.distance ∧
    (g.updateCamera).gameRunning = g.gameRunning ∧
    (g.updateCamera).oxygen = g.oxygen ∧
    (g.updateCamera).lastOxygenWarning = g.lastOxygenWarning ∧
    (g.updateCamera).flashAlpha = g.flashAlpha ∧
    (g.updateCamera).message = g.message ∧
    (g.updateCamera).deathMessage = g.deathMessage := by
  unfold Game.updateCamera; simp

@[simp]
theorem Game.checkGameOver_frame_fields (M : JsMath K) (g : Game K) :
    (g.checkGameOver M).player = g.player ∧
    (g.checkGameOver M).monster = g.monster ∧
    (g.checkGameOver M).ventSystem = g.ventSystem ∧
    (g.checkGameOver M).oxygenTanks = g.oxygenTanks ∧
    (g.checkGameOver M).particles = g.particles ∧
    (g.checkGameOver M).camera = g.camera ∧
    (g.checkGameOver M).distance = g.distance ∧
    (g.checkGameOver M).oxygen = g.oxygen ∧
    (g.checkGameOver M).lastOxygenWarning = g.lastOxygenWarning ∧
    (g.checkGameOver M).flashAlpha = g.flashAlpha ∧
    (g.checkGameOver M).message = g.message := by
  unfold Game.checkGameOver; simp only; split_ifs <;> simp [Game.gameOver]

@[simp]
theorem Game.updateFlash_frame_fields (g : Game K) :
    (g.updateFlash).player = g.player ∧
    (g.updateFlash).monster = g.monster ∧
    (g.updateFlash).ventSystem = g.ventSystem ∧
    (g.updateFlash).oxygenTanks = g.oxygenTanks ∧
    (g.updateFlash).particles = g.particles ∧
    (g.updateFlash).camera = g.camera ∧
    (g.updateFlash).distance = g.distance ∧
    (g.updateFlash).gameRunning = g.gameRunning ∧
    (g.updateFlash).oxygen = g.oxygen ∧
    (g.updateFlash).lastOxygenWarning = g.lastOxygenWarning ∧
    (g.updateFlash).message = g.message ∧
    (g.updateFlash).deathMessage = g.deathMessage := by
  unfold Game.updateFlash; split_ifs <;> simp

@[simp]
theorem Game.render_frame_fields (g : Game K) :
    g.render.player = g.player ∧
    g.render.monster = g.monster ∧
    g.render.ventSystem = g.ventSystem ∧
    g.render.particles = g.particles ∧
    g.render.camera = g.camera ∧
    g.render.distance = g.distance ∧
    g.render.gameRunning = g.gameRunning ∧
    g.render.oxygen = g.oxygen ∧
    g.render.lastOxygenWarning = g.lastOxygenWarning ∧
    g.render.flashAlpha = g.flashAlpha ∧
    g.render.message = g.message ∧
    g.render.deathMessage = g.deathMessage := by
  unfold Game.render; simp

theorem Game.render_oxygenTanks (g : Game K) :
    g.render.oxygenTanks = g.oxygenTanks.map OxygenTank.render := rfl

theorem Game.gameLoop_running (M : JsMath K) (g : Game K) (inp : Input K)
    (h : g.gameRunning = true) : g.gameLoop M inp = (g.update M inp).render := by
  unfold Game.gameLoop; rw [if_neg (by simp [h])]

/-! ## The state after `update`, field by field -/

theorem Game.createParticles_fields (rand : Nat → K) (x y : K) (color : String) (count : Nat)
    (g : Game K) (c : Nat) :
    (g.createParticles rand c x y color count).1.player = g.player ∧
    (g.createParticles rand c x y color count).1.oxygen = g.oxygen := by
  rw [Game.createParticles_frame]; simp

/-- The tanks kept by the collection filter are those not within 30 of the player. -/
theorem Game.collectTanks_kept (M : JsMath K) (rand : Nat → K) (ts : List (OxygenTank K)) :
    ∀ (g : Game K) (c : Nat),
      (Game.collectTanks M rand ts g c).1 =
        ts.filter (fun t => !decide (M.hypot (g.player.x - t.x) (g.player.y - t.y) < 30)) := by
  induction ts with
  | nil => intro g c; rfl
  | cons t ts ih =>
    intro g c
    simp only [Game.collectTanks]
    split_ifs with h
    · rw [ih]
      simp [List.filter_cons, h, Game.createParticles_fields, Game.showMessage]
    · simp [List.filter_cons, h, ih]

/-- The oxygen after the collection filter: one restore per tank removed. -/
theorem Game.collectTanks_oxygen (M : JsMath K) (rand : Nat → K) (ts : List (OxygenTank K)) :
    ∀ (g : Game K) (c : Nat),
      (Game.collectTanks M rand ts g c).2.1.oxygen =
        restoreOxygen^[(ts.filter (fun t =>
          decide (M.hypot (g.player.x - t.x) (g.player.y - t.y) < 30))).length] g.oxygen := by
  induction ts with
  | nil => intro g c; rfl
  | cons t ts ih =>
    intro g c
    simp only [Game.collectTanks]
    split_ifs with h
    · rw [ih]
      simp [List.filter_cons, h, Game.createParticles_fields, Game.showMessage, restoreOxygen]
    · simp [List.filter_cons, h, ih]

@[simp]
theorem Game.movePlayer_player (M : JsMath K) (g : Game K) (dx dy : K) :
    (g.movePlayer M dx dy).player = g.player.move M dx dy g.ventSystem := rfl

@[simp]
theorem Game.updateDistance_distance (g : Game K) (dx : K) :
    (g.updateDistance dx).distance = if dx > 0 then g.distance + |dx| else g.distance := by
  unfold Game.updateDistance; split_ifs <;> rfl

@[simp]
theorem Game.oxygenManagement_oxygen (g : Game K) (keys : Keys) :
    (g.oxygenManagement keys).oxygen = max 0 (g.oxygen - Game.oxygenDrain keys) := rfl

@[simp]
theorem Game.updateMonster_monster (M : JsMath K) (g : Game K) :
    (g.updateMonster M).monster = g.monster.update M g.player (Game.monsterSpeed g.distance) := rfl

theorem Game.updateHead_fields (M : JsMath K) (g : Game K) (inp : Input K) :
    (g.updateHead M inp).player =
      g.player.move M (Game.moveDelta inp.keys).1 (Game.moveDelta inp.keys).2 g.ventSystem ∧
    (g.updateHead M inp).distance =
      (if (Game.moveDelta inp.keys : K × K).1 > 0 then
        g.distance + |(Game.moveDelta inp.keys : K × K).1| else g.distance) ∧
    (g.updateHead M inp).oxygen = max 0 (g.oxygen - Game.oxygenDrain inp.keys) ∧
    (g.updateHead M inp).ventSystem = g.ventSystem ∧
    (g.updateHead M inp).oxygenTanks = g.oxygenTanks ∧
    (g.updateHead M inp).gameRunning = g.gameRunning ∧
    (g.updateHead M inp).deathMessage = g.deathMessage ∧
    (g.updateHead M inp).monster =
      g.monster.update M (g.updateHead M inp).player
        (Game.monsterSpeed (g.updateHead M inp).distance) := by
  simp [Game.updateHead]

theorem Game.update_fields (M : JsMath K) (g : Game K) (inp : Input K) :
    (g.update M inp).player = (g.updateHead M inp).player ∧
    (g.update M inp).monster = (g.updateHead M inp).monster ∧
    (g.update M inp).distance = (g.updateHead M inp).distance ∧
    (g.update M inp).ventSystem = g.ventSystem ∧
    (g.update M inp).oxygen = ((g.updateHead M inp).checkTankCollection M inp.rand).1.oxygen ∧
    (g.update M inp).oxygenTanks =
      (((g.updateHead M inp).checkTankCollection M inp.rand).1.spawnNewTanks inp.rand
        ((g.updateHead M inp).checkTankCollection M inp.rand).2).oxygenTanks := by
  simp [Game.update, Game.updateHead_fields]

theorem Game.checkGameOver_gameRunning (M : JsMath K) (g : Game K) :
    (g.checkGameOver M).gameRunning =
      if g.oxygen ≤ 0 ∨ M.hypot (g.player.x - g.monster.x) (g.player.y - g.monster.y) < 35
      then false else g.gameRunning := by
  unfold Game.checkGameOver
  by_cases h1 : g.oxygen ≤ 0 <;>
    by_cases h2 : M.hypot (g.player.x - g.monster.x) (g.player.y - g.monster.y) < 35 <;>
    simp [h1, h2, Game.gameOver]

theorem Game.checkGameOver_deathMessage (M : JsMath K) (g : Game K) :
    (g.checkGameOver M).deathMessage =
      if M.hypot (g.player.x - g.monster.x) (g.player.y - g.monster.y) < 35
      then some "It caught you..."
      else if g.oxygen ≤ 0 then some "You suffocated in the darkness..." else g.deathMessage := by
  unfold Game.checkGameOver
  by_cases h1 : g.oxygen ≤ 0 <;>
    by_cases h2 : M.hypot (g.player.x - g.monster.x) (g.player.y - g.monster.y) < 35 <;>
    simp [h1, h2, Game.gameOver]

theorem Game.update_gameRunning (M : JsMath K) (g : Game K) (inp : Input K) :
    (g.update M inp).gameRunning =
      if (g.update M inp).oxygen ≤ 0 ∨
          M.hypot ((g.update M inp).player.x - (g.update M inp).monster.x)
            ((g.update M inp).player.y - (g.update M inp).monster.y) < 35
      then false else g.gameRunning := by
  simp only [Game.update_fields]
  simp [Game.update, Game.checkGameOver_gameRunning, Game.updateHead_fields]

theorem Game.update_deathMessage (M : JsMath K) (g : Game K) (inp : Input K) :
    (g.update M inp).deathMessage =
      if M.hypot ((g.update M inp).player.x - (g.update M inp).monster.x)
            ((g.update M inp).player.y - (g.update M inp).monster.y) < 35
      then some "It caught you..."
      else if (g.update M inp).oxygen ≤ 0 then some "You suffocated in the darkness..."
      else g.deathMessage := by
  simp only [Game.update_fields]
  simp [Game.update, Game.checkGameOver_deathMessage, Game.updateHead_fields]

theorem restoreOxygen_iterate_bounds (n : Nat) (o : K) (h0 : 0 ≤ o) (h1 : o ≤ CONFIG.oxygen.max) :
    0 ≤ restoreOxygen^[n] o ∧ restoreOxygen^[n] o ≤ CONFIG.oxygen.max := by
  induction n generalizing o with
  | zero => exact ⟨h0, h1⟩
  | succ n ih =>
    rw [Function.iterate_succ_apply]
    apply ih
    · unfold restoreOxygen
      simp only [CONFIG.oxygen.max, CONFIG.oxygen.tankRestore]
      exact le_min (by norm_num) (by linarith)
    · exact min_le_left _ _

theorem Game.update_oxygen_bounds (M : JsMath K) (g : Game K) (inp : Input K)
    (h : g.oxygen ≤ CONFIG.oxygen.max) :
    0 ≤ (g.update M inp).oxygen ∧ (g.update M inp).oxygen ≤ CONFIG.oxygen.max := by
  rw [(Game.update_fields M g inp).2.2.2.2.1]
  unfold Game.checkTankCollection
  simp only
  rw [Game.collectTanks_oxygen]
  apply restoreOxygen_iterate_bounds
  · rw [(Game.updateHead_fields M g inp).2.2.1]; exact le_max_left _ _
  · rw [(Game.updateHead_fields M g inp).2.2.1]
    apply max_le
    · simp
    · have : (0 : K) ≤ Game.oxygenDrain inp.keys := by
        unfold Game.oxygenDrain; split_ifs <;> simp <;> norm_num
      linarith

theorem Game.run_inv (M : JsMath K) (P : Game K → Prop)
    (hstep : ∀ (g : Game K) (inp : Input K), P g → P (g.gameLoop M inp)) :
    ∀ (inps : List (Input K)) (g : Game K), P g → P (Game.run M g inps) := by
  intro inps
  induction inps with
  | nil => intro g hg; exact hg
  | cons i is ih =>
    intro g hg
    exact ih _ (hstep g i hg)

theorem Game.startSetup_oxygen (M : JsMath K) (g : Game K) (rand : Nat → K) :
    (Game.startSetup M g rand).1.oxygen = CONFIG.oxygen.max := by
  unfold Game.startSetup
  rw [Game.spawnOxygenTank_frame]

/-- C1. Oxygen clamping invariant: right after the reset of `start()`, after
`start()` and after every later frame, whatever the keys, the random draws and
the clock readings, `0 ≤ oxygen ≤ CONFIG.oxygen.max`. -/
theorem oxygen_clamped (M : JsMath K) (prev : Game K) (inp0 : Input K)
    (inps : List (Input K)) :
    (0 ≤ (Game.startSetup M prev inp0.rand).1.oxygen ∧
      (Game.startSetup M prev inp0.rand).1.oxygen ≤ CONFIG.oxygen.max) ∧
    (0 ≤ (Game.run M (Game.start M prev inp0) inps).oxygen ∧
      (Game.run M (Game.start M prev inp0) inps).oxygen ≤ CONFIG.oxygen.max) := by
  have hstep : ∀ (g : Game K) (inp : Input K),
      (0 ≤ g.oxygen ∧ g.oxygen ≤ CONFIG.oxygen.max) →
      (0 ≤ (g.gameLoop M inp).oxygen ∧ (g.gameLoop M inp).oxygen ≤ CONFIG.oxygen.max) := by
    intro g inp hg
    unfold Game.gameLoop
    split_ifs
    · exact hg
    · rw [(Game.render_frame_fields _).2.2.2.2.2.2.2.1]
      exact Game.update_oxygen_bounds M g inp hg.2
  have h0 : 0 ≤ (Game.startSetup M prev inp0.rand).1.oxygen ∧
      (Game.startSetup M prev inp0.rand).1.oxygen ≤ CONFIG.oxygen.max := by
    rw [Game.startSetup_oxygen]; simp
  refine ⟨h0, ?_⟩
  have := Game.run_inv M (fun g => 0 ≤ g.oxygen ∧ g.oxygen ≤ CONFIG.oxygen.max) hstep inps
    (Game.start M prev inp0) (hstep _ _ h0)
  simpa using this

/-! ## Exact `Math.hypot` -/

theorem realMath_exact : realMath.Exact := fun a b =>
  ⟨Real.sqrt_nonneg _, Real.mul_self_sqrt (add_nonneg (mul_self_nonneg a) (mul_self_nonneg b))⟩

theorem JsMath.Exact.lt_iff {M : JsMath K} (hM : M.Exact) (a b r : K) (hr : 0 < r) :
    M.hypot a b < r ↔ a * a + b * b < r * r := by
  obtain ⟨h0, h1⟩ := hM a b
  rw [← h1]
  exact mul_self_lt_mul_self_iff h0 hr.le

theorem JsMath.Exact.axis {M : JsMath K} (hM : M.Exact) (a : K) : M.hypot a 0 = |a| := by
  obtain ⟨h0, h1⟩ := hM a 0
  have h2 : M.hypot a 0 * M.hypot a 0 = |a| * |a| := by rw [h1, abs_mul_abs_self]; ring
  exact (mul_self_inj h0 (abs_nonneg a)).1 h2

/-! ## C2, C3: terminal conditions -/

/-- C2. Terminal conditions: for a step of `update` from a running state, the
game has stopped after the step exactly when the oxygen after the step is
`≤ 0` or the Euclidean distance between player and monster after the step is
`< 35` (as `Math.hypot` reports it, and equivalently on the squares); in every
other case `gameRunning` is still true. -/
theorem terminal_conditions (M : JsMath K) (hM : M.Exact) (g : Game K) (inp : Input K)
    (hrun : g.gameRunning = true) :
    ((g.update M inp).gameRunning = false ↔
      ((g.update M inp).oxygen ≤ 0 ∨
        M.hypot ((g.update M inp).player.x - (g.update M inp).monster.x)
          ((g.update M inp).player.y - (g.update M inp).monster.y) < 35)) ∧
    ((g.update M inp).gameRunning = false ↔
      ((g.update M inp).oxygen ≤ 0 ∨
        ((g.update M inp).player.x - (g.update M inp).monster.x) ^ 2 +
          ((g.update M inp).player.y - (g.update M inp).monster.y) ^ 2 < 35 ^ 2)) ∧
    (¬ ((g.update M inp).oxygen ≤ 0 ∨
        M.hypot ((g.update M inp).player.x - (g.update M inp).monster.x)
          ((g.update M inp).player.y - (g.update M inp).monster.y) < 35) →
      (g.update M inp).gameRunning = true) := by
  have key := Game.update_gameRunning M g inp
  have h1 : (g.update M inp).gameRunning = false ↔
      ((g.update M inp).oxygen ≤ 0 ∨
        M.hypot ((g.update M inp).player.x - (g.update M inp).monster.x)
          ((g.update M inp).player.y - (g.update M inp).monster.y) < 35) := by
    rw [key, hrun]
    split_ifs with h
    · simp [h]
    · simp [h]
  refine ⟨h1, ?_, ?_⟩
  · rw [h1, hM.lt_iff _ _ _ (by norm_num)]
    simp only [sq]
  · intro h
    cases hb : (g.update M inp).gameRunning
    · exact absurd (h1.1 hb) h
    · rfl

/-- C2, at a concrete step: `lastBreath` with no key held. -/
theorem terminal_conditions_witness :
    lastBreath.gameRunning = true ∧
    ((lastBreath.update realMath (idleInput 0)).gameRunning = false ↔
      ((lastBreath.update realMath (idleInput 0)).oxygen ≤ 0 ∨
        ((lastBreath.update realMath (idleInput 0)).player.x -
            (lastBreath.update realMath (idleInput 0)).monster.x) ^ 2 +
          ((lastBreath.update realMath (idleInput 0)).player.y -
            (lastBreath.update realMath (idleInput 0)).monster.y) ^ 2 < 35 ^ 2)) :=
  ⟨rfl, (terminal_conditions realMath realMath_exact lastBreath (idleInput 0) rfl).2.1⟩

/-- C5. Axis-separated sliding movement: `Player.move` commits `x + dx` exactly
when the box at `(x + dx, y)` is free, then commits `y + dy` exactly when the
box at `(x', y + dy)` is free.  When both deltas are non-zero, the X candidate
collides and `(x, y + dy)` does not, the player ends at `(x, y + dy)`. -/
theorem move_axis_separated (M : JsMath K) (p : Player K) (dx dy : K) (v : VentSystem K) :
    (p.move M dx dy v).x =
      (if v.checkCollision (p.x + dx) p.y p.size = false then p.x + dx else p.x) ∧
    (p.move M dx dy v).y =
      (if v.checkCollision (p.move M dx dy v).x (p.y + dy) p.size = false then p.y + dy
        else p.y) ∧
    (p.move M dx dy v).size = p.size ∧
    (dx ≠ 0 → dy ≠ 0 → v.checkCollision (p.x + dx) p.y p.size = true →
      v.checkCollision p.x (p.y + dy) p.size = false →
      (p.move M dx dy v).x = p.x ∧ (p.move M dx dy v).y = p.y + dy) := by
  have hx : (p.move M dx dy v).x =
      (if v.checkCollision (p.x + dx) p.y p.size = false then p.x + dx else p.x) := by
    unfold Player.move
    simp only
    split_ifs <;> rfl
  have hs : (p.move M dx dy v).size = p.size := by
    unfold Player.move
    simp only
    split_ifs <;> rfl
  have hy : (p.move M dx dy v).y =
      (if v.checkCollision (p.move M dx dy v).x (p.y + dy) p.size = false then p.y + dy
        else p.y) := by
    rw [hx]
    unfold Player.move
    simp only
    split_ifs <;> simp_all
  refine ⟨hx, hy, hs, ?_⟩
  intro _ _ hcx hcy
  have hx2 : (p.move M dx dy v).x = p.x := by rw [hx, if_neg (by simp [hcx])]
  refine ⟨hx2, ?_⟩
  rw [hy, hx2, if_pos hcy]

/-- C5, at a concrete move: a wall blocks the X candidate only. -/
theorem move_axis_separated_witness :
    (5 : ℝ) ≠ 0 ∧ (1 : ℝ) ≠ 0 ∧
    oneWall.checkCollision (originPlayer.x + 5) originPlayer.y originPlayer.size = true ∧
    oneWall.checkCollision originPlayer.x (originPlayer.y + 1) originPlayer.size = false ∧
    (originPlayer.move realMath 5 1 oneWall).x = originPlayer.x ∧
    (originPlayer.move realMath 5 1 oneWall).y = originPlayer.y + 1 :=
  have h1 : (5 : ℝ) ≠ 0 := by norm_num
  have h2 : (1 : ℝ) ≠ 0 := by norm_num
  have h3 : oneWall.checkCollision (originPlayer.x + 5) originPlayer.y originPlayer.size
      = true := by
    simp [VentSystem.checkCollision, oneWall, originPlayer]; norm_num
  have h4 : oneWall.checkCollision originPlayer.x (originPlayer.y + 1) originPlayer.size
      = false := by
    simp [VentSystem.checkCollision, oneWall, originPlayer]; norm_num
  ⟨h1, h2, h3, h4, (move_axis_separated realMath originPlayer 5 1 oneWall).2.2.2 h1 h2 h3 h4⟩

/-! ## Frames without movement, and the monster on the player's row -/

theorem Game.moveDelta_none : (Game.moveDelta Keys.none : K × K) = (0, 0) := by
  simp [Game.moveDelta, Keys.none]

theorem Game.oxygenDrain_none : (Game.oxygenDrain Keys.none : K) = 0.08 := by
  simp [Game.oxygenDrain, Keys.none]

theorem Player.move_zero (M : JsMath K) (p : Player K) (v : VentSystem K) :
    p.move M 0 0 v = p := by
  cases p
  unfold Player.move
  simp

/-- On the player's row and to its left, the monster advances by `speed` along X. -/
theorem Monster.update_row {M : JsMath K} (hM : M.Exact) (m : Monster K) (p : Player K)
    (speed : K) (hy : p.y = m.y) (hx : m.x < p.x) :
    (m.update M p speed).x = m.x + speed ∧ (m.update M p speed).y = m.y := by
  have hd : M.hypot (p.x - m.x) (p.y - m.y) = p.x - m.x := by
    rw [hy, sub_self, hM.axis, abs_of_pos (by linarith)]
  have hpos : 0 < p.x - m.x := by linarith
  unfold Monster.update
  simp only [hd, gt_iff_lt, hpos, if_true]
  constructor
  · rw [div_self hpos.ne', one_mul]
  · rw [hy, sub_self, zero_div, zero_mul, add_zero]

theorem lastBreath_step :
    (lastBreath.update realMath (idleInput 0)).oxygen = 0 ∧
    (lastBreath.update realMath (idleInput 0)).player.x = 100 ∧
    (lastBreath.update realMath (idleInput 0)).player.y = 400 ∧
    (lastBreath.update realMath (idleInput 0)).monster.x = 65.7 ∧
    (lastBreath.update realMath (idleInput 0)).monster.y = 400 := by
  have hp : (lastBreath.updateHead realMath (idleInput 0)).player = lastBreath.player := by
    rw [(Game.updateHead_fields _ _ _).1]
    simp only [idleInput, Game.moveDelta_none, Player.move_zero]
  have hd : (lastBreath.updateHead realMath (idleInput 0)).distance = 0 := by
    rw [(Game.updateHead_fields _ _ _).2.1]
    simp [idleInput, Game.moveDelta_none, lastBreath, Game.blank]
  have hm := Monster.update_row realMath_exact lastBreath.monster lastBreath.player
    (Game.monsterSpeed (0 : ℝ)) (by simp [lastBreath]) (by simp [lastBreath]; norm_num)
  have ho : (lastBreath.update realMath (idleInput 0)).oxygen = 0 := by
    rw [(Game.update_fields _ _ _).2.2.2.2.1]
    unfold Game.checkTankCollection
    simp only
    rw [Game.collectTanks_oxygen, (Game.updateHead_fields _ _ _).2.2.2.2.1,
      (Game.updateHead_fields _ _ _).2.2.1]
    simp [lastBreath, Game.blank, idleInput, Game.oxygenDrain_none]
    norm_num
  refine ⟨ho, ?_, ?_, ?_, ?_⟩
  · rw [(Game.update_fields _ _ _).1, hp]; rfl
  · rw [(Game.update_fields _ _ _).1, hp]; rfl
  · rw [(Game.update_fields _ _ _).2.1, (Game.updateHead_fields _ _ _).2.2.2.2.2.2.2, hp, hd,
      hm.1]
    simp [lastBreath, Game.monsterSpeed]; norm_num
  · rw [(Game.update_fields _ _ _).2.1, (Game.updateHead_fields _ _ _).2.2.2.2.2.2.2, hp, hd,
      hm.2]
    simp [lastBreath]

theorem lastBreath_caught :
    realMath.hypot
      ((lastBreath.update realMath (idleInput 0)).player.x -
        (lastBreath.update realMath (idleInput 0)).monster.x)
      ((lastBreath.update realMath (idleInput 0)).player.y -
        (lastBreath.update realMath (idleInput 0)).monster.y) < 35 := by
  obtain ⟨_, h1, h2, h3, h4⟩ := lastBreath_step
  rw [h1, h2, h3, h4, sub_self, realMath_exact.axis]
  norm_num [abs_lt]

/-! ## C3: which death message is reported -/

/-- C3, amended. The capture check runs last and its message wins: after a
step of `update` the death message is "It caught you..." whenever the monster
is within 35 of the player, also when the oxygen is `≤ 0`; it is
"You suffocated in the darkness..." when the oxygen is `≤ 0` and the monster is
not within 35; otherwise it is left as it was. -/
theorem death_message_last_check_wins (M : JsMath K) (g : Game K) (inp : Input K) :
    (M.hypot ((g.update M inp).player.x - (g.update M inp).monster.x)
        ((g.update M inp).player.y - (g.update M inp).monster.y) < 35 →
      (g.update M inp).deathMessage = some "It caught you...") ∧
    (¬ M.hypot ((g.update M inp).player.x - (g.update M inp).monster.x)
        ((g.update M inp).player.y - (g.update M inp).monster.y) < 35 →
      (g.update M inp).oxygen ≤ 0 →
      (g.update M inp).deathMessage = some "You suffocated in the darkness...") ∧
    (¬ M.hypot ((g.update M inp).player.x - (g.update M inp).monster.x)
        ((g.update M inp).player.y - (g.update M inp).monster.y) < 35 →
      ¬ (g.update M inp).oxygen ≤ 0 →
      (g.update M inp).deathMessage = g.deathMessage) := by
  refine ⟨fun h => ?_, fun h ho => ?_, fun h ho => ?_⟩
  · rw [Game.update_deathMessage, if_pos h]
  · rw [Game.update_deathMessage, if_neg h, if_pos ho]
  · rw [Game.update_deathMessage, if_neg h, if_neg ho]

/-- C3 amended, at a concrete step: the monster reaches the player of
`lastBreath` and the capture message is reported. -/
theorem death_message_last_check_wins_witness :
    realMath.hypot
      ((lastBreath.update realMath (idleInput 0)).player.x -
        (lastBreath.update realMath (idleInput 0)).monster.x)
      ((lastBreath.update realMath (idleInput 0)).player.y -
        (lastBreath.update realMath (idleInput 0)).monster.y) < 35 ∧
    (lastBreath.update realMath (idleInput 0)).deathMessage = some "It caught you..." :=
  ⟨lastBreath_caught,
    (death_message_last_check_wins realMath lastBreath (idleInput 0)).1 lastBreath_caught⟩

/-! ## Tank collection and spawning -/

theorem Game.spawnOxygenTank_nil (g : Game K) (rand : Nat → K) (c : Nat)
    (h : g.oxygenTanks = []) :
    (g.spawnOxygenTank rand c).1.oxygenTanks =
      [OxygenTank.new (g.player.x + 300) (CONFIG.canvas.height / 2 + (rand c - 0.5) * 200)] := by
  unfold Game.spawnOxygenTank
  simp [h]

theorem Game.spawnOxygenTank_last (g : Game K) (rand : Nat → K) (c : Nat) (last : OxygenTank K)
    (h : g.oxygenTanks.getLast? = some last) :
    (g.spawnOxygenTank rand c).1.oxygenTanks =
      g.oxygenTanks ++ [OxygenTank.new (last.x + 400 + rand c * 300)
        (CONFIG.canvas.height / 2 + (rand (c + 1) - 0.5) * 200)] := by
  unfold Game.spawnOxygenTank
  simp [h]

theorem Game.spawnNewTanks_tanks (g : Game K) (rand : Nat → K) (c : Nat) :
    ∃ spawned : List (OxygenTank K), spawned.length ≤ 1 ∧
      (g.spawnNewTanks rand c).oxygenTanks = g.oxygenTanks ++ spawned := by
  unfold Game.spawnNewTanks
  split
  · next h =>
    rw [List.getLast?_eq_none_iff] at h
    refine ⟨[OxygenTank.new (g.player.x + 300)
      (CONFIG.canvas.height / 2 + (rand c - 0.5) * 200)], Nat.le_refl 1, ?_⟩
    rw [Game.spawnOxygenTank_nil g rand c h, h]
    rfl
  · next last h =>
    split_ifs
    · exact ⟨[OxygenTank.new _ _], Nat.le_refl 1, Game.spawnOxygenTank_last g rand c last h⟩
    · exact ⟨[], by simp, by simp⟩

theorem Game.checkTankCollection_tanks (M : JsMath K) (g : Game K) (rand : Nat → K) :
    (g.checkTankCollection M rand).1.oxygenTanks =
      g.oxygenTanks.filter (fun t => !Game.tankInReach M g.player t) := by
  unfold Game.checkTankCollection
  simp only
  rw [Game.collectTanks_kept]
  rfl

theorem Game.checkTankCollection_oxygen (M : JsMath K) (g : Game K) (rand : Nat → K) :
    (g.checkTankCollection M rand).1.oxygen =
      restoreOxygen^[(g.oxygenTanks.filter (Game.tankInReach M g.player)).length] g.oxygen := by
  unfold Game.checkTankCollection
  simp only
  rw [Game.collectTanks_oxygen]
  rfl

/-- C6. Pickup threshold and restore: the collection filter of a step keeps
exactly the tanks that are not within Euclidean distance 30 of the player's
position after the move, in their order (the list after the step is this
filtered list, followed by the tank spawned in the step if there is one); a
tank is within reach exactly when its squared distance is below 900; and in a
step that removes exactly one tank the oxygen becomes
`min(max, o + tankRestore)` with `o` the oxygen after the drain. -/
theorem pickup_threshold (M : JsMath K) (hM : M.Exact) (g : Game K) (inp : Input K) :
    (∀ t : OxygenTank K, Game.tankInReach M (g.update M inp).player t = true ↔
      ((g.update M inp).player.x - t.x) ^ 2 + ((g.update M inp).player.y - t.y) ^ 2 < 30 ^ 2) ∧
    (g.update M inp).player =
      g.player.move M (Game.moveDelta inp.keys).1 (Game.moveDelta inp.keys).2 g.ventSystem ∧
    (∃ spawned : List (OxygenTank K), spawned.length ≤ 1 ∧
      (g.update M inp).oxygenTanks =
        g.oxygenTanks.filter (fun t => !Game.tankInReach M (g.update M inp).player t)
          ++ spawned) ∧
    ((g.oxygenTanks.filter (Game.tankInReach M (g.update M inp).player)).length = 1 →
      (g.update M inp).oxygen =
        min CONFIG.oxygen.max
          (max 0 (g.oxygen - Game.oxygenDrain inp.keys) + CONFIG.oxygen.tankRestore)) := by
  have hp : (g.update M inp).player = (g.updateHead M inp).player := (Game.update_fields M g inp).1
  refine ⟨fun t => ?_, ?_, ?_, ?_⟩
  · unfold Game.tankInReach
    rw [decide_eq_true_iff, hM.lt_iff _ _ _ (by norm_num)]
    simp only [sq]
  · rw [hp, (Game.updateHead_fields M g inp).1]
  · obtain ⟨spawned, hlen, hs⟩ := Game.spawnNewTanks_tanks
      ((g.updateHead M inp).checkTankCollection M inp.rand).1 inp.rand
      ((g.updateHead M inp).checkTankCollection M inp.rand).2
    refine ⟨spawned, hlen, ?_⟩
    rw [(Game.update_fields M g inp).2.2.2.2.2, hs, Game.checkTankCollection_tanks, hp,
      (Game.updateHead_fields M g inp).2.2.2.2.1]
  · intro h1
    rw [(Game.update_fields M g inp).2.2.2.2.1, Game.checkTankCollection_oxygen,
      (Game.updateHead_fields M g inp).2.2.2.2.1, ← hp, h1,
      (Game.updateHead_fields M g inp).2.2.1]
    rfl

theorem threeTanks_player :
    (threeTanks.update realMath (idleInput 0)).player = threeTanks.player := by
  rw [(Game.update_fields _ _ _).1, (Game.updateHead_fields _ _ _).1]
  simp only [idleInput, Game.moveDelta_none, Player.move_zero]

/-- C6, at a concrete step: of three tanks at the distances 29, 30 and 31 only
the first is within reach, and the oxygen 50 becomes 50 - 0.08 + 40. -/
theorem pickup_threshold_witness :
    (threeTanks.oxygenTanks.filter
      (Game.tankInReach realMath (threeTanks.update realMath (idleInput 0)).player)).length = 1 ∧
    (threeTanks.update realMath (idleInput 0)).oxygen =
      min CONFIG.oxygen.max
        (max 0 (threeTanks.oxygen - Game.oxygenDrain (idleInput (0 : ℝ)).keys)
          + CONFIG.oxygen.tankRestore) :=
  have h : (threeTanks.oxygenTanks.filter
      (Game.tankInReach realMath (threeTanks.update realMath (idleInput 0)).player)).length
      = 1 := by
    rw [threeTanks_player]
    simp [threeTanks, Game.tankInReach, OxygenTank.new, realMath_exact.axis, List.filter_cons]
    norm_num [abs_lt]
  ⟨h, (pickup_threshold realMath realMath_exact threeTanks (idleInput 0)).2.2.2 h⟩

/-! ## Spacing of the tanks -/

theorem TanksSpaced.spawn {g : Game K} (h : TanksSpaced g.oxygenTanks) (rand : Nat → K)
    (c : Nat) (hr : 0 ≤ rand c) : TanksSpaced (g.spawnOxygenTank rand c).1.oxygenTanks := by
  cases hl : g.oxygenTanks.getLast? with
  | none =>
    rw [List.getLast?_eq_none_iff] at hl
    rw [Game.spawnOxygenTank_nil g rand c hl]
    exact List.pairwise_singleton _ _
  | some last =>
    rw [Game.spawnOxygenTank_last g rand c last hl]
    obtain ⟨ys, hys⟩ := List.getLast?_eq_some_iff.1 hl
    unfold TanksSpaced at h ⊢
    rw [List.pairwise_append]
    refine ⟨h, List.pairwise_singleton _ _, ?_⟩
    intro a ha b hb
    rw [List.mem_singleton] at hb
    subst hb
    have hx : a.x ≤ last.x := by
      rw [hys, List.pairwise_append] at h
      rw [hys, List.mem_append, List.mem_singleton] at ha
      rcases ha with ha | ha
      · have := h.2.2 a ha last (List.mem_singleton.2 rfl)
        linarith
      · rw [ha]
    have h300 : 0 ≤ rand c * 300 := mul_nonneg hr (by norm_num)
    show a.x + 400 ≤ last.x + 400 + rand c * 300
    linarith

theorem TanksSpaced.update (M : JsMath K) {g : Game K} (h : TanksSpaced g.oxygenTanks)
    (inp : Input K) (hr : ∀ n, 0 ≤ inp.rand n) : TanksSpaced (g.update M inp).oxygenTanks := by
  rw [(Game.update_fields M g inp).2.2.2.2.2]
  have h1 : TanksSpaced ((g.updateHead M inp).checkTankCollection M inp.rand).1.oxygenTanks := by
    rw [Game.checkTankCollection_tanks, (Game.updateHead_fields M g inp).2.2.2.2.1]
    exact List.Pairwise.filter _ h
  unfold Game.spawnNewTanks
  split
  · exact h1.spawn _ _ (hr _)
  · split_ifs
    · exact h1.spawn _ _ (hr _)
    · exact h1

theorem TanksSpaced.gameLoop (M : JsMath K) {g : Game K} (h : TanksSpaced g.oxygenTanks)
    (inp : Input K) (hr : ∀ n, 0 ≤ inp.rand n) :
    TanksSpaced (g.gameLoop M inp).oxygenTanks := by
  unfold Game.gameLoop
  split_ifs
  · exact h
  · rw [Game.render_oxygenTanks]
    exact List.Pairwise.map _ (fun a b hab => hab) (h.update M inp hr)

theorem Game.startSetup_tanks (M : JsMath K) (g : Game K) (rand : Nat → K) :
    ∃ c : Nat, (Game.startSetup M g rand).1.oxygenTanks =
      [OxygenTank.new (CONFIG.player.startX + 300)
        (CONFIG.canvas.height / 2 + (rand c - 0.5) * 200)] := by
  unfold Game.startSetup
  exact ⟨_, Game.spawnOxygenTank_nil _ _ _ rfl⟩

theorem TanksSpaced.run (M : JsMath K) (prev : Game K) (inp0 : Input K)
    (inps : List (Input K)) (h0 : ∀ n, 0 ≤ inp0.rand n)
    (hr : ∀ i ∈ inps, ∀ n, 0 ≤ i.rand n) :
    TanksSpaced (Game.run M (Game.start M prev inp0) inps).oxygenTanks := by
  have hstart : TanksSpaced (Game.start M prev inp0).oxygenTanks := by
    unfold Game.start
    apply TanksSpaced.gameLoop
    · obtain ⟨c, hc⟩ := Game.startSetup_tanks M prev inp0.rand
      rw [hc]
      exact List.pairwise_singleton _ _
    · intro n; exact h0 _
  revert hstart
  generalize Game.start M prev inp0 = g
  induction inps generalizing g with
  | nil => intro hg; exact hg
  | cons i is ih =>
    intro hg
    exact ih (fun j hj => hr j (List.mem_cons_of_mem _ hj)) _
      (hg.gameLoop M i (hr i (List.mem_cons_self _ _)))

/-- Two tanks of a spaced list are never both within 30 of one point. -/
theorem TanksSpaced.reach_le_one {M : JsMath K} (hM : M.Exact) {ts : List (OxygenTank K)}
    (h : TanksSpaced ts) (p : Player K) : (ts.filter (Game.tankInReach M p)).length ≤ 1 := by
  have near : ∀ t : OxygenTank K, Game.tankInReach M p t = true → |p.x - t.x| < 30 := by
    intro t ht
    unfold Game.tankInReach at ht
    rw [decide_eq_true_iff, hM.lt_iff _ _ _ (by norm_num)] at ht
    rw [abs_lt]
    constructor <;> nlinarith [mul_self_nonneg (p.y - t.y)]
  have hf : (ts.filter (Game.tankInReach M p)).Pairwise (fun a b => a.x + 400 ≤ b.x) :=
    List.Pairwise.filter _ h
  match hl : ts.filter (Game.tankInReach M p) with
  | [] => simp
  | [_] => simp
  | a :: b :: rest =>
    exfalso
    rw [hl] at hf
    have hab : a.x + 400 ≤ b.x := (List.pairwise_cons.1 hf).1 b (List.mem_cons_self _ _)
    have ha : a ∈ ts.filter (Game.tankInReach M p) := by rw [hl]; exact List.mem_cons_self _ _
    have hb : b ∈ ts.filter (Game.tankInReach M p) := by
      rw [hl]; exact List.mem_cons_of_mem _ (List.mem_cons_self _ _)
    have h1 := abs_lt.1 (near a (List.mem_filter.1 ha).2)
    have h2 := abs_lt.1 (near b (List.mem_filter.1 hb).2)
    linarith [h1.1, h1.2, h2.1, h2.2]

/-- C7, amended. In every run the tanks of `oxygenTanks` are at least 400 apart
in X, in list order; a tank spawned while the list is non-empty is appended at
least 400 to the right of the tank that is last in the list at that moment
(which need not be the tank spawned before it), and a tank spawned while the
list is empty (the initial spawn, or a spawn in a frame whose pickup emptied the
list) is placed at `player.x + 300`. -/
theorem spawn_spacing_in_list (M : JsMath K) (prev : Game K) (inp0 : Input K)
    (inps : List (Input K)) (h0 : inp0.RandOk) (hr : ∀ i ∈ inps, i.RandOk) :
    TanksSpaced (Game.run M (Game.start M prev inp0) inps).oxygenTanks ∧
    (∀ (g : Game K) (rand : Nat → K) (c : Nat) (last : OxygenTank K), 0 ≤ rand c →
      g.oxygenTanks.getLast? = some last →
      ∃ t : OxygenTank K, (g.spawnOxygenTank rand c).1.oxygenTanks = g.oxygenTanks ++ [t] ∧
        last.x + 400 ≤ t.x) ∧
    (∀ (g : Game K) (rand : Nat → K) (c : Nat), g.oxygenTanks = [] →
      ∃ t : OxygenTank K, (g.spawnOxygenTank rand c).1.oxygenTanks = [t] ∧
        t.x = g.player.x + 300) := by
  refine ⟨?_, ?_, ?_⟩
  · exact TanksSpaced.run M prev inp0 inps (fun n => (h0 n).1) (fun i hi n => (hr i hi n).1)
  · intro g rand c last hc hl
    refine ⟨_, Game.spawnOxygenTank_last g rand c last hl, ?_⟩
    have h300 : 0 ≤ rand c * 300 := mul_nonneg hc (by norm_num)
    show last.x + 400 ≤ last.x + 400 + rand c * 300
    linarith
  · intro g rand c hg
    exact ⟨_, Game.spawnOxygenTank_nil g rand c hg, rfl⟩

theorem rightInput_randOk : (rightInput (1 / 2 : ℝ)).RandOk := by
  intro n
  simp only [rightInput]
  norm_num

/-- C8. At most one pickup per frame: in every state reached from `start()` at
most one tank lies within distance 30 of any point, the player's position
included; hence the collection filter of the next step removes at most one tank
and the oxygen of that step is restored at most once. -/
theorem at_most_one_pickup (M : JsMath K) (hM : M.Exact) (prev : Game K) (inp0 : Input K)
    (inps : List (Input K)) (h0 : inp0.RandOk) (hr : ∀ i ∈ inps, i.RandOk) (inp : Input K) :
    (∀ p : Player K,
      ((Game.run M (Game.start M prev inp0) inps).oxygenTanks.filter
        (Game.tankInReach M p)).length ≤ 1) ∧
    ((Game.run M (Game.start M prev inp0) inps).oxygenTanks.length ≤
      ((Game.run M (Game.start M prev inp0) inps).oxygenTanks.filter (fun t =>
        !Game.tankInReach M ((Game.run M (Game.start M prev inp0) inps).update M inp).player t)
        ).length + 1) ∧
    (((Game.run M (Game.start M prev inp0) inps).update M inp).oxygen =
        max 0 ((Game.run M (Game.start M prev inp0) inps).oxygen - Game.oxygenDrain inp.keys) ∨
      ((Game.run M (Game.start M prev inp0) inps).update M inp).oxygen =
        min CONFIG.oxygen.max
          (max 0 ((Game.run M (Game.start M prev inp0) inps).oxygen - Game.oxygenDrain inp.keys)
            + CONFIG.oxygen.tankRestore)) := by
  have hs : TanksSpaced (Game.run M (Game.start M prev inp0) inps).oxygenTanks :=
    TanksSpaced.run M prev inp0 inps (fun n => (h0 n).1) (fun i hi n => (hr i hi n).1)
  generalize Game.run M (Game.start M prev inp0) inps = g at hs ⊢
  have hp : (g.update M inp).player = (g.updateHead M inp).player := (Game.update_fields M g inp).1
  have hle := hs.reach_le_one hM (g.update M inp).player
  refine ⟨fun p => hs.reach_le_one hM p, ?_, ?_⟩
  · have := @List.length_eq_length_filter_add _ g.oxygenTanks
      (Game.tankInReach M (g.update M inp).player)
    omega
  · rw [(Game.update_fields M g inp).2.2.2.2.1, Game.checkTankCollection_oxygen,
      (Game.updateHead_fields M g inp).2.2.2.2.1, ← hp, (Game.updateHead_fields M g inp).2.2.1]
    have hcases : (g.oxygenTanks.filter (Game.tankInReach M (g.update M inp).player)).length = 0 ∨
        (g.oxygenTanks.filter (Game.tankInReach M (g.update M inp).player)).length = 1 := by
      omega
    rcases hcases with h | h
    · left; rw [h]; rfl
    · right; rw [h]; rfl

/-! ## Steps in which nothing is collected or spawned -/

theorem Game.spawnNewTanks_idle (g : Game K) (rand : Nat → K) (c : Nat) (last : OxygenTank K)
    (hl : g.oxygenTanks.getLast? = some last) (hx : g.player.x - last.x ≤ 400) :
    g.spawnNewTanks rand c = g := by
  unfold Game.spawnNewTanks
  rw [hl]
  simp only
  rw [if_neg (not_lt.2 hx)]

theorem Game.update_monster (M : JsMath K) (g : Game K) (inp : Input K) :
    (g.update M inp).monster =
      g.monster.update M (g.update M inp).player (Game.monsterSpeed (g.update M inp).distance) := by
  rw [(Game.update_fields M g inp).1, (Game.update_fields M g inp).2.1,
    (Game.update_fields M g inp).2.2.1]
  exact (Game.updateHead_fields M g inp).2.2.2.2.2.2.2

theorem Game.update_player (M : JsMath K) (g : Game K) (inp : Input K) :
    (g.update M inp).player =
      g.player.move M (Game.moveDelta inp.keys).1 (Game.moveDelta inp.keys).2 g.ventSystem := by
  rw [(Game.update_fields M g inp).1, (Game.updateHead_fields M g inp).1]

/-- A step in which no tank is within reach of the player and the player is
not yet 400 past the last tank: the tanks stay and the oxygen is only drained. -/
theorem Game.update_quiet (M : JsMath K) (g : Game K) (inp : Input K) (last : OxygenTank K)
    (hreach : ∀ t ∈ g.oxygenTanks, Game.tankInReach M (g.update M inp).player t = false)
    (hl : g.oxygenTanks.getLast? = some last)
    (hx : (g.update M inp).player.x - last.x ≤ 400) :
    (g.update M inp).oxygenTanks = g.oxygenTanks ∧
    (g.update M inp).oxygen = max 0 (g.oxygen - Game.oxygenDrain inp.keys) := by
  have hp : (g.update M inp).player = (g.updateHead M inp).player := (Game.update_fields M g inp).1
  have hkeep : g.oxygenTanks.filter (fun t => !Game.tankInReach M (g.update M inp).player t)
      = g.oxygenTanks := by
    rw [List.filter_eq_self]
    intro t ht
    simp [hreach t ht]
  have hnone : g.oxygenTanks.filter (Game.tankInReach M (g.update M inp).player) = [] := by
    rw [List.filter_eq_nil_iff]
    intro t ht
    simp [hreach t ht]
  have htanks : ((g.updateHead M inp).checkTankCollection M inp.rand).1.oxygenTanks
      = g.oxygenTanks := by
    rw [Game.checkTankCollection_tanks, ← hp, (Game.updateHead_fields M g inp).2.2.2.2.1, hkeep]
  constructor
  · rw [(Game.update_fields M g inp).2.2.2.2.2, Game.spawnNewTanks_idle _ _ _ last, htanks]
    · rw [htanks]; exact hl
    · have := (Game.checkTankCollection_frame_fields M (g.updateHead M inp) inp.rand).1
      rw [this, ← hp]; exact hx
  · rw [(Game.update_fields M g inp).2.2.2.2.1, Game.checkTankCollection_oxygen,
      (Game.updateHead_fields M g inp).2.2.2.2.1, ← hp, hnone,
      (Game.updateHead_fields M g inp).2.2.1]
    rfl

/-! ## The state after the reset of `start()` -/

theorem Game.startSetup_fields (M : JsMath K) (g : Game K) (rand : Nat → K) :
    (Game.startSetup M g rand).1.gameRunning = true ∧
    (Game.startSetup M g rand).1.oxygen = CONFIG.oxygen.max ∧
    (Game.startSetup M g rand).1.distance = 0 ∧
    (Game.startSetup M g rand).1.particles = [] ∧
    (Game.startSetup M g rand).1.player = Player.new CONFIG.player.startX CONFIG.player.startY ∧
    (Game.startSetup M g rand).1.monster =
      (Monster.new M rand 0 (-CONFIG.monster.startDistance) CONFIG.player.startY).1 ∧
    (Game.startSetup M g rand).1.ventSystem = (VentSystem.new rand 12).1 ∧
    (Game.startSetup M g rand).1.deathMessage = g.deathMessage := by
  unfold Game.startSetup
  simp only
  rw [Game.spawnOxygenTank_frame]
  simp [Monster.new]

/-- With no turn drawn the centerline stays put: the walls pushed by the loop
are at `y - 200` and `y + 200`, 80 thick. -/
theorem VentSystem.generateLoop_straight (rand : Nat → K) (hr : ∀ n, ¬ rand n < 0.15) :
    ∀ (n : Nat) (x y : K) (walls : List (Wall K)) (c : Nat),
      ∀ w ∈ (VentSystem.generateLoop rand n x y walls c).1,
        w ∈ walls ∨ ((w.y = y - 200 ∨ w.y = y + 200) ∧ w.height = 80) := by
  intro n
  induction n with
  | zero => intro x y walls c w hw; exact Or.inl hw
  | succ n ih =>
    intro x y walls c w hw
    unfold VentSystem.generateLoop at hw
    simp only [CONFIG.vent.turningChance, hr c, if_false] at hw
    rcases ih _ _ _ _ w hw with h | h
    · simp only [List.mem_append, List.mem_singleton] at h
      rcases h with (h | h) | h
      · exact Or.inl h
      · right; subst h; simp; left; norm_num
      · right; subst h; simp; right; norm_num
    · exact Or.inr h

theorem VentSystem.checkCollision_row (v : VentSystem K)
    (hw : ∀ w ∈ v.walls, w.y + w.height ≤ 392 ∨ 408 ≤ w.y) (x : K) :
    v.checkCollision x 400 16 = false := by
  unfold VentSystem.checkCollision
  simp only [List.any_eq_false]
  intro w hmem
  have h8 : (16 : K) / 2 = 8 := by norm_num
  rw [h8]
  simp only [Bool.and_eq_true, decide_eq_true_eq, not_and, not_lt, gt_iff_lt]
  intro h3
  rcases hw w hmem with h | h
  · linarith
  · linarith [h3.2]

theorem rightRun_setup (M : JsMath K) (prev : Game K) (rand : Nat → K)
    (hr : ∀ n, rand n = 1 / 2) : RightRun 0 (Game.startSetup M prev rand).1 := by
  obtain ⟨hrun, hox, _, _, hp, hm, hv, _⟩ := Game.startSetup_fields M prev rand
  obtain ⟨c, hc⟩ := Game.startSetup_tanks M prev rand
  refine ⟨hrun, ?_, ?_, ?_, ?_, ?_, ?_, ?_, ?_⟩
  · rw [hp]; simp [Player.new]
  · rw [hp]; simp [Player.new]
  · rw [hp]; simp [Player.new]
  · rw [hv]
    intro w hmem
    have hstraight := VentSystem.generateLoop_straight rand
      (fun n => by rw [hr n]; norm_num) 100 (-500) (CONFIG.canvas.height / 2) [] 12 w hmem
    rcases hstraight with h | ⟨h | h, hh⟩
    · simp at h
    · left; rw [h, hh]; simp; norm_num
    · right; rw [h]; simp; norm_num
  · refine ⟨_, hc, ?_, ?_⟩
    · simp [OxygenTank.new]; norm_num
    · rw [hr c]; simp [OxygenTank.new]; norm_num
  · rw [hm]; simp [Monster.new]
  · rw [hm]; simp [Monster.new]
  · rw [hox]; simp

/-! ## A run with only `d` held -/

theorem Player.move_free (M : JsMath K) (p : Player K) (dx dy : K) (v : VentSystem K)
    (h1 : v.checkCollision (p.x + dx) p.y p.size = false)
    (h2 : v.checkCollision (p.x + dx) (p.y + dy) p.size = false) :
    (p.move M dx dy v).x = p.x + dx ∧ (p.move M dx dy v).y = p.y + dy ∧
    (p.move M dx dy v).size = p.size := by
  unfold Player.move
  simp only [h1, h2, if_true]
  split_ifs <;> exact ⟨rfl, rfl, rfl⟩

theorem Game.moveDelta_right (keys : Keys) (h : keys = { Keys.none with d := true }) :
    (Game.moveDelta keys : K × K) = (2.5, 0) := by
  subst h
  simp [Game.moveDelta, Game.moveSpeed, Keys.none]

theorem Game.oxygenDrain_walk (keys : Keys) (h : keys.shift = false) :
    (Game.oxygenDrain keys : K) = 0.08 := by
  simp [Game.oxygenDrain, h]

theorem Game.monsterSpeed_le (d : K) : Game.monsterSpeed d ≤ 3.5 := by
  unfold Game.monsterSpeed
  exact min_le_right _ _

theorem Game.run_concat (M : JsMath K) (g : Game K) (inps : List (Input K)) (i : Input K) :
    Game.run M g (inps ++ [i]) = (Game.run M g inps).gameLoop M i := by
  unfold Game.run
  rw [List.foldl_append]
  rfl

theorem rightRun_player {M : JsMath K} {k : Nat} {g : Game K} (inp : Input K)
    (hkeys : inp.keys = { Keys.none with d := true }) (h : RightRun k g) :
    (g.update M inp).player.x = 100 + 2.5 * ((k + 1 : Nat) : K) ∧
    (g.update M inp).player.y = 400 ∧ (g.update M inp).player.size = 16 := by
  obtain ⟨_, hpx, hpy, hps, hwalls, _, _, _, _⟩ := h
  have hfree := Player.move_free M g.player 2.5 0 g.ventSystem
    (by rw [hpy, hps]; exact VentSystem.checkCollision_row _ hwalls _)
    (by rw [hpy, hps, add_zero]; exact VentSystem.checkCollision_row _ hwalls _)
  rw [Game.update_player, Game.moveDelta_right _ hkeys]
  refine ⟨?_, ?_, ?_⟩
  · rw [hfree.1, hpx]; push_cast; ring
  · rw [hfree.2.1, hpy, add_zero]
  · rw [hfree.2.2, hps]

theorem rightRun_step {M : JsMath K} (hM : M.Exact) (k : Nat) (hk : k < 108) (g : Game K)
    (inp : Input K) (hkeys : inp.keys = { Keys.none with d := true }) (h : RightRun k g) :
    RightRun (k + 1) (g.gameLoop M inp) := by
  obtain ⟨hpx, hpy, hps⟩ := rightRun_player (M := M) inp hkeys h
  obtain ⟨hrun, _, _, _, hwalls, ⟨t, htanks, htx, hty⟩, hmy, hmx, hox⟩ := h
  have hk1 : ((k + 1 : Nat) : K) ≤ 108 := by exact_mod_cast hk
  have hk0 : (0 : K) ≤ ((k + 1 : Nat) : K) := Nat.cast_nonneg _
  have hkk : ((k + 1 : Nat) : K) = (k : K) + 1 := by push_cast; ring
  have hquiet := Game.update_quiet M g inp t
    (by
      intro u hu
      rw [htanks, List.mem_singleton] at hu
      subst hu
      unfold Game.tankInReach
      rw [decide_eq_false_iff_not, hpx, hpy, htx, hty, sub_self, hM.axis,
        abs_of_nonpos (by linarith)]
      linarith)
    (by rw [htanks]; rfl)
    (by rw [hpx, htx]; linarith)
  have hmon := Monster.update_row hM g.monster (g.update M inp).player
    (Game.monsterSpeed (g.update M inp).distance) (by rw [hpy, hmy]) (by rw [hpx]; linarith)
  rw [← Game.update_monster] at hmon
  have hspeed := Game.monsterSpeed_le (g.update M inp).distance
  have hoxy : 100 - 0.08 * ((k + 1 : Nat) : K) ≤ (g.update M inp).oxygen := by
    rw [hquiet.2, Game.oxygenDrain_walk _ (by rw [hkeys]; rfl)]
    refine le_trans ?_ (le_max_right _ _)
    rw [hkk]; linarith
  have hrun1 : (g.update M inp).gameRunning = true := by
    rw [Game.update_gameRunning, if_neg, hrun]
    rw [not_or]
    constructor
    · linarith
    · rw [hpy, hmon.2, hmy, sub_self, hM.axis, hmon.1, hpx, abs_of_nonneg (by linarith)]
      rw [hkk] at hk1 ⊢
      linarith
  rw [Game.gameLoop_running M g inp hrun]
  obtain ⟨rp, rm, rv, _, _, _, rr, ro, _, _, _, _⟩ := Game.render_frame_fields (g.update M inp)
  rw [RightRun, rp, rm, rv, rr, ro, Game.render_oxygenTanks, hquiet.1, htanks]
  refine ⟨hrun1, hpx, hpy, hps, ?_, ⟨t.render, rfl, htx, hty⟩, ?_, ?_, hoxy⟩
  · rw [(Game.update_fields M g inp).2.2.2.1]; exact hwalls
  · rw [hmon.2, hmy]
  · rw [hmon.1, hkk]; linarith

theorem rightRun_run {M : JsMath K} (hM : M.Exact) (prev : Game K) (r : K) (hr : r = 1 / 2)
    (n : Nat) (hn : n ≤ 107) :
    RightRun (n + 1)
      (Game.run M (Game.start M prev (rightInput r)) (List.replicate n (rightInput r))) := by
  induction n with
  | zero =>
    show RightRun 1 (Game.start M prev (rightInput r))
    unfold Game.start
    exact rightRun_step hM 0 (by norm_num) _ _ rfl
      (rightRun_setup M prev _ (fun n => hr))
  | succ n ih =>
    rw [List.replicate_succ', Game.run_concat]
    exact rightRun_step hM (n + 1) (by omega) _ _ rfl (ih (by omega))

/-- The frame after `RightRun 108`: the tank is collected and the next one is
spawned 300 ahead of the player. -/
theorem rightRun_pickup {M : JsMath K} (hM : M.Exact) (g : Game K) (inp : Input K)
    (hkeys : inp.keys = { Keys.none with d := true }) (hr : ∀ n, inp.rand n = 1 / 2)
    (h : RightRun 108 g) :
    (g.gameLoop M inp).oxygenTanks.map (fun t => (t.x, t.y)) = [(672.5, 400)] := by
  obtain ⟨hpx, hpy, _⟩ := rightRun_player (M := M) inp hkeys h
  obtain ⟨hrun, _, _, _, _, ⟨t, htanks, htx, hty⟩, _, _, _⟩ := h
  have hp : (g.update M inp).player = (g.updateHead M inp).player := (Game.update_fields M g inp).1
  have hreach : Game.tankInReach M (g.update M inp).player t = true := by
    unfold Game.tankInReach
    rw [decide_eq_true_iff, hpx, hpy, htx, hty, sub_self, hM.axis]
    norm_num [abs_lt]
  have hempty : ((g.updateHead M inp).checkTankCollection M inp.rand).1.oxygenTanks = [] := by
    rw [Game.checkTankCollection_tanks, ← hp, (Game.updateHead_fields M g inp).2.2.2.2.1, htanks]
    simp [List.filter_cons, hreach]
  rw [Game.gameLoop_running M g inp hrun, Game.render_oxygenTanks,
    (Game.update_fields M g inp).2.2.2.2.2]
  unfold Game.spawnNewTanks
  rw [hempty]
  simp only [List.getLast?_nil]
  rw [Game.spawnOxygenTank_nil _ _ _ hempty,
    (Game.checkTankCollection_frame_fields M (g.updateHead M inp) inp.rand).1, ← hp, hpx, hr]
  simp only [CONFIG.canvas.height, List.map_cons, List.map_nil, OxygenTank.render,
    OxygenTank.new]
  norm_num

/-- C7, refuted as stated: in the run from `start()` with `d` held in every
frame and every random draw `1/2`, the tank of the initial spawn, at X 400, is
still the only tank after 108 frames; frame 109 picks it up and spawns the next
tank at X 672.5, which is less than 400 + 400. -/
theorem spawn_spacing_counterexample :
    (Game.run realMath (Game.start realMath Game.blank (rightInput (1 / 2)))
      (List.replicate 107 (rightInput (1 / 2)))).oxygenTanks.map (fun t => (t.x, t.y))
        = [(400, 400)] ∧
    (Game.run realMath (Game.start realMath Game.blank (rightInput (1 / 2)))
      (List.replicate 108 (rightInput (1 / 2)))).oxygenTanks.map (fun t => (t.x, t.y))
        = [(672.5, 400)] ∧
    ¬ ((400 : ℝ) + 400 ≤ 672.5) := by
  have h108 := rightRun_run realMath_exact Game.blank (1 / 2 : ℝ) rfl 107 (le_refl _)
  refine ⟨?_, ?_, by norm_num⟩
  · obtain ⟨t, ht, htx, hty⟩ := h108.2.2.2.2.2.1
    rw [ht, List.map_cons, List.map_nil, htx, hty]
  · rw [List.replicate_succ', Game.run_concat]
    exact rightRun_pickup realMath_exact _ _ rfl (fun _ => rfl) h108

/-! ## C9: the speed of the pursuer -/

theorem Game.monsterSpeed_mono {d e : K} (h : d ≤ e) : Game.monsterSpeed d ≤ Game.monsterSpeed e := by
  unfold Game.monsterSpeed
  apply min_le_min_right
  simp only [CONFIG.monster.baseSpeed, CONFIG.monster.speedIncrease]
  have : d * 0.0003 ≤ e * 0.0003 := mul_le_mul_of_nonneg_right h (by norm_num)
  linarith

theorem Game.monsterSpeed_nonneg {d : K} (h : 0 ≤ d) : 0 ≤ Game.monsterSpeed d := by
  unfold Game.monsterSpeed
  apply le_min
  · simp only [CONFIG.monster.baseSpeed, CONFIG.monster.speedIncrease]
    have : 0 ≤ d * 0.0003 := mul_nonneg h (by norm_num)
    have h12 : (0 : K) ≤ 1.2 := by norm_num
    linarith
  · simp only [CONFIG.monster.maxSpeed]; norm_num

theorem Game.update_distance_ge (M : JsMath K) (g : Game K) (inp : Input K) :
    g.distance ≤ (g.update M inp).distance := by
  rw [(Game.update_fields M g inp).2.2.1, (Game.updateHead_fields M g inp).2.1]
  split_ifs
  · have := abs_nonneg (Game.moveDelta inp.keys : K × K).1
    linarith
  · exact le_refl _

theorem Game.gameLoop_distance_ge (M : JsMath K) (g : Game K) (inp : Input K) :
    g.distance ≤ (g.gameLoop M inp).distance := by
  unfold Game.gameLoop
  split_ifs
  · exact le_refl _
  · rw [(Game.render_frame_fields _).2.2.2.2.2.1]
    exact Game.update_distance_ge M g inp

theorem Game.run_distance_nonneg (M : JsMath K) (prev : Game K) (inp0 : Input K)
    (inps : List (Input K)) : 0 ≤ (Game.run M (Game.start M prev inp0) inps).distance := by
  have hstart : 0 ≤ (Game.start M prev inp0).distance := by
    unfold Game.start
    refine le_trans ?_ (Game.gameLoop_distance_ge M _ _)
    rw [(Game.startSetup_fields M prev inp0.rand).2.2.1]
  exact Game.run_inv M (fun g => 0 ≤ g.distance)
    (fun g inp hg => le_trans hg (Game.gameLoop_distance_ge M g inp)) inps _ hstart

/-- C9. Pursuer speed is capped and never decreases: in the frame that follows
any state of a run, the monster is updated with the speed
`min(baseSpeed + distance * speedIncrease, maxSpeed)` taken at the distance
accounted in that frame; this speed lies between 0 and `maxSpeed`, and it is at
least the speed of the previous frame, which was taken at the distance of the
state before.  The same holds for the first frame, run inside `start()`. -/
theorem pursuer_speed_capped_monotone (M : JsMath K) (prev : Game K) (inp0 : Input K)
    (inps : List (Input K)) (inp : Input K) :
    ((Game.run M (Game.start M prev inp0) inps).update M inp).monster =
      (Game.run M (Game.start M prev inp0) inps).monster.update M
        ((Game.run M (Game.start M prev inp0) inps).update M inp).player
        (Game.monsterSpeed ((Game.run M (Game.start M prev inp0) inps).update M inp).distance) ∧
    Game.monsterSpeed ((Game.run M (Game.start M prev inp0) inps).update M inp).distance =
      min (CONFIG.monster.baseSpeed +
          ((Game.run M (Game.start M prev inp0) inps).update M inp).distance *
            CONFIG.monster.speedIncrease)
        CONFIG.monster.maxSpeed ∧
    0 ≤ Game.monsterSpeed ((Game.run M (Game.start M prev inp0) inps).update M inp).distance ∧
    Game.monsterSpeed ((Game.run M (Game.start M prev inp0) inps).update M inp).distance
      ≤ CONFIG.monster.maxSpeed ∧
    Game.monsterSpeed (Game.run M (Game.start M prev inp0) inps).distance ≤
      Game.monsterSpeed ((Game.run M (Game.start M prev inp0) inps).update M inp).distance ∧
    (0 ≤ Game.monsterSpeed (Game.start M prev inp0).distance ∧
      Game.monsterSpeed (Game.start M prev inp0).distance ≤ CONFIG.monster.maxSpeed) := by
  have hd := Game.run_distance_nonneg M prev inp0 inps
  have h0 := Game.run_distance_nonneg M prev inp0 []
  generalize Game.run M (Game.start M prev inp0) inps = g at hd ⊢
  have hge := Game.update_distance_ge M g inp
  refine ⟨Game.update_monster M g inp, rfl, Game.monsterSpeed_nonneg (le_trans hd hge),
    Game.monsterSpeed_le _, Game.monsterSpeed_mono hge, Game.monsterSpeed_nonneg h0,
    Game.monsterSpeed_le _⟩

/-! ## C10: the pursuer seeks the player -/

theorem JsMath.Exact.eq_zero_iff {M : JsMath K} (hM : M.Exact) (a b : K) :
    M.hypot a b = 0 ↔ a = 0 ∧ b = 0 := by
  obtain ⟨h0, h1⟩ := hM a b
  constructor
  · intro h
    rw [h, mul_zero] at h1
    constructor <;> nlinarith [mul_self_nonneg a, mul_self_nonneg b]
  · rintro ⟨rfl, rfl⟩
    have : M.hypot 0 0 * M.hypot 0 0 = 0 := by rw [h1]; ring
    exact mul_self_eq_zero.1 this

/-- C10. Pure seek by exactly `speed`: when the monster is not at the player's
position, `Monster.update` moves it to `old + speed * (player - old) / dist`,
a point at Euclidean distance `speed` from the old position; when it is at the
player's position it stays.  The function receives no wall. -/
theorem monster_pure_seek (M : JsMath K) (hM : M.Exact) (m : Monster K) (p : Player K)
    (speed : K) (hs : 0 ≤ speed) :
    (¬ (p.x = m.x ∧ p.y = m.y) →
      (m.update M p speed).x = m.x + speed * (p.x - m.x) / M.hypot (p.x - m.x) (p.y - m.y) ∧
      (m.update M p speed).y = m.y + speed * (p.y - m.y) / M.hypot (p.x - m.x) (p.y - m.y) ∧
      M.hypot ((m.update M p speed).x - m.x) ((m.update M p speed).y - m.y) = speed) ∧
    ((p.x = m.x ∧ p.y = m.y) →
      (m.update M p speed).x = m.x ∧ (m.update M p speed).y = m.y) := by
  have hz := hM.eq_zero_iff (p.x - m.x) (p.y - m.y)
  obtain ⟨hd0, hd1⟩ := hM (p.x - m.x) (p.y - m.y)
  constructor
  · intro hne
    have hdne : M.hypot (p.x - m.x) (p.y - m.y) ≠ 0 := by
      intro h
      exact hne ⟨sub_eq_zero.1 (hz.1 h).1, sub_eq_zero.1 (hz.1 h).2⟩
    have hpos : 0 < M.hypot (p.x - m.x) (p.y - m.y) := lt_of_le_of_ne hd0 (Ne.symm hdne)
    have hx : (m.update M p speed).x =
        m.x + speed * (p.x - m.x) / M.hypot (p.x - m.x) (p.y - m.y) := by
      unfold Monster.update
      simp only [gt_iff_lt, hpos, if_true]
      ring
    have hy : (m.update M p speed).y =
        m.y + speed * (p.y - m.y) / M.hypot (p.x - m.x) (p.y - m.y) := by
      unfold Monster.update
      simp only [gt_iff_lt, hpos, if_true]
      ring
    refine ⟨hx, hy, ?_⟩
    obtain ⟨hn0, hn1⟩ := hM ((m.update M p speed).x - m.x) ((m.update M p speed).y - m.y)
    apply (mul_self_inj hn0 hs).1
    rw [hn1, hx, hy]
    field_simp
    rw [hd1]
    ring
  · rintro ⟨hx, hy⟩
    have hdz : M.hypot (p.x - m.x) (p.y - m.y) = 0 := hz.2 ⟨sub_eq_zero.2 hx, sub_eq_zero.2 hy⟩
    unfold Monster.update
    simp [hdz]

theorem awayPlayer_hypot : realMath.hypot (awayPlayer.x - originMonster.x)
    (awayPlayer.y - originMonster.y) = 5 := by
  obtain ⟨h0, h1⟩ := realMath_exact (awayPlayer.x - originMonster.x)
    (awayPlayer.y - originMonster.y)
  apply (mul_self_inj h0 (by norm_num)).1
  rw [h1]
  simp only [awayPlayer, originMonster]
  norm_num

/-- C10, at a concrete step: from the origin towards (3, 4) with speed 2. -/
theorem monster_pure_seek_witness :
    (0 : ℝ) ≤ 2 ∧ ¬ (awayPlayer.x = originMonster.x ∧ awayPlayer.y = originMonster.y) ∧
    (originMonster.update realMath awayPlayer 2).x = originMonster.x + 2 * (3 - 0) / 5 ∧
    realMath.hypot ((originMonster.update realMath awayPlayer 2).x - originMonster.x)
      ((originMonster.update realMath awayPlayer 2).y - originMonster.y) = 2 :=
  have hs : (0 : ℝ) ≤ 2 := by norm_num
  have hne : ¬ (awayPlayer.x = originMonster.x ∧ awayPlayer.y = originMonster.y) := by
    simp [awayPlayer, originMonster]
  have h := (monster_pure_seek realMath realMath_exact originMonster awayPlayer 2 hs).1 hne
  ⟨hs, hne, by rw [h.1, awayPlayer_hypot]; rfl, h.2.2⟩

/-! ## C4: a run with no key held -/

theorem idleRun_setup (M : JsMath K) (prev : Game K) (rand : Nat → K) :
    IdleRun 0 (Game.startSetup M prev rand).1 := by
  obtain ⟨hrun, hox, hd, _, hp, hm, _, _⟩ := Game.startSetup_fields M prev rand
  obtain ⟨c, hc⟩ := Game.startSetup_tanks M prev rand
  refine ⟨hrun, ?_, ?_, hd, ⟨_, hc, ?_⟩, ?_, ?_, ?_⟩
  · rw [hp]; simp [Player.new]
  · rw [hp]; simp [Player.new]
  · simp [OxygenTank.new]; norm_num
  · rw [hm]; simp [Monster.new]
  · rw [hm]; simp [Monster.new]
  · rw [hox]; simp

/-- The fields of the state after an idle frame, before the game-over checks are
read: player, distance, tanks, oxygen, monster. -/
theorem idleRun_frame {M : JsMath K} (hM : M.Exact) (k : Nat) (hk : k < 721) (g : Game K)
    (inp : Input K) (hkeys : inp.keys = Keys.none) (h : IdleRun k g) :
    (g.update M inp).player.x = 100 ∧ (g.update M inp).player.y = 400 ∧
    (g.update M inp).distance = 0 ∧
    (g.update M inp).oxygenTanks = g.oxygenTanks ∧
    (g.update M inp).oxygen = 100 - 0.08 * ((k + 1 : Nat) : K) ∧
    (g.update M inp).monster.x = -800 + 1.2 * ((k + 1 : Nat) : K) ∧
    (g.update M inp).monster.y = 400 := by
  obtain ⟨hrun, hpx, hpy, hd, ⟨t, htanks, htx⟩, hmx, hmy, hox⟩ := h
  have hk1 : ((k + 1 : Nat) : K) ≤ 721 := by exact_mod_cast hk
  have hkk : ((k + 1 : Nat) : K) = (k : K) + 1 := by push_cast; ring
  have hp : (g.update M inp).player = g.player := by
    rw [Game.update_player, hkeys, Game.moveDelta_none, Player.move_zero]
  have hdist : (g.update M inp).distance = 0 := by
    rw [(Game.update_fields M g inp).2.2.1, (Game.updateHead_fields M g inp).2.1, hkeys,
      Game.moveDelta_none]
    simp [hd]
  have hquiet := Game.update_quiet M g inp t
    (by
      intro u hu
      rw [htanks, List.mem_singleton] at hu
      subst hu
      unfold Game.tankInReach
      rw [decide_eq_false_iff_not, hM.lt_iff _ _ _ (by norm_num), hp, hpx, htx]
      nlinarith [mul_self_nonneg (g.player.y - u.y)])
    (by rw [htanks]; rfl)
    (by rw [hp, hpx, htx]; norm_num)
  have hspeed : Game.monsterSpeed (g.update M inp).distance = 1.2 := by
    rw [hdist]
    simp [Game.monsterSpeed]
    norm_num
  have hmon := Monster.update_row hM g.monster (g.update M inp).player
    (Game.monsterSpeed (g.update M inp).distance) (by rw [hp, hpy, hmy])
    (by rw [hp, hpx, hmx]; rw [hkk] at hk1; linarith)
  rw [← Game.update_monster, hspeed] at hmon
  refine ⟨by rw [hp, hpx], by rw [hp, hpy], hdist, hquiet.1, ?_, ?_, ?_⟩
  · rw [hquiet.2, hkeys, Game.oxygenDrain_none, hox, hkk, max_eq_right]
    · ring
    · rw [hkk] at hk1; linarith
  · rw [hmon.1, hmx, hkk]; ring
  · rw [hmon.2, hmy]

theorem idleRun_step {M : JsMath K} (hM : M.Exact) (k : Nat) (hk : k < 720) (g : Game K)
    (inp : Input K) (hkeys : inp.keys = Keys.none) (h : IdleRun k g) :
    IdleRun (k + 1) (g.gameLoop M inp) := by
  obtain ⟨hpx, hpy, hdist, htk, hoxy, hmx, hmy⟩ :=
    idleRun_frame hM k (by omega) g inp hkeys h
  obtain ⟨hrun, _, _, _, ⟨t, htanks, htx⟩, _, _, _⟩ := h
  have hk1 : ((k + 1 : Nat) : K) ≤ 720 := by exact_mod_cast hk
  have hrun1 : (g.update M inp).gameRunning = true := by
    rw [Game.update_gameRunning, if_neg, hrun]
    rw [not_or]
    constructor
    · rw [hoxy]; linarith
    · rw [hpy, hmy, sub_self, hM.axis, hpx, hmx, abs_of_nonneg (by linarith)]
      linarith
  rw [Game.gameLoop_running M g inp hrun]
  obtain ⟨rp, rm, _, _, _, rd, rr, ro, _, _, _, _⟩ := Game.render_frame_fields (g.update M inp)
  rw [IdleRun, rp, rm, rd, rr, ro, Game.render_oxygenTanks, htk, htanks]
  exact ⟨hrun1, hpx, hpy, hdist, ⟨t.render, rfl, htx⟩, hmx, hmy, hoxy⟩

/-- Frame 721 of the idle run: the monster is 34.8 from the player. -/
theorem idleRun_caught {M : JsMath K} (hM : M.Exact) (g : Game K) (inp : Input K)
    (hkeys : inp.keys = Keys.none) (h : IdleRun 720 g) :
    (g.gameLoop M inp).gameRunning = false ∧
    (g.gameLoop M inp).deathMessage = some "It caught you..." ∧
    (g.gameLoop M inp).oxygen = 42.32 := by
  obtain ⟨hpx, hpy, _, _, hoxy, hmx, hmy⟩ := idleRun_frame hM 720 (by omega) g inp hkeys h
  obtain ⟨hrun, _, _, _, _, _, _, _⟩ := h
  have hnear : M.hypot ((g.update M inp).player.x - (g.update M inp).monster.x)
      ((g.update M inp).player.y - (g.update M inp).monster.y) < 35 := by
    rw [hpy, hmy, sub_self, hM.axis, hpx, hmx]
    push_cast
    norm_num [abs_lt]
  rw [Game.gameLoop_running M g inp hrun]
  obtain ⟨_, _, _, _, _, _, rr, ro, _, _, _, rdm⟩ := Game.render_frame_fields (g.update M inp)
  rw [rr, ro, rdm]
  refine ⟨?_, ?_, ?_⟩
  · rw [Game.update_gameRunning, if_pos (Or.inr hnear)]
  · rw [Game.update_deathMessage, if_pos hnear]
  · rw [hoxy]; push_cast; norm_num

theorem Game.run_cons (M : JsMath K) (g : Game K) (i : Input K) (inps : List (Input K)) :
    Game.run M g (i :: inps) = Game.run M (g.gameLoop M i) inps := rfl

theorem Game.gameLoop_stopped (M : JsMath K) (g : Game K) (inp : Input K)
    (h : g.gameRunning = false) : g.gameLoop M inp = g := by
  unfold Game.gameLoop; rw [if_pos h]

theorem Game.run_stopped (M : JsMath K) (inps : List (Input K)) :
    ∀ g : Game K, g.gameRunning = false → Game.run M g inps = g := by
  induction inps with
  | nil => intro g _; rfl
  | cons i is ih => intro g h; rw [Game.run_cons, Game.gameLoop_stopped M g i h]; exact ih g h

/-- The idle run from any state `IdleRun k`: still running while fewer than 720
frames were played, caught in frame 721, stopped from then on. -/
theorem idleRun_run {M : JsMath K} (hM : M.Exact) (inps : List (Input K)) :
    ∀ (k : Nat) (g : Game K), IdleRun k g → (∀ i ∈ inps, i.keys = Keys.none) →
      (k + inps.length ≤ 720 → IdleRun (k + inps.length) (Game.run M g inps)) ∧
      (k ≤ 720 → 721 ≤ k + inps.length →
        (Game.run M g inps).gameRunning = false ∧
        (Game.run M g inps).deathMessage = some "It caught you..." ∧
        (Game.run M g inps).oxygen = 42.32) := by
  induction inps with
  | nil =>
    intro k g h _
    refine ⟨fun _ => h, fun h1 h2 => ?_⟩
    simp at h2
    omega
  | cons i is ih =>
    intro k g h hkeys
    have hi : i.keys = Keys.none := hkeys i (List.mem_cons_self _ _)
    have his : ∀ j ∈ is, j.keys = Keys.none := fun j hj => hkeys j (List.mem_cons_of_mem _ hj)
    rw [Game.run_cons, List.length_cons]
    by_cases hk : k < 720
    · have hstep := idleRun_step hM k hk g i hi h
      obtain ⟨ih1, ih2⟩ := ih (k + 1) _ hstep his
      constructor
      · intro hle
        have := ih1 (by omega)
        rwa [show k + (is.length + 1) = k + 1 + is.length by omega]
      · intro _ hge
        exact ih2 (by omega) (by omega)
    · constructor
      · intro hle; omega
      · intro hle _
        have hk720 : k = 720 := by omega
        subst hk720
        obtain ⟨hc1, hc2, hc3⟩ := idleRun_caught hM g i hi h
        rw [Game.run_stopped M is _ hc1]
        exact ⟨hc1, hc2, hc3⟩

theorem idleRun_from_start {M : JsMath K} (hM : M.Exact) (prev : Game K) (inp0 : Input K)
    (inps : List (Input K)) (h0 : inp0.keys = Keys.none)
    (hk : ∀ i ∈ inps, i.keys = Keys.none) :
    (inps.length + 1 ≤ 720 →
      IdleRun (inps.length + 1) (Game.run M (Game.start M prev inp0) inps)) ∧
    (721 ≤ inps.length + 1 →
      (Game.run M (Game.start M prev inp0) inps).gameRunning = false ∧
      (Game.run M (Game.start M prev inp0) inps).deathMessage = some "It caught you..." ∧
      (Game.run M (Game.start M prev inp0) inps).oxygen = 42.32) := by
  have hrun := idleRun_run hM
    ({ inp0 with rand := fun i => inp0.rand ((Game.startSetup M prev inp0.rand).2 + i) } :: inps)
    0 (Game.startSetup M prev inp0.rand).1 (idleRun_setup M prev inp0.rand)
    (by
      intro i hi
      rcases List.mem_cons.1 hi with h | h
      · rw [h]; exact h0
      · exact hk i h)
  rw [Game.run_cons, List.length_cons, Nat.zero_add] at hrun
  exact ⟨hrun.1, hrun.2 (by omega)⟩

/-- C4, refuted as stated: in the run from `start()` with no key held, frame 721
ends the game with the message of the capture, although the cumulative drain
`721 * drainRate` is still below `max`. -/
theorem suffocation_run_counterexample :
    (721 : ℝ) * CONFIG.oxygen.drainRate < CONFIG.oxygen.max ∧
    (Game.run realMath (Game.start realMath Game.blank (idleInput 0))
      (List.replicate 720 (idleInput 0))).gameRunning = false ∧
    (Game.run realMath (Game.start realMath Game.blank (idleInput 0))
      (List.replicate 720 (idleInput 0))).deathMessage = some "It caught you..." ∧
    (Game.run realMath (Game.start realMath Game.blank (idleInput 0))
      (List.replicate 720 (idleInput 0))).deathMessage ≠
        some "You suffocated in the darkness..." := by
  have h := (idleRun_from_start realMath_exact Game.blank (idleInput (0 : ℝ))
    (List.replicate 720 (idleInput 0)) rfl
    (fun i hi => by rw [List.eq_of_mem_replicate hi]; rfl)).2
    (le_of_eq (by rw [List.length_replicate]))
  refine ⟨by simp only [CONFIG.oxygen.drainRate, CONFIG.oxygen.max]; norm_num, h.1, h.2.1, ?_⟩
  rw [h.2.1]
  decide

/-- C4, amended. Starting from `start()` with no key held in any frame, for
every outcome of the random draws: the player stays at the start position, the
oxygen after frame `n` is `max - n * drainRate`, the game is still running
after each of the frames 1 to 720, and frame 721 ends it with the message
"It caught you..." at oxygen 42.32, because the monster, 900 away at the start
and closing 1.2 per frame, comes within 35; the game stays stopped afterwards,
so the drain never exhausts the oxygen. -/
theorem idle_run_ends_caught (M : JsMath K) (hM : M.Exact) (prev : Game K) (inp0 : Input K)
    (inps : List (Input K)) (h0 : inp0.keys = Keys.none)
    (hk : ∀ i ∈ inps, i.keys = Keys.none) :
    (inps.length + 1 ≤ 720 →
      (Game.run M (Game.start M prev inp0) inps).gameRunning = true ∧
      (Game.run M (Game.start M prev inp0) inps).oxygen =
        CONFIG.oxygen.max - ((inps.length + 1 : Nat) : K) * CONFIG.oxygen.drainRate ∧
      (Game.run M (Game.start M prev inp0) inps).player.x = CONFIG.player.startX ∧
      (Game.run M (Game.start M prev inp0) inps).player.y = CONFIG.player.startY) ∧
    (721 ≤ inps.length + 1 →
      (Game.run M (Game.start M prev inp0) inps).gameRunning = false ∧
      (Game.run M (Game.start M prev inp0) inps).deathMessage = some "It caught you..." ∧
      (Game.run M (Game.start M prev inp0) inps).oxygen = 42.32) := by
  obtain ⟨h1, h2⟩ := idleRun_from_start hM prev inp0 inps h0 hk
  refine ⟨fun hle => ?_, h2⟩
  obtain ⟨hrun, hpx, hpy, _, _, _, _, hox⟩ := h1 hle
  refine ⟨hrun, ?_, ?_, ?_⟩
  · rw [hox]; simp only [CONFIG.oxygen.max, CONFIG.oxygen.drainRate]; ring
  · rw [hpx]; rfl
  · rw [hpy]; rfl

/-- C4 amended, on a concrete run: after three idle frames the game is running
with oxygen `100 - 3 * 0.08`. -/
theorem idle_run_ends_caught_witness :
    (idleInput (1 / 2 : ℝ)).keys = Keys.none ∧
    [idleInput (1 / 2 : ℝ), idleInput (1 / 2)].length + 1 ≤ 720 ∧
    (Game.run realMath (Game.start realMath Game.blank (idleInput (1 / 2)))
      [idleInput (1 / 2), idleInput (1 / 2)]).gameRunning = true ∧
    (Game.run realMath (Game.start realMath Game.blank (idleInput (1 / 2)))
      [idleInput (1 / 2), idleInput (1 / 2)]).oxygen =
        CONFIG.oxygen.max - ((3 : Nat) : ℝ) * CONFIG.oxygen.drainRate :=
  have hk : ∀ i ∈ [idleInput (1 / 2 : ℝ), idleInput (1 / 2)], i.keys = Keys.none := by
    intro i hi
    simp only [List.mem_cons, List.mem_singleton, List.not_mem_nil, or_false, or_self] at hi
    rw [hi]; rfl
  have hlen : [idleInput (1 / 2 : ℝ), idleInput (1 / 2)].length + 1 ≤ 720 := by simp
  have h := (idle_run_ends_caught realMath realMath_exact Game.blank (idleInput (1 / 2))
    [idleInput (1 / 2), idleInput (1 / 2)] rfl hk).1 hlen
  ⟨rfl, hlen, h.1, h.2.1⟩

/-! ## Runs along the row of the start position -/

theorem Game.spawnNewTanks_mem (g : Game K) (rand : Nat → K) (c : Nat) :
    ∀ t ∈ (g.spawnNewTanks rand c).oxygenTanks,
      t ∈ g.oxygenTanks ∨ ∃ n, t.y = CONFIG.canvas.height / 2 + (rand n - 0.5) * 200 := by
  intro t ht
  unfold Game.spawnNewTanks at ht
  split at ht
  · next h =>
    rw [List.getLast?_eq_none_iff] at h
    rw [Game.spawnOxygenTank_nil g rand c h, List.mem_singleton] at ht
    exact Or.inr ⟨c, by rw [ht]; rfl⟩
  · next last h =>
    split_ifs at ht
    · rw [Game.spawnOxygenTank_last g rand c last h, List.mem_append, List.mem_singleton] at ht
      rcases ht with ht | ht
      · exact Or.inl ht
      · exact Or.inr ⟨c + 1, by rw [ht]; rfl⟩
    · exact Or.inl ht

theorem OnRow.congr {px dist mx ox px1 dist1 mx1 ox1 : K} {g : Game K}
    (h : OnRow px dist mx ox g) (h1 : px = px1) (h2 : dist = dist1) (h3 : mx = mx1)
    (h4 : ox = ox1) : OnRow px1 dist1 mx1 ox1 g := by
  subst h1 h2 h3 h4
  exact h

/-- The fields after a frame along the row, whatever the game-over checks say. -/
theorem onRow_frame {M : JsMath K} (hM : M.Exact) {px dist mx ox : K} (g : Game K)
    (inp : Input K) (dx : K) (hdx : 0 ≤ dx)
    (hdelta : (Game.moveDelta inp.keys : K × K) = (dx, 0))
    (hr : ∀ n, inp.rand n = 1 / 5) (hlt : mx < px + dx) (h : OnRow px dist mx ox g) :
    (g.update M inp).player.x = px + dx ∧ (g.update M inp).player.y = 400 ∧
    (g.update M inp).player.size = 16 ∧
    (∀ w ∈ (g.update M inp).ventSystem.walls, w.y + w.height ≤ 392 ∨ 408 ≤ w.y) ∧
    (g.update M inp).oxygenTanks ≠ [] ∧ (∀ t ∈ (g.update M inp).oxygenTanks, t.y = 340) ∧
    (g.update M inp).distance = dist + dx ∧
    (g.update M inp).monster.x = mx + Game.monsterSpeed (dist + dx) ∧
    (g.update M inp).monster.y = 400 ∧
    (g.update M inp).oxygen = max 0 (ox - Game.oxygenDrain inp.keys) := by
  obtain ⟨hrun, hpx, hpy, hps, hwalls, hne, hty, hd, hmx, hmy, hox⟩ := h
  have hfree := Player.move_free M g.player dx 0 g.ventSystem
    (by rw [hpy, hps]; exact VentSystem.checkCollision_row _ hwalls _)
    (by rw [hpy, hps, add_zero]; exact VentSystem.checkCollision_row _ hwalls _)
  have hp : (g.update M inp).player = (g.updateHead M inp).player := (Game.update_fields M g inp).1
  have hpx1 : (g.update M inp).player.x = px + dx := by
    rw [Game.update_player, hdelta, hfree.1, hpx]
  have hpy1 : (g.update M inp).player.y = 400 := by
    rw [Game.update_player, hdelta, hfree.2.1, hpy, add_zero]
  have hps1 : (g.update M inp).player.size = 16 := by
    rw [Game.update_player, hdelta, hfree.2.2, hps]
  have hd1 : (g.update M inp).distance = dist + dx := by
    rw [(Game.update_fields M g inp).2.2.1, (Game.updateHead_fields M g inp).2.1, hdelta, hd]
    split_ifs with hpos
    · rw [abs_of_pos hpos]
    · have : dx = 0 := le_antisymm (not_lt.1 hpos) hdx
      rw [this, add_zero]
  have hfar : ∀ t ∈ g.oxygenTanks, Game.tankInReach M (g.update M inp).player t = false := by
    intro t ht
    unfold Game.tankInReach
    rw [decide_eq_false_iff_not, hM.lt_iff _ _ _ (by norm_num), hpy1, hty t ht]
    nlinarith [mul_self_nonneg ((g.update M inp).player.x - t.x)]
  have hkeep : ((g.updateHead M inp).checkTankCollection M inp.rand).1.oxygenTanks
      = g.oxygenTanks := by
    rw [Game.checkTankCollection_tanks, ← hp, (Game.updateHead_fields M g inp).2.2.2.2.1,
      List.filter_eq_self]
    intro t ht
    simp [hfar t ht]
  have hnone : g.oxygenTanks.filter (Game.tankInReach M (g.update M inp).player) = [] := by
    rw [List.filter_eq_nil_iff]
    intro t ht
    simp [hfar t ht]
  obtain ⟨spawned, _, hsp⟩ := Game.spawnNewTanks_tanks
    ((g.updateHead M inp).checkTankCollection M inp.rand).1 inp.rand
    ((g.updateHead M inp).checkTankCollection M inp.rand).2
  have hmon := Monster.update_row hM g.monster (g.update M inp).player
    (Game.monsterSpeed (g.update M inp).distance) (by rw [hpy1, hmy]) (by rw [hpx1, hmx]; exact hlt)
  rw [← Game.update_monster, hd1, hmx, hmy] at hmon
  refine ⟨hpx1, hpy1, hps1, ?_, ?_, ?_, hd1, hmon.1, hmon.2, ?_⟩
  · rw [(Game.update_fields M g inp).2.2.2.1]; exact hwalls
  · rw [(Game.update_fields M g inp).2.2.2.2.2, hsp, hkeep]
    intro hnil
    exact hne (List.append_eq_nil.1 hnil).1
  · intro t ht
    rw [(Game.update_fields M g inp).2.2.2.2.2] at ht
    rcases Game.spawnNewTanks_mem _ _ _ t ht with h | ⟨n, hn⟩
    · rw [hkeep] at h; exact hty t h
    · rw [hn, hr n]; simp only [CONFIG.canvas.height]; norm_num
  · rw [(Game.update_fields M g inp).2.2.2.2.1, Game.checkTankCollection_oxygen,
      (Game.updateHead_fields M g inp).2.2.2.2.1, ← hp, hnone,
      (Game.updateHead_fields M g inp).2.2.1, hox]
    rfl

/-- A frame along the row that leaves the game running. -/
theorem onRow_step {M : JsMath K} (hM : M.Exact) {px dist mx ox : K} (g : Game K)
    (inp : Input K) (dx : K) (hdx : 0 ≤ dx)
    (hdelta : (Game.moveDelta inp.keys : K × K) = (dx, 0)) (hshift : inp.keys.shift = false)
    (hr : ∀ n, inp.rand n = 1 / 5)
    (hgap : mx + Game.monsterSpeed (dist + dx) + 35 ≤ px + dx)
    (hspeed : 0 ≤ Game.monsterSpeed (dist + dx)) (hbreath : 0.08 < ox)
    (h : OnRow px dist mx ox g) :
    OnRow (px + dx) (dist + dx) (mx + Game.monsterSpeed (dist + dx)) (ox - 0.08)
      (g.gameLoop M inp) := by
  obtain ⟨hpx, hpy, hps, hwalls, hne, hty, hd, hmx, hmy, hox⟩ :=
    onRow_frame hM g inp dx hdx hdelta hr (by linarith) h
  have hrun := h.1
  have hox1 : (g.update M inp).oxygen = ox - 0.08 := by
    rw [hox, Game.oxygenDrain_walk _ hshift, max_eq_right (by linarith)]
  have hrun1 : (g.update M inp).gameRunning = true := by
    rw [Game.update_gameRunning, if_neg, hrun]
    rw [not_or]
    constructor
    · rw [hox1]; linarith
    · rw [hpy, hmy, sub_self, hM.axis, hpx, hmx, abs_of_nonneg (by linarith)]
      linarith
  rw [Game.gameLoop_running M g inp hrun]
  obtain ⟨rp, rm, rv, _, _, rd, rr, ro, _, _, _, _⟩ := Game.render_frame_fields (g.update M inp)
  rw [OnRow, rp, rm, rv, rd, rr, ro, Game.render_oxygenTanks]
  refine ⟨hrun1, hpx, hpy, hps, hwalls, ?_, ?_, hd, hmx, hmy, hox1⟩
  · intro hnil
    exact hne (List.map_eq_nil_iff.1 hnil)
  · intro t ht
    obtain ⟨u, hu, rfl⟩ := List.mem_map.1 ht
    exact hty u hu

theorem onRow_setup (M : JsMath K) (prev : Game K) (rand : Nat → K)
    (hr : ∀ n, rand n = 1 / 5) : OnRow 100 0 (-800) 100 (Game.startSetup M prev rand).1 := by
  obtain ⟨hrun, hox, hd, _, hp, hm, hv, _⟩ := Game.startSetup_fields M prev rand
  obtain ⟨c, hc⟩ := Game.startSetup_tanks M prev rand
  refine ⟨hrun, ?_, ?_, ?_, ?_, ?_, ?_, hd, ?_, ?_, ?_⟩
  · rw [hp]; simp [Player.new]
  · rw [hp]; simp [Player.new]
  · rw [hp]; simp [Player.new]
  · rw [hv]
    intro w hmem
    have hstraight := VentSystem.generateLoop_straight rand
      (fun n => by rw [hr n]; norm_num) 100 (-500) (CONFIG.canvas.height / 2) [] 12 w hmem
    rcases hstraight with h | ⟨h | h, hh⟩
    · simp at h
    · left; rw [h, hh]; simp; norm_num
    · right; rw [h]; simp; norm_num
  · rw [hc]; simp
  · intro t ht
    rw [hc, List.mem_singleton] at ht
    rw [ht, hr c]; simp [OxygenTank.new]; norm_num
  · rw [hm]; simp [Monster.new]
  · rw [hm]; simp [Monster.new]
  · rw [hox]; simp

theorem Game.run_append (M : JsMath K) (g : Game K) (l1 l2 : List (Input K)) :
    Game.run M g (l1 ++ l2) = Game.run M (Game.run M g l1) l2 := by
  unfold Game.run
  rw [List.foldl_append]

theorem Game.monsterSpeed_uncapped (d : K) (h : d ≤ 7000) :
    Game.monsterSpeed d = 1.2 + d * 0.0003 := by
  unfold Game.monsterSpeed
  simp only [CONFIG.monster.baseSpeed, CONFIG.monster.speedIncrease, CONFIG.monster.maxSpeed]
  apply min_eq_left
  have : d * 0.0003 ≤ 7000 * 0.0003 := mul_le_mul_of_nonneg_right h (by norm_num)
  have h2 : (7000 : K) * 0.0003 = 2.1 := by norm_num
  have h3 : (1.2 : K) + 2.1 ≤ 3.5 := by norm_num
  linarith

/-- With `d` held and every draw `1/5`, after `n + 1` frames (at most 373): the
player walked `2.5` per frame and the monster `1.2 + 0.00075 i` in frame `i`. -/
theorem walk_run {M : JsMath K} (hM : M.Exact) (prev : Game K) (n : Nat) (hn : n ≤ 372) :
    OnRow (100 + 2.5 * ((n + 1 : Nat) : K)) (2.5 * ((n + 1 : Nat) : K))
      (-800 + 1.2 * ((n + 1 : Nat) : K)
        + 0.000375 * ((n + 1 : Nat) : K) * (((n + 1 : Nat) : K) + 1))
      (100 - 0.08 * ((n + 1 : Nat) : K))
      (Game.run M (Game.start M prev (rightInput (1 / 5)))
        (List.replicate n (rightInput (1 / 5)))) := by
  have hstep : ∀ (k : Nat) (g : Game K), k ≤ 372 →
      OnRow (100 + 2.5 * (k : K)) (2.5 * (k : K))
        (-800 + 1.2 * (k : K) + 0.000375 * (k : K) * ((k : K) + 1)) (100 - 0.08 * (k : K)) g →
      ∀ inp : Input K, inp.keys = { Keys.none with d := true } → (∀ n, inp.rand n = 1 / 5) →
      OnRow (100 + 2.5 * ((k + 1 : Nat) : K)) (2.5 * ((k + 1 : Nat) : K))
        (-800 + 1.2 * ((k + 1 : Nat) : K)
          + 0.000375 * ((k + 1 : Nat) : K) * (((k + 1 : Nat) : K) + 1))
        (100 - 0.08 * ((k + 1 : Nat) : K)) (g.gameLoop M inp) := by
    intro k g hk h inp hkeys hrand
    have hk1 : (k : K) ≤ 372 := by exact_mod_cast hk
    have hk0 : (0 : K) ≤ (k : K) := Nat.cast_nonneg _
    have hkk : ((k + 1 : Nat) : K) = (k : K) + 1 := by push_cast; ring
    have hsq : (k : K) * (k : K) ≤ 372 * 372 := mul_le_mul hk1 hk1 hk0 (by norm_num)
    have hsp : Game.monsterSpeed (2.5 * (k : K) + 2.5) = 1.2 + (2.5 * (k : K) + 2.5) * 0.0003 :=
      Game.monsterSpeed_uncapped _ (by linarith)
    have := onRow_step hM g inp 2.5 (by norm_num) (Game.moveDelta_right _ hkeys)
      (by rw [hkeys]; rfl) hrand (by rw [hsp]; linarith) (by rw [hsp]; linarith)
      (by linarith) h
    refine this.congr ?_ ?_ ?_ ?_
    · rw [hkk]; ring
    · rw [hkk]; ring
    · rw [hsp, hkk]; ring
    · rw [hkk]; ring
  induction n with
  | zero =>
    show OnRow _ _ _ _ (Game.start M prev (rightInput (1 / 5)))
    unfold Game.start
    refine hstep 0 _ (by omega) ?_ _ rfl (fun n => rfl)
    refine (onRow_setup M prev _ (fun n => rfl)).congr ?_ ?_ ?_ ?_ <;> simp
  | succ n ih =>
    rw [List.replicate_succ', Game.run_concat]
    exact hstep (n + 1) _ (by omega) (ih (by omega)) _ rfl (fun n => rfl)

/-- With no key held and every draw `1/5`: `j` more frames along the row, as long
as the monster stays 35 away and the oxygen lasts. -/
theorem wait_run {M : JsMath K} (hM : M.Exact) {px dist mx ox : K} (g : Game K)
    (h : OnRow px dist mx ox g) (hs : 0 ≤ Game.monsterSpeed dist) (j : Nat)
    (hgap : mx + Game.monsterSpeed dist * (j : K) + 35 ≤ px) (hbreath : 0.08 * (j : K) < ox) :
    OnRow px dist (mx + Game.monsterSpeed dist * (j : K)) (ox - 0.08 * (j : K))
      (Game.run M g (List.replicate j (idleInput (1 / 5)))) := by
  induction j with
  | zero => exact h.congr rfl rfl (by simp) (by simp)
  | succ j ih =>
    have hjj : ((j + 1 : Nat) : K) = (j : K) + 1 := by push_cast; ring
    rw [hjj] at hgap hbreath
    have ih1 := ih (by nlinarith) (by linarith)
    rw [List.replicate_succ', Game.run_concat]
    have := onRow_step hM _ (idleInput (1 / 5)) 0 (le_refl _) Game.moveDelta_none rfl
      (fun n => rfl) (by rw [add_zero, add_zero]; linarith) (by rw [add_zero]; exact hs)
      (by linarith) ih1
    refine this.congr (add_zero _) (add_zero _) ?_ ?_
    · rw [add_zero, hjj]; ring
    · rw [hjj]; ring

theorem Game.moveDelta_shift :
    (Game.moveDelta { Keys.none with shift := true } : K × K) = (0, 0) := by
  simp [Game.moveDelta, Keys.none]

theorem Game.oxygenDrain_shift :
    (Game.oxygenDrain { Keys.none with shift := true } : K) = 0.2 := by
  simp [Game.oxygenDrain, Keys.none]
  norm_num

theorem frame1248_onRow :
    OnRow (1030 : ℝ) 930 994.0375 0.16 frame1248 := by
  have hwalk := walk_run realMath_exact (Game.blank : Game ℝ) 371 (by norm_num)
  have hs : Game.monsterSpeed (2.5 * ((371 + 1 : Nat) : ℝ)) = 1.479 := by
    rw [Game.monsterSpeed_uncapped _ (by push_cast; norm_num)]; push_cast; norm_num
  have hwait := wait_run realMath_exact _ hwalk (by rw [hs]; norm_num) 876
    (by rw [hs]; push_cast; norm_num) (by push_cast; norm_num)
  unfold frame1248 walkThenWait
  rw [Game.run_append]
  refine hwait.congr ?_ ?_ ?_ ?_
  · push_cast; norm_num
  · push_cast; norm_num
  · rw [hs]; push_cast; norm_num
  · push_cast; norm_num

/-- Frame 1249, with only `shift` held: the drain of `0.2` takes the oxygen from
`0.16` to `-0.04` before the clamp, and the monster advances to `995.5165`,
`34.4835` from the player. -/
theorem frame1249_fields :
    (frame1248.update realMath (sprintInput (1 / 5))).oxygen = 0 ∧
    (frame1248.update realMath (sprintInput (1 / 5))).player.x = 1030 ∧
    (frame1248.update realMath (sprintInput (1 / 5))).monster.x = 995.5165 ∧
    realMath.hypot
      ((frame1248.update realMath (sprintInput (1 / 5))).player.x -
        (frame1248.update realMath (sprintInput (1 / 5))).monster.x)
      ((frame1248.update realMath (sprintInput (1 / 5))).player.y -
        (frame1248.update realMath (sprintInput (1 / 5))).monster.y) < 35 := by
  obtain ⟨hpx, hpy, _, _, _, _, _, hmx, hmy, hox⟩ :=
    onRow_frame realMath_exact frame1248 (sprintInput (1 / 5)) 0 (le_refl _)
      Game.moveDelta_shift (fun n => rfl) (by norm_num) frame1248_onRow
  have hs : Game.monsterSpeed ((930 : ℝ) + 0) = 1.479 := by
    rw [Game.monsterSpeed_uncapped _ (by norm_num)]; norm_num
  have hd : Game.oxygenDrain (sprintInput (1 / 5 : ℝ)).keys = (0.2 : ℝ) :=
    Game.oxygenDrain_shift
  refine ⟨?_, ?_, ?_, ?_⟩
  · rw [hox, hd]; norm_num
  · rw [hpx]; norm_num
  · rw [hmx, hs]; norm_num
  · rw [hpy, hmy, sub_self, realMath_exact.axis, hpx, hmx, hs]
    norm_num [abs_lt]

/-! ## C3: a run in which both checks fire in one frame -/

/-- C3, refuted as stated: in the run from `start()` with `d` held for 372 frames
and no key for the next 876 (every random draw `1/5`), the game is still running
after frame 1248, with oxygen `0.16` and the monster `35.9625` behind the player.
In frame 1249, with only `shift` held, the sprint drain `0.2` takes the oxygen to
`-0.04` before the clamp, so the post-step oxygen is `0`, and the monster comes
within `34.4835` of the player: both checks fire, and the message reported is
the one of the capture, not the one of the suffocation. -/
theorem death_message_priority_counterexample :
    frame1248.gameRunning = true ∧
    frame1248.oxygen = 0.16 ∧
    frame1248.player.x - frame1248.monster.x = 35.9625 ∧
    frame1248.oxygen - Game.oxygenDrain (sprintInput (1 / 5 : ℝ)).keys = -0.04 ∧
    (frame1248.update realMath (sprintInput (1 / 5))).oxygen ≤ 0 ∧
    (frame1248.update realMath (sprintInput (1 / 5))).player.x -
      (frame1248.update realMath (sprintInput (1 / 5))).monster.x = 34.4835 ∧
    (frame1248.update realMath (sprintInput (1 / 5))).deathMessage = some "It caught you..." ∧
    (frame1248.update realMath (sprintInput (1 / 5))).deathMessage ≠
      some "You suffocated in the darkness..." := by
  have h : (frame1248.update realMath (sprintInput (1 / 5))).deathMessage
      = some "It caught you..." := by
    rw [Game.update_deathMessage, if_pos frame1249_fields.2.2.2]
  obtain ⟨hrun, hpx, _, _, _, _, _, _, hmx, _, hox⟩ := frame1248_onRow
  have hd : Game.oxygenDrain (sprintInput (1 / 5 : ℝ)).keys = (0.2 : ℝ) :=
    Game.oxygenDrain_shift
  refine ⟨hrun, hox, ?_, ?_, frame1249_fields.1.le, ?_, h, ?_⟩
  · rw [hpx, hmx]; norm_num
  · rw [hox, hd]; norm_num
  · rw [frame1249_fields.2.1, frame1249_fields.2.2.1]; norm_num
  · rw [h]
    decide

/-! ## The walls generated by `generateVents` -/

theorem VentSystem.generateLoop_succ (rand : Nat → K) (n : Nat) (x y : K)
    (walls : List (Wall K)) (c : Nat) :
    VentSystem.generateLoop rand (n + 1) x y walls c =
      VentSystem.generateLoop rand n (x + CONFIG.vent.segmentLength)
        (VentSystem.turn rand y c).1
        (walls ++ [VentSystem.topWall x y] ++ [VentSystem.bottomWall x y])
        (VentSystem.turn rand y c).2 := by
  rw [VentSystem.generateLoop]
  unfold VentSystem.turn VentSystem.topWall VentSystem.bottomWall
  split_ifs <;> rfl

/-- The walls of the loop: those pushed before, and the top and bottom wall of
each of the iterations `i, ..., i + n - 1`. -/
theorem VentSystem.generateLoop_mem (rand : Nat → K) (c0 : Nat) (x0 : K) (w : Wall K) :
    ∀ (n i : Nat) (walls : List (Wall K)),
      w ∈ (VentSystem.generateLoop rand n (x0 + CONFIG.vent.segmentLength * (i : K))
          (VentSystem.centerline rand c0 i).1 walls (VentSystem.centerline rand c0 i).2).1 ↔
        w ∈ walls ∨ ∃ j : Nat, i ≤ j ∧ j < i + n ∧
          (w = VentSystem.topWall (x0 + CONFIG.vent.segmentLength * (j : K))
              (VentSystem.centerline rand c0 j).1 ∨
            w = VentSystem.bottomWall (x0 + CONFIG.vent.segmentLength * (j : K))
              (VentSystem.centerline rand c0 j).1) := by
  intro n
  induction n with
  | zero =>
    intro i walls
    simp only [VentSystem.generateLoop, Nat.add_zero]
    constructor
    · exact Or.inl
    · rintro (h | ⟨j, h1, h2, _⟩)
      · exact h
      · omega
  | succ n ih =>
    intro i walls
    rw [VentSystem.generateLoop_succ]
    have hx : x0 + CONFIG.vent.segmentLength * (i : K) + CONFIG.vent.segmentLength
        = x0 + CONFIG.vent.segmentLength * ((i + 1 : Nat) : K) := by push_cast; ring
    have hc : VentSystem.turn rand (VentSystem.centerline rand c0 i).1
        (VentSystem.centerline rand c0 i).2 = VentSystem.centerline rand c0 (i + 1) := rfl
    rw [hx, hc, ih (i + 1)]
    simp only [List.mem_append, List.mem_singleton]
    constructor
    · rintro (((h | h) | h) | ⟨j, h1, h2, h3⟩)
      · exact Or.inl h
      · exact Or.inr ⟨i, le_refl _, by omega, Or.inl h⟩
      · exact Or.inr ⟨i, le_refl _, by omega, Or.inr h⟩
      · exact Or.inr ⟨j, by omega, by omega, h3⟩
    · rintro (h | ⟨j, h1, h2, h3⟩)
      · exact Or.inl (Or.inl (Or.inl h))
      · by_cases hj : j = i
        · subst hj
          rcases h3 with h3 | h3
          · exact Or.inl (Or.inl (Or.inr h3))
          · exact Or.inl (Or.inr h3)
        · exact Or.inr ⟨j, by omega, by omega, h3⟩

theorem VentSystem.generateLoop_length (rand : Nat → K) :
    ∀ (n : Nat) (x y : K) (walls : List (Wall K)) (c : Nat),
      (VentSystem.generateLoop rand n x y walls c).1.length = walls.length + 2 * n := by
  intro n
  induction n with
  | zero => intro x y walls c; rfl
  | succ n ih =>
    intro x y walls c
    rw [VentSystem.generateLoop_succ, ih]
    simp only [List.length_append, List.length_singleton]
    omega

theorem VentSystem.generateLoop_cursor (rand : Nat → K) (c0 : Nat) :
    ∀ (n i : Nat) (x : K) (walls : List (Wall K)),
      (VentSystem.generateLoop rand n x (VentSystem.centerline rand c0 i).1 walls
        (VentSystem.centerline rand c0 i).2).2 = (VentSystem.centerline rand c0 (i + n)).2 := by
  intro n
  induction n with
  | zero => intro i x walls; rfl
  | succ n ih =>
    intro i x walls
    rw [VentSystem.generateLoop_succ]
    have hc : VentSystem.turn rand (VentSystem.centerline rand c0 i).1
        (VentSystem.centerline rand c0 i).2 = VentSystem.centerline rand c0 (i + 1) := rfl
    rw [hc, ih (i + 1)]
    congr 2
    omega

/-- The walls of a fresh vent system: the top and the bottom wall of each of the
100 segments, segment `j` starting at `x = -500 + 150 j`. -/
theorem VentSystem.new_mem (rand : Nat → K) (c : Nat) (w : Wall K) :
    w ∈ (VentSystem.new rand c).1.walls ↔
      ∃ j : Nat, j < 100 ∧
        (w = VentSystem.topWall (-500 + CONFIG.vent.segmentLength * (j : K))
            (VentSystem.centerline rand c j).1 ∨
          w = VentSystem.bottomWall (-500 + CONFIG.vent.segmentLength * (j : K))
            (VentSystem.centerline rand c j).1) := by
  have h := VentSystem.generateLoop_mem rand c (-500) w 100 0 []
  simp only [Nat.cast_zero, mul_zero, add_zero, List.not_mem_nil, false_or, Nat.zero_le,
    true_and, Nat.zero_add] at h
  exact h

theorem VentSystem.new_cursor (rand : Nat → K) (c : Nat) :
    (VentSystem.new rand c).2 = (VentSystem.centerline rand c 100).2 := by
  have h := VentSystem.generateLoop_cursor rand c 100 0 (-500) []
  rw [Nat.zero_add] at h
  exact h

theorem VentSystem.turn_bounds (rand : Nat → K) (y : K) (c : Nat)
    (h : CONFIG.canvas.height / 3 ≤ y ∧ y ≤ CONFIG.canvas.height * 2 / 3) :
    CONFIG.canvas.height / 3 ≤ (VentSystem.turn rand y c).1 ∧
      (VentSystem.turn rand y c).1 ≤ CONFIG.canvas.height * 2 / 3 := by
  unfold VentSystem.turn
  split_ifs
  · refine ⟨le_max_left _ _, max_le ?_ (min_le_left _ _)⟩
    simp only [CONFIG.canvas.height]; norm_num
  · exact h

theorem VentSystem.centerline_bounds (rand : Nat → K) (c0 : Nat) (i : Nat) :
    CONFIG.canvas.height / 3 ≤ (VentSystem.centerline rand c0 i).1 ∧
      (VentSystem.centerline rand c0 i).1 ≤ CONFIG.canvas.height * 2 / 3 := by
  induction i with
  | zero =>
    simp only [VentSystem.centerline, CONFIG.canvas.height]
    constructor <;> norm_num
  | succ i ih => exact VentSystem.turn_bounds rand _ _ ih

theorem VentSystem.checkCollision_iff (v : VentSystem K) (x y size : K) :
    v.checkCollision x y size = true ↔
      ∃ w ∈ v.walls, x - size / 2 < w.x + w.width ∧ x + size / 2 > w.x ∧
        y - size / 2 < w.y + w.height ∧ y + size / 2 > w.y := by
  unfold VentSystem.checkCollision
  simp only [List.any_eq_true, Bool.and_eq_true, decide_eq_true_eq]
  constructor
  · rintro ⟨w, hw, ⟨⟨h1, h2⟩, h3⟩, h4⟩
    exact ⟨w, hw, h2, h1, h4, h3⟩
  · rintro ⟨w, hw, h2, h1, h4, h3⟩
    exact ⟨w, hw, ⟨⟨h1, h2⟩, h3⟩, h4⟩

/-- C11. Tunnel always traversable: whatever the random draws, `generateVents`
pushes 200 walls, the top and the bottom wall of 100 segments; the centerline
of every segment lies in `[H/3, 2H/3]`; in every segment the gap between the
lower edge of the top wall and the upper edge of the bottom wall is
`H/2 - wallThickness = 320`; every wall lies above `2H/3 - H/4 + wallThickness`
or below `H/3 + H/4`, a band of height `H/6 - wallThickness`; and a box of size
16 centred on `y = 440` collides with no wall, at any `x`. -/
theorem tunnel_traversable (rand : Nat → K) (c : Nat) :
    (VentSystem.new rand c).1.walls = (VentSystem.generateVents rand c).1 ∧
    (VentSystem.new rand c).1.walls.length = 200 ∧
    (∀ w : Wall K, w ∈ (VentSystem.new rand c).1.walls ↔
      ∃ j : Nat, j < 100 ∧
        (w = VentSystem.topWall (-500 + CONFIG.vent.segmentLength * (j : K))
            (VentSystem.centerline rand c j).1 ∨
          w = VentSystem.bottomWall (-500 + CONFIG.vent.segmentLength * (j : K))
            (VentSystem.centerline rand c j).1)) ∧
    (∀ j : Nat, CONFIG.canvas.height / 3 ≤ (VentSystem.centerline rand c j).1 ∧
      (VentSystem.centerline rand c j).1 ≤ CONFIG.canvas.height * 2 / 3) ∧
    (∀ x y : K, (VentSystem.bottomWall x y).y -
        ((VentSystem.topWall x y).y + (VentSystem.topWall x y).height)
          = CONFIG.canvas.height / 2 - CONFIG.vent.wallThickness) ∧
    (CONFIG.canvas.height / 2 - CONFIG.vent.wallThickness : K) = 320 ∧
    (∀ w ∈ (VentSystem.new rand c).1.walls,
      w.y + w.height ≤ CONFIG.canvas.height * 2 / 3 - CONFIG.canvas.height / 4
          + CONFIG.vent.wallThickness ∨
        CONFIG.canvas.height / 3 + CONFIG.canvas.height / 4 ≤ w.y) ∧
    ((CONFIG.canvas.height / 3 + CONFIG.canvas.height / 4) -
        (CONFIG.canvas.height * 2 / 3 - CONFIG.canvas.height / 4 + CONFIG.vent.wallThickness)
      = (CONFIG.canvas.height / 6 - CONFIG.vent.wallThickness : K)) ∧
    (∀ x : K, (VentSystem.new rand c).1.checkCollision x 440 16 = false) := by
  have hband : ∀ w ∈ (VentSystem.new rand c).1.walls,
      w.y + w.height ≤ CONFIG.canvas.height * 2 / 3 - CONFIG.canvas.height / 4
          + CONFIG.vent.wallThickness ∨
        CONFIG.canvas.height / 3 + CONFIG.canvas.height / 4 ≤ w.y := by
    intro w hw
    obtain ⟨j, _, h | h⟩ := (VentSystem.new_mem rand c w).1 hw
    · left
      have hb := (VentSystem.centerline_bounds rand c j).2
      rw [h]
      simp only [VentSystem.topWall]
      linarith
    · right
      have hb := (VentSystem.centerline_bounds rand c j).1
      rw [h]
      simp only [VentSystem.bottomWall]
      linarith
  refine ⟨rfl, ?_, VentSystem.new_mem rand c, VentSystem.centerline_bounds rand c, ?_, ?_,
    hband, ?_, ?_⟩
  · show (VentSystem.generateLoop rand 100 _ _ [] c).1.length = 200
    rw [VentSystem.generateLoop_length]
    rfl
  · intro x y
    simp only [VentSystem.topWall, VentSystem.bottomWall]
    ring
  · simp only [CONFIG.canvas.height, CONFIG.vent.wallThickness]; norm_num
  · simp only [CONFIG.canvas.height, CONFIG.vent.wallThickness]; norm_num
  · intro x
    rw [← Bool.not_eq_true, VentSystem.checkCollision_iff]
    rintro ⟨w, hw, _, _, h3, h4⟩
    have h8 : (16 : K) / 2 = 8 := by norm_num
    rw [h8] at h3 h4
    rcases hband w hw with h | h
    · simp only [CONFIG.canvas.height, CONFIG.vent.wallThickness] at h
      have : (800 : K) * 2 / 3 - 800 / 4 + 80 ≤ 432 := by norm_num
      linarith
    · simp only [CONFIG.canvas.height] at h
      have : (448 : K) ≤ 800 / 3 + 800 / 4 := by norm_num
      linarith

/-! ## The start box and the tanks against the generated walls -/

/-- A box collides with a fresh vent system exactly when it overlaps, in X, a
segment whose top or bottom wall it overlaps in Y. -/
theorem VentSystem.new_collision_iff (rand : Nat → K) (c : Nat) (x y size : K) :
    (VentSystem.new rand c).1.checkCollision x y size = true ↔
      ∃ j : Nat, j < 100 ∧
        x - size / 2 < -500 + 150 * (j : K) + 150 ∧ x + size / 2 > -500 + 150 * (j : K) ∧
        ((y - size / 2 < (VentSystem.centerline rand c j).1 - 120 ∧
            y + size / 2 > (VentSystem.centerline rand c j).1 - 200) ∨
          (y - size / 2 < (VentSystem.centerline rand c j).1 + 280 ∧
            y + size / 2 > (VentSystem.centerline rand c j).1 + 200)) := by
  rw [VentSystem.checkCollision_iff]
  constructor
  · rintro ⟨w, hw, h1, h2, h3, h4⟩
    obtain ⟨j, hj, h | h⟩ := (VentSystem.new_mem rand c w).1 hw
    · subst h
      simp only [VentSystem.topWall, CONFIG.canvas.height, CONFIG.vent.segmentLength,
        CONFIG.vent.wallThickness] at h1 h2 h3 h4
      refine ⟨j, hj, h1, h2, Or.inl ⟨?_, ?_⟩⟩ <;> linarith
    · subst h
      simp only [VentSystem.bottomWall, CONFIG.canvas.height, CONFIG.vent.segmentLength,
        CONFIG.vent.wallThickness] at h1 h2 h3 h4
      refine ⟨j, hj, h1, h2, Or.inr ⟨?_, ?_⟩⟩ <;> linarith
  · rintro ⟨j, hj, h1, h2, ⟨h3, h4⟩ | ⟨h3, h4⟩⟩
    · refine ⟨_, (VentSystem.new_mem rand c _).2 ⟨j, hj, Or.inl rfl⟩, ?_⟩
      simp only [VentSystem.topWall, CONFIG.canvas.height, CONFIG.vent.segmentLength,
        CONFIG.vent.wallThickness]
      refine ⟨h1, h2, ?_, ?_⟩ <;> linarith
    · refine ⟨_, (VentSystem.new_mem rand c _).2 ⟨j, hj, Or.inr rfl⟩, ?_⟩
      simp only [VentSystem.bottomWall, CONFIG.canvas.height, CONFIG.vent.segmentLength,
        CONFIG.vent.wallThickness]
      refine ⟨h1, h2, ?_, ?_⟩ <;> linarith

/-- The start box overlaps the segments 3 and 4 in X, and can only overlap a top
wall: it collides exactly when one of the two centerlines is above 512. -/
theorem VentSystem.new_start_box (rand : Nat → K) (c : Nat) :
    (VentSystem.new rand c).1.checkCollision 100 400 16 = true ↔
      512 < (VentSystem.centerline rand c 3).1 ∨ 512 < (VentSystem.centerline rand c 4).1 := by
  rw [VentSystem.new_collision_iff]
  have h8 : (16 : K) / 2 = 8 := by norm_num
  rw [h8]
  constructor
  · rintro ⟨j, _, h1, h2, h⟩
    have hj3 : 3 ≤ j := by
      by_contra hlt
      have : (j : K) ≤ 2 := by exact_mod_cast (show j ≤ 2 by omega)
      linarith
    have hj4 : j ≤ 4 := by
      by_contra hlt
      have : (5 : K) ≤ (j : K) := by exact_mod_cast (show 5 ≤ j by omega)
      linarith
    have hlow := (VentSystem.centerline_bounds rand c j).1
    simp only [CONFIG.canvas.height] at hlow
    have h266 : (0 : K) < 800 / 3 - 208 := by norm_num
    rcases h with ⟨h3, _⟩ | ⟨_, h4⟩
    · have hj : j = 3 ∨ j = 4 := by omega
      rcases hj with rfl | rfl
      · left; linarith
      · right; linarith
    · linarith
  · have hup : ∀ j : Nat, (408 : K) > (VentSystem.centerline rand c j).1 - 200 := by
      intro j
      have h := (VentSystem.centerline_bounds rand c j).2
      simp only [CONFIG.canvas.height] at h
      have : (800 : K) * 2 / 3 < 608 := by norm_num
      linarith
    rintro (h | h)
    · refine ⟨3, by norm_num, ?_, ?_, Or.inl ⟨by linarith, by linarith [hup 3]⟩⟩ <;>
        push_cast <;> norm_num
    · refine ⟨4, by norm_num, ?_, ?_, Or.inl ⟨by linarith, by linarith [hup 4]⟩⟩ <;>
        push_cast <;> norm_num

theorem upRand_centerline :
    VentSystem.centerline upRand 12 1 = (449, 14) ∧
    VentSystem.centerline upRand 12 2 = (498, 16) ∧
    VentSystem.centerline upRand 12 3 = (1600 / 3, 18) := by
  have h1 : VentSystem.centerline upRand 12 1 = (449, 14) := by
    simp only [VentSystem.centerline, VentSystem.turn, upRand, CONFIG.canvas.height,
      CONFIG.vent.turningChance]
    norm_num
  have h2 : VentSystem.centerline upRand 12 2 = (498, 16) := by
    rw [VentSystem.centerline, h1]
    simp only [VentSystem.turn, upRand, CONFIG.canvas.height, CONFIG.vent.turningChance]
    norm_num
  refine ⟨h1, h2, ?_⟩
  rw [VentSystem.centerline, h2]
  simp only [VentSystem.turn, upRand, CONFIG.canvas.height, CONFIG.vent.turningChance]
  norm_num

theorem VentSystem.centerline_straight (rand : Nat → K) (c : Nat)
    (hr : ∀ n, ¬ rand n < 0.15) (j : Nat) :
    VentSystem.centerline rand c j = (CONFIG.canvas.height / 2, c + j) := by
  induction j with
  | zero => rfl
  | succ j ih =>
    rw [VentSystem.centerline, ih]
    unfold VentSystem.turn
    simp only [CONFIG.vent.turningChance, hr (c + j), if_false]
    rfl

theorem Game.startSetup_player (M : JsMath K) (g : Game K) (rand : Nat → K) :
    (Game.startSetup M g rand).1.player.x = 100 ∧ (Game.startSetup M g rand).1.player.y = 400 ∧
    (Game.startSetup M g rand).1.player.size = 16 := by
  rw [(Game.startSetup_fields M g rand).2.2.2.2.1]
  simp [Player.new]

/-! ## C19: the start box -/

theorem upInput_randOk : upInput.RandOk := by
  intro n
  simp only [upInput, upRand]
  split_ifs <;> norm_num

/-- C19, refuted as stated: with the draws `upRand` (chance draws 0, offset
draws 0.99) the centerline climbs 400, 449, 498, 533.33 in the first segments,
the top wall of segment 3 spans `y` from 333.33 to 413.33 over `x` from -50 to
100, and the start box of the player collides with it. -/
theorem start_box_counterexample :
    upInput.RandOk ∧
    (Game.startSetup realMath Game.blank upInput.rand).1.player.x = 100 ∧
    (Game.startSetup realMath Game.blank upInput.rand).1.player.y = 400 ∧
    (Game.startSetup realMath Game.blank upInput.rand).1.player.size = 16 ∧
    (Game.startSetup realMath Game.blank upInput.rand).1.ventSystem.checkCollision
      100 400 16 = true := by
  obtain ⟨hx, hy, hs⟩ := Game.startSetup_player realMath (Game.blank : Game ℝ) upInput.rand
  refine ⟨upInput_randOk, hx, hy, hs, ?_⟩
  rw [(Game.startSetup_fields realMath Game.blank upInput.rand).2.2.2.2.2.2.1,
    VentSystem.new_start_box]
  left
  show 512 < (VentSystem.centerline upRand 12 3).1
  rw [upRand_centerline.2.2]
  norm_num

/-- C19, amended. The start box of the player (centre (100, 400), size 16) is
free of the walls generated by `start()` exactly when the centerlines of the
segments 3 and 4, which cover `x` from -50 to 250, are at most 512; this is so
in particular when none of the first four iterations draws a turn. -/
theorem start_box_free_iff (M : JsMath K) (prev : Game K) (rand : Nat → K) :
    ((Game.startSetup M prev rand).1.player.x = 100 ∧
      (Game.startSetup M prev rand).1.player.y = 400 ∧
      (Game.startSetup M prev rand).1.player.size = 16) ∧
    ((Game.startSetup M prev rand).1.ventSystem.checkCollision 100 400 16 = false ↔
      (VentSystem.centerline rand 12 3).1 ≤ 512 ∧ (VentSystem.centerline rand 12 4).1 ≤ 512) ∧
    (0.15 ≤ rand 12 ∧ 0.15 ≤ rand 13 ∧ 0.15 ≤ rand 14 ∧ 0.15 ≤ rand 15 →
      (Game.startSetup M prev rand).1.ventSystem.checkCollision 100 400 16 = false) := by
  have hiff : (Game.startSetup M prev rand).1.ventSystem.checkCollision 100 400 16 = false ↔
      (VentSystem.centerline rand 12 3).1 ≤ 512 ∧ (VentSystem.centerline rand 12 4).1 ≤ 512 := by
    rw [(Game.startSetup_fields M prev rand).2.2.2.2.2.2.1, ← Bool.not_eq_true,
      VentSystem.new_start_box, not_or, not_lt, not_lt]
  refine ⟨Game.startSetup_player M prev rand, hiff, ?_⟩
  rintro ⟨h12, h13, h14, h15⟩
  have hturn : ∀ (y : K) (c : Nat), 0.15 ≤ rand c → VentSystem.turn rand y c = (y, c + 1) := by
    intro y c hc
    unfold VentSystem.turn
    simp only [CONFIG.vent.turningChance, not_lt.2 hc, if_false]
  have h1 : VentSystem.centerline rand 12 1 = (CONFIG.canvas.height / 2, 13) := by
    rw [VentSystem.centerline, VentSystem.centerline, hturn _ _ h12]
  have h2 : VentSystem.centerline rand 12 2 = (CONFIG.canvas.height / 2, 14) := by
    rw [VentSystem.centerline, h1, hturn _ _ h13]
  have h3 : VentSystem.centerline rand 12 3 = (CONFIG.canvas.height / 2, 15) := by
    rw [VentSystem.centerline, h2, hturn _ _ h14]
  have h4 : VentSystem.centerline rand 12 4 = (CONFIG.canvas.height / 2, 16) := by
    rw [VentSystem.centerline, h3, hturn _ _ h15]
  rw [hiff, h3, h4]
  simp only [CONFIG.canvas.height]
  constructor <;> norm_num

/-- C19 amended, at concrete draws: every draw is `1/2` and no turn is taken. -/
theorem start_box_free_iff_witness :
    (0.15 : ℝ) ≤ (idleInput (1 / 2 : ℝ)).rand 12 ∧
    (Game.startSetup realMath Game.blank (idleInput (1 / 2 : ℝ)).rand).1.ventSystem.checkCollision
      100 400 16 = false :=
  have h : (0.15 : ℝ) ≤ 1 / 2 := by norm_num
  ⟨h, (start_box_free_iff realMath Game.blank (idleInput (1 / 2 : ℝ)).rand).2.2 ⟨h, h, h, h⟩⟩

/-! ## C20: the tanks -/

/-- In a tunnel whose centerlines all lie in `[310, 410]`, a box of size 20
centred on a row between 300 and 500 is free of walls. -/
theorem VentSystem.new_tank_box (rand : Nat → K) (c : Nat)
    (hcl : ∀ j : Nat, j < 100 → 310 ≤ (VentSystem.centerline rand c j).1 ∧
      (VentSystem.centerline rand c j).1 ≤ 410)
    (x y : K) (hy : 300 ≤ y ∧ y ≤ 500) :
    (VentSystem.new rand c).1.checkCollision x y 20 = false := by
  rw [← Bool.not_eq_true, VentSystem.new_collision_iff]
  have h10 : (20 : K) / 2 = 10 := by norm_num
  rw [h10]
  rintro ⟨j, hj, _, _, ⟨h3, _⟩ | ⟨_, h4⟩⟩
  · linarith [(hcl j hj).2, hy.1]
  · linarith [(hcl j hj).1, hy.2]

theorem Game.spawnOxygenTank_new (g : Game K) (rand : Nat → K) (c : Nat)
    (hr : ∀ n, 0 ≤ rand n ∧ rand n < 1) :
    ∃ t : OxygenTank K, (g.spawnOxygenTank rand c).1.oxygenTanks = g.oxygenTanks ++ [t] ∧
      t.size = 20 ∧ 300 ≤ t.y ∧ t.y < 500 := by
  have hy : ∀ n, 300 ≤ CONFIG.canvas.height / 2 + (rand n - 0.5) * 200 ∧
      CONFIG.canvas.height / 2 + (rand n - 0.5) * 200 < 500 := by
    intro n
    simp only [CONFIG.canvas.height]
    have h400 : (800 : K) / 2 = 400 := by norm_num
    have h05 : (0.5 : K) * 200 = 100 := by norm_num
    rw [h400, sub_mul, h05]
    constructor <;> linarith [(hr n).1, (hr n).2]
  cases hl : g.oxygenTanks.getLast? with
  | none =>
    rw [List.getLast?_eq_none_iff] at hl
    refine ⟨OxygenTank.new (g.player.x + 300)
      (CONFIG.canvas.height / 2 + (rand c - 0.5) * 200), ?_, rfl, hy c⟩
    rw [Game.spawnOxygenTank_nil g rand c hl, hl]
    rfl
  | some last =>
    exact ⟨_, Game.spawnOxygenTank_last g rand c last hl, rfl, hy (c + 1)⟩

theorem downRand_cursor (i : Nat) (hi : i ≤ 100) :
    (VentSystem.centerline downRand 12 i).2 = 12 + 2 * i := by
  induction i with
  | zero => rfl
  | succ i ih =>
    have hlt : 12 + 2 * i < 212 := by omega
    rw [VentSystem.centerline]
    unfold VentSystem.turn
    rw [ih (by omega)]
    simp only [downRand, hlt, if_true, CONFIG.vent.turningChance]
    rw [if_pos (by norm_num)]
    show 12 + 2 * i + 2 = 12 + 2 * (i + 1)
    omega

theorem downRand_centerline : (VentSystem.centerline downRand 12 5).1 = 800 / 3 := by
  have h1 : VentSystem.centerline downRand 12 1 = (350, 14) := by
    simp only [VentSystem.centerline, VentSystem.turn, downRand, CONFIG.canvas.height,
      CONFIG.vent.turningChance]
    norm_num
  have h2 : VentSystem.centerline downRand 12 2 = (300, 16) := by
    rw [VentSystem.centerline, h1]
    simp only [VentSystem.turn, downRand, CONFIG.canvas.height, CONFIG.vent.turningChance]
    norm_num
  have h3 : VentSystem.centerline downRand 12 3 = (800 / 3, 18) := by
    rw [VentSystem.centerline, h2]
    simp only [VentSystem.turn, downRand, CONFIG.canvas.height, CONFIG.vent.turningChance]
    norm_num
  have h4 : VentSystem.centerline downRand 12 4 = (800 / 3, 20) := by
    rw [VentSystem.centerline, h3]
    simp only [VentSystem.turn, downRand, CONFIG.canvas.height, CONFIG.vent.turningChance]
    norm_num
  rw [VentSystem.centerline, h4]
  simp only [VentSystem.turn, downRand, CONFIG.canvas.height, CONFIG.vent.turningChance]
  norm_num

theorem downInput_randOk : downInput.RandOk := by
  intro n
  simp only [downInput, downRand]
  split_ifs <;> norm_num

theorem Game.startSetup_tank (M : JsMath K) (g : Game K) (rand : Nat → K) :
    (Game.startSetup M g rand).1.oxygenTanks =
      [OxygenTank.new (CONFIG.player.startX + 300)
        (CONFIG.canvas.height / 2 + (rand (VentSystem.new rand 12).2 - 0.5) * 200)] := by
  unfold Game.startSetup
  exact Game.spawnOxygenTank_nil _ _ _ rfl

/-- C20, refuted as stated: with the draws `downRand` every segment turns
downwards, the centerline falls 400, 350, 300, 266.67 and stays there, and the
bottom wall of segment 5 spans `y` from 466.67 to 546.67 over `x` from 250 to
400; the first tank, spawned by `start()` at (400, 480), overlaps it. -/
theorem tank_in_wall_counterexample :
    downInput.RandOk ∧
    (Game.startSetup realMath Game.blank downInput.rand).1.oxygenTanks
      = [OxygenTank.new 400 480] ∧
    (Game.startSetup realMath Game.blank downInput.rand).1.ventSystem.checkCollision
      (OxygenTank.new (400 : ℝ) 480).x (OxygenTank.new (400 : ℝ) 480).y
      (OxygenTank.new (400 : ℝ) 480).size = true := by
  refine ⟨downInput_randOk, ?_, ?_⟩
  · rw [Game.startSetup_tank, VentSystem.new_cursor]
    show [OxygenTank.new _ (_ + (downRand (VentSystem.centerline downRand 12 100).2 - 0.5) * 200)]
      = _
    rw [downRand_cursor 100 (le_refl _)]
    simp only [downRand, CONFIG.player.startX, CONFIG.canvas.height]
    norm_num
  · rw [(Game.startSetup_fields realMath Game.blank downInput.rand).2.2.2.2.2.2.1,
      VentSystem.new_collision_iff]
    refine ⟨5, by norm_num, ?_, ?_, Or.inr ⟨?_, ?_⟩⟩
    · simp only [OxygenTank.new]; push_cast; norm_num
    · simp only [OxygenTank.new]; push_cast; norm_num
    · show _ < (VentSystem.centerline downRand 12 5).1 + 280
      rw [downRand_centerline]; simp only [OxygenTank.new]; norm_num
    · show _ > (VentSystem.centerline downRand 12 5).1 + 200
      rw [downRand_centerline]; simp only [OxygenTank.new]; norm_num

/-- C20, amended. In a generated vent system whose centerlines all lie in
`[310, 410]`, every tank created by `spawnOxygenTank` with draws in `[0, 1)`
has a box (size 20) that overlaps no wall; the centerlines are all 400, hence
in that range, when no turn is drawn. -/
theorem tank_free_in_straight_tunnel (rand : Nat → K) (c : Nat) (g : Game K)
    (hv : g.ventSystem = (VentSystem.new rand c).1) (rand1 : Nat → K) (c1 : Nat)
    (hr : ∀ n, 0 ≤ rand1 n ∧ rand1 n < 1) :
    ((∀ j : Nat, j < 100 → 310 ≤ (VentSystem.centerline rand c j).1 ∧
        (VentSystem.centerline rand c j).1 ≤ 410) →
      ∃ t : OxygenTank K, (g.spawnOxygenTank rand1 c1).1.oxygenTanks = g.oxygenTanks ++ [t] ∧
        t.size = 20 ∧ g.ventSystem.checkCollision t.x t.y t.size = false) ∧
    ((∀ n, 0.15 ≤ rand n) →
      ∀ j : Nat, (VentSystem.centerline rand c j).1 = 400) := by
  constructor
  · intro hcl
    obtain ⟨t, ht, hs, hy1, hy2⟩ := Game.spawnOxygenTank_new g rand1 c1 hr
    refine ⟨t, ht, hs, ?_⟩
    rw [hv, hs]
    exact VentSystem.new_tank_box rand c hcl t.x t.y ⟨hy1, hy2.le⟩
  · intro hno j
    rw [VentSystem.centerline_straight rand c (fun n => not_lt.2 (hno n))]
    simp only [CONFIG.canvas.height]
    norm_num

theorem idleInput_randOk : (idleInput (1 / 2 : ℝ)).RandOk := by
  intro n
  simp only [idleInput]
  norm_num

/-- C20 amended, at concrete draws: every draw is `1/2`, no turn is taken, and
the tank spawned after the reset of `start()` is free of walls. -/
theorem tank_free_in_straight_tunnel_witness :
    (idleInput (1 / 2 : ℝ)).RandOk ∧
    ∃ t : OxygenTank ℝ,
      ((Game.startSetup realMath Game.blank (idleInput (1 / 2 : ℝ)).rand).1.spawnOxygenTank
        (idleInput (1 / 2 : ℝ)).rand 0).1.oxygenTanks =
        (Game.startSetup realMath Game.blank (idleInput (1 / 2 : ℝ)).rand).1.oxygenTanks ++ [t] ∧
      t.size = 20 ∧
      (Game.startSetup realMath Game.blank (idleInput (1 / 2 : ℝ)).rand).1.ventSystem.checkCollision
        t.x t.y t.size = false :=
  have h := tank_free_in_straight_tunnel (idleInput (1 / 2 : ℝ)).rand 12
    (Game.startSetup realMath Game.blank (idleInput (1 / 2 : ℝ)).rand).1
    (Game.startSetup_fields realMath Game.blank (idleInput (1 / 2 : ℝ)).rand).2.2.2.2.2.2.1
    (idleInput (1 / 2 : ℝ)).rand 0 idleInput_randOk
  ⟨idleInput_randOk, h.1 (fun j _ => by
    rw [h.2 (fun n => by simp only [idleInput]; norm_num) j]
    constructor <;> norm_num)⟩

/-! ## C12: the diagonal displacement -/

theorem Game.moveSpeed_pos (keys : Keys) : 0 < (Game.moveSpeed keys : K) := by
  unfold Game.moveSpeed
  split_ifs <;> simp <;> norm_num

/-- C12, refuted as stated: with `w` and `d` held the displacement is
`(1.7675, -1.7675)`, of squared magnitude 6.2481125, while a single-axis move
has squared magnitude `2.5 ^ 2 = 6.25`. -/
theorem diagonal_magnitude_counterexample :
    diagonalKeys.horizontal = true ∧ diagonalKeys.vertical = true ∧
    (Game.moveDelta diagonalKeys : ℝ × ℝ) = (1.7675, -1.7675) ∧
    (Game.moveDelta diagonalKeys : ℝ × ℝ).1 ^ 2 + (Game.moveDelta diagonalKeys : ℝ × ℝ).2 ^ 2
      ≠ (Game.moveSpeed diagonalKeys : ℝ) ^ 2 := by
  have h : (Game.moveDelta diagonalKeys : ℝ × ℝ) = (1.7675, -1.7675) := by
    simp [Game.moveDelta, Game.moveSpeed, diagonalKeys, Keys.none]
    norm_num
  refine ⟨rfl, rfl, h, ?_⟩
  rw [h]
  simp [Game.moveSpeed, diagonalKeys, Keys.none]
  norm_num

/-- C12, amended. In a step in which exactly one horizontal and one vertical
direction take effect, both components of the displacement passed to
`Player.move` have the absolute value `0.707 * moveSpeed`, so that
`dx ^ 2 + dy ^ 2 = 2 * 0.707 ^ 2 * moveSpeed ^ 2 = 0.999698 * moveSpeed ^ 2`:
the magnitude of a single-axis move up to the rounding of `0.707`, where
`moveSpeed` is 2.5, or `2.5 * 1.8` when sprinting. -/
theorem diagonal_magnitude (keys : Keys) (hh : keys.horizontal = true)
    (hv : keys.vertical = true) :
    |(Game.moveDelta keys : K × K).1| = 0.707 * Game.moveSpeed keys ∧
    |(Game.moveDelta keys : K × K).2| = 0.707 * Game.moveSpeed keys ∧
    (Game.moveDelta keys : K × K).1 ^ 2 + (Game.moveDelta keys : K × K).2 ^ 2
      = 0.999698 * (Game.moveSpeed keys : K) ^ 2 ∧
    (Game.moveSpeed keys : K) = (if keys.shift then 2.5 * 1.8 else 2.5) ∧
    (∀ (M : JsMath K) (g : Game K) (inp : Input K), inp.keys = keys →
      (g.update M inp).player =
        g.player.move M (Game.moveDelta keys).1 (Game.moveDelta keys).2 g.ventSystem) := by
  have hm : 0 < (Game.moveSpeed keys : K) := Game.moveSpeed_pos keys
  have hne : (Game.moveSpeed keys : K) ≠ 0 := hm.ne'
  have hneg : -(Game.moveSpeed keys : K) ≠ 0 := neg_ne_zero.2 hne
  have h707 : (0 : K) ≤ 0.707 := by norm_num
  have habs : |(Game.moveDelta keys : K × K).1| = 0.707 * Game.moveSpeed keys ∧
      |(Game.moveDelta keys : K × K).2| = 0.707 * Game.moveSpeed keys := by
    unfold Keys.horizontal at hh
    unfold Keys.vertical at hv
    unfold Game.moveDelta
    revert hh hv
    generalize (keys.w || keys.arrowup) = u
    generalize (keys.s || keys.arrowdown) = dn
    generalize (keys.a || keys.arrowleft) = l
    generalize (keys.d || keys.arrowright) = r
    intro hh hv
    cases u <;> cases dn <;> cases l <;> cases r <;> simp at hh hv <;>
      simp [hne, abs_mul, abs_of_pos hm, abs_of_nonneg h707, mul_comm]
  refine ⟨habs.1, habs.2, ?_, ?_, ?_⟩
  · rw [← sq_abs (Game.moveDelta keys : K × K).1, ← sq_abs (Game.moveDelta keys : K × K).2,
      habs.1, habs.2]
    ring_nf
  · unfold Game.moveSpeed
    simp only [CONFIG.player.speed, CONFIG.player.sprintMultiplier]
  · intro M g inp hk
    rw [Game.update_player, hk]

/-- C12 amended, at concrete keys: `w` and `d`. -/
theorem diagonal_magnitude_witness :
    diagonalKeys.horizontal = true ∧ diagonalKeys.vertical = true ∧
    (Game.moveDelta diagonalKeys : ℝ × ℝ).1 ^ 2 + (Game.moveDelta diagonalKeys : ℝ × ℝ).2 ^ 2
      = 0.999698 * (Game.moveSpeed diagonalKeys : ℝ) ^ 2 :=
  ⟨rfl, rfl, (diagonal_magnitude diagonalKeys rfl rfl).2.2.1⟩

/-! ## C13: the sprint multipliers -/

/-- The first frame, run by `start()`, when no direction takes effect: the
player stays at the start position, the tank is out of reach and the oxygen is
only drained. -/
theorem Game.start_standing {M : JsMath K} (hM : M.Exact) (prev : Game K) (inp : Input K)
    (hd : (Game.moveDelta inp.keys : K × K) = (0, 0)) :
    (Game.start M prev inp).oxygen = max 0 (CONFIG.oxygen.max - Game.oxygenDrain inp.keys) ∧
    (Game.start M prev inp).player.x = 100 ∧ (Game.start M prev inp).player.y = 400 ∧
    (Game.start M prev inp).distance = 0 ∧
    (Game.start M prev inp).monster.x = -800 + 1.2 ∧
    (Game.start M prev inp).monster.y = 400 := by
  obtain ⟨hrun, hox, hdist, _, _, hm, _, _⟩ := Game.startSetup_fields M prev inp.rand
  obtain ⟨hpx, hpy, _⟩ := Game.startSetup_player M prev inp.rand
  have htank := Game.startSetup_tank M prev inp.rand
  unfold Game.start
  simp only
  generalize hs : (Game.startSetup M prev inp.rand).1 = s at hrun hox hdist hm hpx hpy htank
  generalize hi : ({ inp with rand := fun i => inp.rand ((Game.startSetup M prev inp.rand).2 + i) }
    : Input K) = inp1
  have hk : inp1.keys = inp.keys := by rw [← hi]
  rw [Game.gameLoop_running M s inp1 hrun]
  obtain ⟨rp, rm, _, _, _, rd, _, ro, _, _, _, _⟩ := Game.render_frame_fields (s.update M inp1)
  rw [rp, rm, rd, ro]
  have hp : (s.update M inp1).player = s.player := by
    rw [Game.update_player, hk, hd, Player.move_zero]
  have hdist1 : (s.update M inp1).distance = 0 := by
    rw [(Game.update_fields M s inp1).2.2.1, (Game.updateHead_fields M s inp1).2.1, hk, hd]
    simp [hdist]
  have hquiet := Game.update_quiet M s inp1 _
    (by
      intro u hu
      rw [htank, List.mem_singleton] at hu
      subst hu
      unfold Game.tankInReach
      rw [decide_eq_false_iff_not, hM.lt_iff _ _ _ (by norm_num), hp, hpx]
      simp only [OxygenTank.new, CONFIG.player.startX]
      nlinarith [mul_self_nonneg (s.player.y - (CONFIG.canvas.height / 2 +
        (inp.rand (VentSystem.new inp.rand 12).2 - 0.5) * 200))])
    (by rw [htank]; rfl)
    (by rw [hp, hpx]; simp only [OxygenTank.new, CONFIG.player.startX]; norm_num)
  have hspeed : Game.monsterSpeed (s.update M inp1).distance = 1.2 := by
    rw [hdist1]
    simp [Game.monsterSpeed]
    norm_num
  have hmx : s.monster.x = -800 := by rw [hm]; simp [Monster.new]
  have hmy : s.monster.y = 400 := by rw [hm]; simp [Monster.new]
  have hmon := Monster.update_row hM s.monster (s.update M inp1).player
    (Game.monsterSpeed (s.update M inp1).distance) (by rw [hp, hpy, hmy])
    (by rw [hp, hpx, hmx]; norm_num)
  rw [← Game.update_monster, hspeed] at hmon
  refine ⟨by rw [hquiet.2, hox, hk], by rw [hp, hpx], by rw [hp, hpy], hdist1, ?_, ?_⟩
  · rw [hmon.1, hmx]
  · rw [hmon.2, hmy]

/-- C13, refuted as stated: `start()` with only `shift` held drains
`0.08 * 2.5 = 0.2` in its first frame, not `0.08 * 1.8 = 0.144`: the oxygen is
99.8. -/
theorem sprint_drain_counterexample :
    (sprintInput (1 / 2 : ℝ)).keys.shift = true ∧
    (Game.start realMath Game.blank (sprintInput (1 / 2))).oxygen = 99.8 ∧
    (Game.start realMath Game.blank (sprintInput (1 / 2))).oxygen ≠
      CONFIG.oxygen.max - CONFIG.oxygen.drainRate * CONFIG.player.sprintMultiplier := by
  have h : (Game.start realMath Game.blank (sprintInput (1 / 2 : ℝ))).oxygen = 99.8 := by
    rw [(Game.start_standing realMath_exact Game.blank (sprintInput (1 / 2 : ℝ))
      (by simp [Game.moveDelta, sprintInput, Keys.none])).1]
    simp [Game.oxygenDrain, sprintInput]
    norm_num
  refine ⟨rfl, h, ?_⟩
  rw [h]
  simp only [CONFIG.oxygen.max, CONFIG.oxygen.drainRate, CONFIG.player.sprintMultiplier]
  norm_num

/-- C13, amended. Sprint applies two multipliers: with the sprint key held the
movement speed is `player.speed * sprintMultiplier` (1.8) and the oxygen drained
in the step is `drainRate * sprintDrainMultiplier` (2.5); without sprint they
are `player.speed` and `drainRate`.  The oxygen after the drain is clamped at 0,
and the oxygen after the step is the drained oxygen restored once per tank
collected. -/
theorem sprint_multipliers (M : JsMath K) (g : Game K) (inp : Input K) :
    (Game.moveSpeed inp.keys : K) =
      (if inp.keys.shift then CONFIG.player.speed * CONFIG.player.sprintMultiplier
        else CONFIG.player.speed) ∧
    (Game.oxygenDrain inp.keys : K) =
      (if inp.keys.shift then CONFIG.oxygen.drainRate * CONFIG.oxygen.sprintDrainMultiplier
        else CONFIG.oxygen.drainRate) ∧
    (CONFIG.player.sprintMultiplier : K) = 1.8 ∧
    (CONFIG.oxygen.sprintDrainMultiplier : K) = 2.5 ∧
    (g.updateHead M inp).oxygen = max 0 (g.oxygen - Game.oxygenDrain inp.keys) ∧
    0 ≤ (g.updateHead M inp).oxygen ∧
    (g.update M inp).oxygen =
      restoreOxygen^[(g.oxygenTanks.filter
        (Game.tankInReach M (g.update M inp).player)).length]
        (max 0 (g.oxygen - Game.oxygenDrain inp.keys)) := by
  have hh := (Game.updateHead_fields M g inp).2.2.1
  refine ⟨rfl, rfl, rfl, rfl, hh, by rw [hh]; exact le_max_left _ _, ?_⟩
  rw [(Game.update_fields M g inp).2.2.2.2.1, Game.checkTankCollection_oxygen,
    (Game.updateHead_fields M g inp).2.2.2.2.1, ← (Game.update_fields M g inp).1, hh]

/-! ## C14: the distance travelled -/

theorem Game.update_distance (M : JsMath K) (g : Game K) (inp : Input K) :
    (g.update M inp).distance =
      (if 0 < (Game.moveDelta inp.keys : K × K).1 then
        g.distance + (Game.moveDelta inp.keys : K × K).1 else g.distance) := by
  rw [(Game.update_fields M g inp).2.2.1, (Game.updateHead_fields M g inp).2.1]
  split_ifs with h
  · rw [abs_of_pos h]
  · rfl

theorem Player.move_blocked (M : JsMath K) (p : Player K) (dx dy : K) (v : VentSystem K)
    (h : v.checkCollision (p.x + dx) p.y p.size = true) : (p.move M dx dy v).x = p.x := by
  unfold Player.move
  simp only [h, Bool.true_eq_false, if_false]
  split_ifs <;> rfl

/-- C14. Distance accounting: a step adds the intended horizontal delta `dx`
(after normalisation, before the collision test) to `distance` when `dx > 0`
and leaves `distance` unchanged otherwise; hence `distance` never decreases
from frame to frame and is never negative in a run; and it grows by `dx` also
in a step in which the wall rejected the X move and the player kept its `x`. -/
theorem distance_accounting (M : JsMath K) (g : Game K) (inp : Input K) (prev : Game K)
    (inp0 : Input K) (inps : List (Input K)) :
    (g.update M inp).distance =
      (if 0 < (Game.moveDelta inp.keys : K × K).1 then
        g.distance + (Game.moveDelta inp.keys : K × K).1 else g.distance) ∧
    g.distance ≤ (g.update M inp).distance ∧
    g.distance ≤ (g.gameLoop M inp).distance ∧
    0 ≤ (Game.run M (Game.start M prev inp0) inps).distance ∧
    (0 < (Game.moveDelta inp.keys : K × K).1 →
      g.ventSystem.checkCollision (g.player.x + (Game.moveDelta inp.keys : K × K).1) g.player.y
        g.player.size = true →
      (g.update M inp).player.x = g.player.x ∧
      (g.update M inp).distance = g.distance + (Game.moveDelta inp.keys : K × K).1) := by
  refine ⟨Game.update_distance M g inp, Game.update_distance_ge M g inp,
    Game.gameLoop_distance_ge M g inp, Game.run_distance_nonneg M prev inp0 inps, ?_⟩
  intro hpos hcol
  constructor
  · rw [Game.update_player]
    exact Player.move_blocked M _ _ _ _ hcol
  · rw [Game.update_distance, if_pos hpos]

/-- C14, at a concrete step: the player of `blockedGame` walks right into the
wall; its `x` stays 0 and the distance grows by 2.5. -/
theorem distance_accounting_witness :
    (0 : ℝ) < (Game.moveDelta (rightInput (1 / 2 : ℝ)).keys : ℝ × ℝ).1 ∧
    (blockedGame.update realMath (rightInput (1 / 2))).player.x = blockedGame.player.x ∧
    (blockedGame.update realMath (rightInput (1 / 2))).distance =
      blockedGame.distance + (Game.moveDelta (rightInput (1 / 2 : ℝ)).keys : ℝ × ℝ).1 :=
  have hd : (Game.moveDelta (rightInput (1 / 2 : ℝ)).keys : ℝ × ℝ) = (2.5, 0) :=
    Game.moveDelta_right _ rfl
  have hpos : (0 : ℝ) < (Game.moveDelta (rightInput (1 / 2 : ℝ)).keys : ℝ × ℝ).1 := by
    rw [hd]; norm_num
  have hcol : blockedGame.ventSystem.checkCollision
      (blockedGame.player.x + (Game.moveDelta (rightInput (1 / 2 : ℝ)).keys : ℝ × ℝ).1)
      blockedGame.player.y blockedGame.player.size = true := by
    rw [hd]
    simp [VentSystem.checkCollision, blockedGame, oneWall, originPlayer]
    norm_num
  ⟨hpos, (distance_accounting realMath blockedGame (rightInput (1 / 2)) Game.blank
    (rightInput (1 / 2)) []).2.2.2.2 hpos hcol⟩

/-! ## C15: the life of a particle -/

theorem Particle.update_components (q : Particle K) :
    q.update.x = q.x + q.vx ∧ q.update.y = q.y + q.vy ∧ q.update.vx = q.vx * 0.95 ∧
    q.update.vy = q.vy * 0.95 ∧ q.update.life = q.life - 0.02 ∧
    q.update.color = q.color ∧ q.update.size = q.size :=
  ⟨rfl, rfl, rfl, rfl, rfl, rfl, rfl⟩

theorem Particle.iterate_life (q : Particle K) (k : Nat) :
    (Particle.update^[k] q).life = q.life - 0.02 * (k : K) := by
  induction k with
  | zero => simp
  | succ k ih =>
    rw [Function.iterate_succ_apply', (Particle.update_components _).2.2.2.2.1, ih]
    push_cast
    ring

theorem Game.updateParticles_iterate (p : Particle K) (hp : p.life = 1) (k : Nat)
    (hk : k < 50) (g : Game K) (hg : g.particles = [p]) :
    (Game.updateParticles^[k] g).particles = [Particle.update^[k] p] := by
  induction k with
  | zero => simpa using hg
  | succ k ih =>
    have hk1 : ((k + 1 : Nat) : K) ≤ 49 := by exact_mod_cast (show k + 1 ≤ 49 by omega)
    have hlife : 0 < (Particle.update^[k + 1] p).life := by
      rw [Particle.iterate_life, hp]
      linarith
    rw [Function.iterate_succ_apply', Game.updateParticles, ih (by omega)]
    rw [Function.iterate_succ_apply'] at hlife ⊢
    simp [hlife]

theorem Game.createParticles_particles (rand : Nat → K) (x y : K) (color : String)
    (count : Nat) :
    ∀ (g : Game K) (c : Nat), ∃ created : List (Particle K),
      (g.createParticles rand c x y color count).1.particles = g.particles ++ created ∧
      ∀ q ∈ created, q.life = 1 := by
  induction count with
  | zero => intro g c; exact ⟨[], by simp [Game.createParticles], by simp⟩
  | succ n ih =>
    intro g c
    obtain ⟨created, h1, h2⟩ := ih
      { g with particles := g.particles ++ [(Particle.new rand c x y color).1] }
      (Particle.new rand c x y color).2
    refine ⟨(Particle.new rand c x y color).1 :: created, ?_, ?_⟩
    · rw [Game.createParticles, h1]
      simp
    · intro q hq
      rcases List.mem_cons.1 hq with h | h
      · rw [h]; rfl
      · exact h2 q h

theorem Game.collectTanks_particles (M : JsMath K) (rand : Nat → K)
    (ts : List (OxygenTank K)) :
    ∀ (g : Game K) (c : Nat), ∃ created : List (Particle K),
      (Game.collectTanks M rand ts g c).2.1.particles = g.particles ++ created ∧
      ∀ q ∈ created, q.life = 1 := by
  induction ts with
  | nil => intro g c; exact ⟨[], by simp [Game.collectTanks], by simp⟩
  | cons t ts ih =>
    intro g c
    simp only [Game.collectTanks]
    split_ifs with h
    · obtain ⟨c1, h1, h2⟩ := Game.createParticles_particles rand t.x t.y "#00ff88" 20
        ({ g with oxygen := min CONFIG.oxygen.max (g.oxygen + CONFIG.oxygen.tankRestore)
          }.showMessage "+OXYGEN") c
      obtain ⟨c2, h3, h4⟩ := ih
        (({ g with oxygen := min CONFIG.oxygen.max (g.oxygen + CONFIG.oxygen.tankRestore)
          }.showMessage "+OXYGEN").createParticles rand c t.x t.y "#00ff88" 20).1
        (({ g with oxygen := min CONFIG.oxygen.max (g.oxygen + CONFIG.oxygen.tankRestore)
          }.showMessage "+OXYGEN").createParticles rand c t.x t.y "#00ff88" 20).2
      refine ⟨c1 ++ c2, ?_, ?_⟩
      · rw [h3, h1]
        simp [Game.showMessage]
      · intro q hq
        rcases List.mem_append.1 hq with hq | hq
        · exact h2 q hq
        · exact h4 q hq
    · exact ih g c

theorem Game.update_particles (M : JsMath K) (g : Game K) (inp : Input K) :
    ∃ created : List (Particle K), (∀ q ∈ created, q.life = 1) ∧
      (g.update M inp).particles =
        ((g.particles ++ created).map Particle.update).filter (fun q => decide (q.life > 0)) := by
  obtain ⟨created, h1, h2⟩ := Game.collectTanks_particles M inp.rand g.oxygenTanks
    (g.updateHead M inp) 0
  refine ⟨created, h2, ?_⟩
  have hhead : (g.updateHead M inp).particles = g.particles := by
    simp [Game.updateHead]
  rw [hhead] at h1
  rw [← h1]
  simp [Game.update, Game.updateParticles, Game.checkTankCollection,
    (Game.updateHead_fields M g inp).2.2.2.2.1]

/-- C15. Particle lifetime, in exact arithmetic: a particle created with
`life = 1` has `life = 1 - 0.02 k` after `k` calls of `Particle.update`; the
per-frame filter of `update` keeps an updated particle exactly when its life
is `> 0` (the particles after a step are the updated survivors among the
particles before the step and the particles created in the step); hence a
particle survives the update passes 1 to 49 and is removed on pass 50, for
every initial velocity.  A pass adds the velocity to the position and then
multiplies the velocity by 0.95. -/
theorem particle_lifetime (p : Particle K) (hp : p.life = 1) :
    (∀ k : Nat, (Particle.update^[k] p).life = 1 - 0.02 * (k : K)) ∧
    (∀ g : Game K, g.updateParticles.particles =
      (g.particles.map Particle.update).filter (fun q => decide (q.life > 0))) ∧
    (∀ (M : JsMath K) (g : Game K) (inp : Input K),
      ∃ created : List (Particle K), (∀ q ∈ created, q.life = 1) ∧
        (g.update M inp).particles =
          ((g.particles ++ created).map Particle.update).filter
            (fun q => decide (q.life > 0))) ∧
    (∀ (g : Game K) (k : Nat), g.particles = [p] → k < 50 →
      (Game.updateParticles^[k] g).particles = [Particle.update^[k] p]) ∧
    (∀ g : Game K, g.particles = [p] → (Game.updateParticles^[50] g).particles = []) ∧
    (∀ q : Particle K, q.update.x = q.x + q.vx ∧ q.update.y = q.y + q.vy ∧
      q.update.vx = q.vx * 0.95 ∧ q.update.vy = q.vy * 0.95 ∧
      q.update.life = q.life - 0.02) := by
  refine ⟨fun k => ?_, fun g => rfl, Game.update_particles, ?_, ?_, ?_⟩
  · rw [Particle.iterate_life, hp]
  · intro g k hg hk
    exact Game.updateParticles_iterate p hp k hk g hg
  · intro g hg
    have h49 := Game.updateParticles_iterate p hp 49 (by norm_num) g hg
    have hlife : ¬ 0 < (Particle.update^[50] p).life := by
      rw [Particle.iterate_life, hp]
      push_cast
      norm_num
    rw [Function.iterate_succ_apply' Particle.update 49 p] at hlife
    rw [Function.iterate_succ_apply' Game.updateParticles 49 g, Game.updateParticles, h49]
    refine List.filter_eq_nil_iff.2 (fun q hq => ?_)
    rw [List.map_singleton, List.mem_singleton] at hq
    rw [hq, decide_eq_true_eq]
    exact hlife
  · intro q
    exact ⟨rfl, rfl, rfl, rfl, rfl⟩

/-- C15, at a concrete particle: one made by `createParticles`, after 50 passes. -/
theorem particle_lifetime_witness :
    freshParticle.life = 1 ∧
    (Particle.update^[50] freshParticle).life = 1 - 0.02 * ((50 : Nat) : ℝ) :=
  ⟨rfl, (particle_lifetime freshParticle rfl).1 50⟩

/-! ## C17: the collision query -/

/-- C17. Collision query: `checkCollision(x, y, size)` is true exactly when some
wall satisfies the four strict inequalities of the overlap test; it is false
on the empty wall list, and a wall that the box only touches along an edge or
at a corner does not count. -/
theorem collision_query (v : VentSystem K) (x y size : K) :
    (v.checkCollision x y size = true ↔
      ∃ w ∈ v.walls, x - size / 2 < w.x + w.width ∧ x + size / 2 > w.x ∧
        y - size / 2 < w.y + w.height ∧ y + size / 2 > w.y) ∧
    (({ walls := [] } : VentSystem K).checkCollision x y size = false) ∧
    (∀ w : Wall K,
      (x + size / 2 = w.x ∨ x - size / 2 = w.x + w.width ∨
        y + size / 2 = w.y ∨ y - size / 2 = w.y + w.height) →
      ({ walls := [w] } : VentSystem K).checkCollision x y size = false) := by
  refine ⟨VentSystem.checkCollision_iff v x y size, rfl, ?_⟩
  intro w h
  rw [← Bool.not_eq_true, VentSystem.checkCollision_iff]
  rintro ⟨u, hu, h1, h2, h3, h4⟩
  rw [List.mem_singleton] at hu
  subst hu
  rcases h with h | h | h | h
  · exact absurd h2 (by rw [h]; exact lt_irrefl _)
  · exact absurd h1 (by rw [h]; exact lt_irrefl _)
  · exact absurd h4 (by rw [h]; exact lt_irrefl _)
  · exact absurd h3 (by rw [h]; exact lt_irrefl _)

/-- C17, at a concrete box: its right edge lies on the left edge of the wall. -/
theorem collision_query_witness :
    (2 : ℝ) + 16 / 2 = 10 ∧
    ({ walls := [{ x := 10, y := -100, width := 10, height := 200 }] }
      : VentSystem ℝ).checkCollision 2 0 16 = false :=
  have h : (2 : ℝ) + 16 / 2 = 10 := by norm_num
  ⟨h, (collision_query oneWall 2 0 16).2.2
    { x := 10, y := -100, width := 10, height := 200 } (Or.inl h)⟩

/-! ## C18: the player never enters a wall -/

theorem Player.move_fields (M : JsMath K) (p : Player K) (dx dy : K) (v : VentSystem K) :
    (p.move M dx dy v).x =
      (if v.checkCollision (p.x + dx) p.y p.size = false then p.x + dx else p.x) ∧
    (p.move M dx dy v).y =
      (if v.checkCollision (p.move M dx dy v).x (p.y + dy) p.size = false then p.y + dy
        else p.y) ∧
    (p.move M dx dy v).size = p.size := by
  have hx : (p.move M dx dy v).x =
      (if v.checkCollision (p.x + dx) p.y p.size = false then p.x + dx else p.x) := by
    unfold Player.move
    simp only
    split_ifs <;> rfl
  refine ⟨hx, ?_, ?_⟩
  · rw [hx]
    unfold Player.move
    simp only
    split_ifs <;> simp_all
  · unfold Player.move
    simp only
    split_ifs <;> rfl

theorem Player.move_free_of_free (M : JsMath K) (p : Player K) (dx dy : K) (v : VentSystem K)
    (h : v.checkCollision p.x p.y p.size = false) :
    v.checkCollision (p.move M dx dy v).x (p.move M dx dy v).y (p.move M dx dy v).size
      = false := by
  obtain ⟨hx, hy, hs⟩ := Player.move_fields M p dx dy v
  have hx1 : v.checkCollision (p.move M dx dy v).x p.y p.size = false := by
    rw [hx]
    split_ifs with h1
    · exact h1
    · exact h
  rw [hs, hy]
  split_ifs with h2
  · exact h2
  · exact hx1

theorem Game.PlayerFree.afterUpdate (M : JsMath K) {g : Game K} (h : g.PlayerFree) (inp : Input K) :
    (g.update M inp).PlayerFree := by
  unfold Game.PlayerFree
  rw [(Game.update_fields M g inp).2.2.2.1, Game.update_player]
  exact Player.move_free_of_free M _ _ _ _ h

theorem Game.PlayerFree.afterGameLoop (M : JsMath K) {g : Game K} (h : g.PlayerFree)
    (inp : Input K) : (g.gameLoop M inp).PlayerFree := by
  unfold Game.gameLoop
  split_ifs
  · exact h
  · have := h.afterUpdate M inp
    unfold Game.PlayerFree at this ⊢
    rw [(Game.render_frame_fields _).1, (Game.render_frame_fields _).2.2.1]
    exact this

/-- C18. Movement never enters a wall: if the box of the player is free of
walls before `Player.move`, it is free after it, whatever the deltas; hence a
step of `update` keeps the player free, and once the player is free in a run
it stays free in every later frame. -/
theorem move_stays_free (M : JsMath K) (p : Player K) (dx dy : K) (v : VentSystem K)
    (h : v.checkCollision p.x p.y p.size = false) :
    v.checkCollision (p.move M dx dy v).x (p.move M dx dy v).y (p.move M dx dy v).size
      = false ∧
    (∀ (g : Game K) (inp : Input K), g.PlayerFree → (g.update M inp).PlayerFree) ∧
    (∀ (g : Game K) (inps : List (Input K)), g.PlayerFree → (Game.run M g inps).PlayerFree) := by
  refine ⟨Player.move_free_of_free M p dx dy v h, fun g inp hg => hg.afterUpdate M inp, ?_⟩
  intro g inps hg
  exact Game.run_inv M Game.PlayerFree (fun g inp hg => hg.afterGameLoop M inp) inps g hg

/-- C18, at a concrete move: the player at the origin, free of `oneWall`, moves
by (5, 1) and is still free. -/
theorem move_stays_free_witness :
    oneWall.checkCollision originPlayer.x originPlayer.y originPlayer.size = false ∧
    oneWall.checkCollision (originPlayer.move realMath 5 1 oneWall).x
      (originPlayer.move realMath 5 1 oneWall).y
      (originPlayer.move realMath 5 1 oneWall).size = false :=
  have h : oneWall.checkCollision originPlayer.x originPlayer.y originPlayer.size = false := by
    simp [VentSystem.checkCollision, oneWall, originPlayer]
    norm_num
  ⟨h, (move_stays_free realMath originPlayer 5 1 oneWall h).1⟩

/-! ## C16: the reset and the previous run -/

theorem Game.createParticles_congr (rand : Nat → K) (x y : K) (color : String) (count : Nat) :
    ∀ (g1 g2 : Game K) (c : Nat), g1.particles = g2.particles →
      (g1.createParticles rand c x y color count).1.particles =
        (g2.createParticles rand c x y color count).1.particles ∧
      (g1.createParticles rand c x y color count).2 =
        (g2.createParticles rand c x y color count).2 := by
  induction count with
  | zero => intro g1 g2 c h; exact ⟨h, rfl⟩
  | succ n ih =>
    intro g1 g2 c h
    simp only [Game.createParticles]
    exact ih _ _ _ (by simp [h])

/-- The state and the cursor after the callback of the collection filter has
removed a tank at `(x, y)`. -/
theorem Game.collectTanks_cons_pos (M : JsMath K) (rand : Nat → K) (t : OxygenTank K)
    (ts : List (OxygenTank K)) (g : Game K) (c : Nat)
    (h : M.hypot (g.player.x - t.x) (g.player.y - t.y) < 30) :
    Game.collectTanks M rand (t :: ts) g c =
      Game.collectTanks M rand ts
        (({ g with oxygen := min CONFIG.oxygen.max (g.oxygen + CONFIG.oxygen.tankRestore)
          }.showMessage "+OXYGEN").createParticles rand c t.x t.y "#00ff88" 20).1
        (({ g with oxygen := min CONFIG.oxygen.max (g.oxygen + CONFIG.oxygen.tankRestore)
          }.showMessage "+OXYGEN").createParticles rand c t.x t.y "#00ff88" 20).2 := by
  rw [Game.collectTanks]
  simp only [h, if_true]

theorem Game.collectTanks_cons_neg (M : JsMath K) (rand : Nat → K) (t : OxygenTank K)
    (ts : List (OxygenTank K)) (g : Game K) (c : Nat)
    (h : ¬ M.hypot (g.player.x - t.x) (g.player.y - t.y) < 30) :
    Game.collectTanks M rand (t :: ts) g c =
      (t :: (Game.collectTanks M rand ts g c).1, (Game.collectTanks M rand ts g c).2.1,
        (Game.collectTanks M rand ts g c).2.2) := by
  rw [Game.collectTanks]
  simp only [h, if_false]

theorem Game.collectTanks_congr (M : JsMath K) (rand : Nat → K) (ts : List (OxygenTank K)) :
    ∀ (g1 g2 : Game K) (c : Nat), g1.player = g2.player → g1.oxygen = g2.oxygen →
      g1.particles = g2.particles →
      (Game.collectTanks M rand ts g1 c).1 = (Game.collectTanks M rand ts g2 c).1 ∧
      (Game.collectTanks M rand ts g1 c).2.1.oxygen =
        (Game.collectTanks M rand ts g2 c).2.1.oxygen ∧
      (Game.collectTanks M rand ts g1 c).2.1.particles =
        (Game.collectTanks M rand ts g2 c).2.1.particles ∧
      (Game.collectTanks M rand ts g1 c).2.2 = (Game.collectTanks M rand ts g2 c).2.2 := by
  induction ts with
  | nil => intro g1 g2 c _ ho hpa; exact ⟨rfl, ho, hpa, rfl⟩
  | cons t ts ih =>
    intro g1 g2 c hp ho hpa
    by_cases h1 : M.hypot (g1.player.x - t.x) (g1.player.y - t.y) < 30
    · have h2 : M.hypot (g2.player.x - t.x) (g2.player.y - t.y) < 30 := by rw [← hp]; exact h1
      have hc := Game.createParticles_congr rand t.x t.y "#00ff88" 20
        ({ g1 with oxygen := min CONFIG.oxygen.max (g1.oxygen + CONFIG.oxygen.tankRestore)
          }.showMessage "+OXYGEN")
        ({ g2 with oxygen := min CONFIG.oxygen.max (g2.oxygen + CONFIG.oxygen.tankRestore)
          }.showMessage "+OXYGEN") c (by simp [Game.showMessage, hpa])
      rw [Game.collectTanks_cons_pos M rand t ts g1 c h1,
        Game.collectTanks_cons_pos M rand t ts g2 c h2, hc.2]
      apply ih
      · rw [(Game.createParticles_fields _ _ _ _ _ _ _).1,
          (Game.createParticles_fields _ _ _ _ _ _ _).1]
        simp [Game.showMessage, hp]
      · rw [(Game.createParticles_fields _ _ _ _ _ _ _).2,
          (Game.createParticles_fields _ _ _ _ _ _ _).2]
        simp [Game.showMessage, ho]
      · exact hc.1
    · have h2 : ¬ M.hypot (g2.player.x - t.x) (g2.player.y - t.y) < 30 := by
        rw [← hp]; exact h1
      rw [Game.collectTanks_cons_neg M rand t ts g1 c h1,
        Game.collectTanks_cons_neg M rand t ts g2 c h2]
      obtain ⟨e1, e2, e3, e4⟩ := ih g1 g2 c hp ho hpa
      exact ⟨by rw [e1], e2, e3, e4⟩

theorem Game.spawnNewTanks_congr (g1 g2 : Game K) (rand : Nat → K) (c : Nat)
    (hp : g1.player = g2.player) (ht : g1.oxygenTanks = g2.oxygenTanks) :
    (g1.spawnNewTanks rand c).oxygenTanks = (g2.spawnNewTanks rand c).oxygenTanks := by
  unfold Game.spawnNewTanks Game.spawnOxygenTank
  rw [ht, hp]
  cases g2.oxygenTanks.getLast? with
  | none => simp [ht]
  | some last =>
    simp only
    split_ifs
    · simp [ht]
    · exact ht

/-- A step of `update` on two states that agree on the simulation fields, with
the same input, yields states that agree on them. -/
theorem Game.SameRun.stepUpdate (M : JsMath K) {g1 g2 : Game K} (h : g1.SameRun g2)
    (inp : Input K) : (g1.update M inp).SameRun (g2.update M inp) := by
  obtain ⟨hp, hm, hv, ht, hpa, hd, hr, ho⟩ := h
  have hp1 : (g1.update M inp).player = (g2.update M inp).player := by
    rw [Game.update_player, Game.update_player, hp, hv]
  have hd1 : (g1.update M inp).distance = (g2.update M inp).distance := by
    rw [Game.update_distance, Game.update_distance, hd]
  have hm1 : (g1.update M inp).monster = (g2.update M inp).monster := by
    rw [Game.update_monster, Game.update_monster, hm, hp1, hd1]
  have hhp : (g1.updateHead M inp).player = (g2.updateHead M inp).player := by
    rw [← (Game.update_fields M g1 inp).1, ← (Game.update_fields M g2 inp).1, hp1]
  have hho : (g1.updateHead M inp).oxygen = (g2.updateHead M inp).oxygen := by
    rw [(Game.updateHead_fields M g1 inp).2.2.1, (Game.updateHead_fields M g2 inp).2.2.1, ho]
  have hhpa : (g1.updateHead M inp).particles = (g2.updateHead M inp).particles := by
    simp [Game.updateHead, hpa]
  have hht : (g1.updateHead M inp).oxygenTanks = (g2.updateHead M inp).oxygenTanks := by
    rw [(Game.updateHead_fields M g1 inp).2.2.2.2.1,
      (Game.updateHead_fields M g2 inp).2.2.2.2.1, ht]
  obtain ⟨c1, c2, c3, c4⟩ := Game.collectTanks_congr M inp.rand (g1.updateHead M inp).oxygenTanks
    (g1.updateHead M inp) (g2.updateHead M inp) 0 hhp hho hhpa
  have ho1 : (g1.update M inp).oxygen = (g2.update M inp).oxygen := by
    rw [(Game.update_fields M g1 inp).2.2.2.2.1, (Game.update_fields M g2 inp).2.2.2.2.1]
    unfold Game.checkTankCollection
    simp only
    rw [← hht]
    exact c2
  have ht1 : (g1.update M inp).oxygenTanks = (g2.update M inp).oxygenTanks := by
    rw [(Game.update_fields M g1 inp).2.2.2.2.2, (Game.update_fields M g2 inp).2.2.2.2.2]
    have hcur : ((g1.updateHead M inp).checkTankCollection M inp.rand).2 =
        ((g2.updateHead M inp).checkTankCollection M inp.rand).2 := by
      unfold Game.checkTankCollection
      simp only
      rw [← hht]
      exact c4
    rw [hcur]
    apply Game.spawnNewTanks_congr
    · rw [(Game.checkTankCollection_frame_fields M _ _).1,
        (Game.checkTankCollection_frame_fields M _ _).1, hhp]
    · unfold Game.checkTankCollection
      simp only
      rw [← hht]
      exact c1
  have hpa1 : (g1.update M inp).particles = (g2.update M inp).particles := by
    have e : ∀ g : Game K, (g.update M inp).particles =
        ((Game.collectTanks M inp.rand (g.updateHead M inp).oxygenTanks (g.updateHead M inp)
          0).2.1.particles.map Particle.update).filter (fun q => decide (q.life > 0)) := by
      intro g
      simp [Game.update, Game.updateParticles, Game.checkTankCollection]
    rw [e g1, e g2, ← hht, c3]
  refine ⟨hp1, hm1, ?_, ht1, hpa1, hd1, ?_, ho1⟩
  · rw [(Game.update_fields M g1 inp).2.2.2.1, (Game.update_fields M g2 inp).2.2.2.1, hv]
  · rw [Game.update_gameRunning, Game.update_gameRunning, hp1, hm1, ho1, hr]

theorem Game.SameRun.stepGameLoop (M : JsMath K) {g1 g2 : Game K} (h : g1.SameRun g2)
    (inp : Input K) : (g1.gameLoop M inp).SameRun (g2.gameLoop M inp) := by
  unfold Game.gameLoop
  rw [h.2.2.2.2.2.2.1]
  split_ifs
  · exact h
  · obtain ⟨hp, hm, hv, ht, hpa, hd, hr, ho⟩ := h.stepUpdate M inp
    unfold Game.SameRun
    obtain ⟨a1, a2, a3, a4, _, a6, a7, a8, _, _, _, _⟩ := Game.render_frame_fields (g1.update M inp)
    obtain ⟨b1, b2, b3, b4, _, b6, b7, b8, _, _, _, _⟩ := Game.render_frame_fields (g2.update M inp)
    rw [a1, a2, a3, a4, a6, a7, a8, b1, b2, b3, b4, b6, b7, b8, Game.render_oxygenTanks,
      Game.render_oxygenTanks, ht]
    exact ⟨hp, hm, hv, rfl, hpa, hd, hr, ho⟩

theorem Game.startSetup_sameRun (M : JsMath K) (prev1 prev2 : Game K) (rand : Nat → K) :
    (Game.startSetup M prev1 rand).1.SameRun (Game.startSetup M prev2 rand).1 ∧
    (Game.startSetup M prev1 rand).2 = (Game.startSetup M prev2 rand).2 := by
  obtain ⟨a1, a2, a3, a4, a5, a6, a7, _⟩ := Game.startSetup_fields M prev1 rand
  obtain ⟨b1, b2, b3, b4, b5, b6, b7, _⟩ := Game.startSetup_fields M prev2 rand
  refine ⟨⟨by rw [a5, b5], by rw [a6, b6], by rw [a7, b7], ?_, by rw [a4, b4], by rw [a3, b3],
    by rw [a1, b1], by rw [a2, b2]⟩, ?_⟩
  · rw [Game.startSetup_tank, Game.startSetup_tank]
  · unfold Game.startSetup Game.spawnOxygenTank
    rfl

/-- C16, refuted as stated: when `start()` returns it has already run the first
frame; with no key held the oxygen is `99.92`, not `max`, and the monster is at
`x = -798.8`, not at `-800`. -/
theorem reset_yields_counterexample :
    (Game.start realMath Game.blank (idleInput (1 / 2))).oxygen = 99.92 ∧
    (Game.start realMath Game.blank (idleInput (1 / 2))).oxygen ≠ CONFIG.oxygen.max ∧
    (Game.start realMath Game.blank (idleInput (1 / 2))).monster.x = -798.8 ∧
    (Game.start realMath Game.blank (idleInput (1 / 2))).monster.x
      ≠ -CONFIG.monster.startDistance := by
  obtain ⟨ho, _, _, _, hm, _⟩ := Game.start_standing realMath_exact (Game.blank : Game ℝ)
    (idleInput (1 / 2 : ℝ)) Game.moveDelta_none
  have h1 : (Game.start realMath Game.blank (idleInput (1 / 2 : ℝ))).oxygen = 99.92 := by
    rw [ho]
    show max 0 (CONFIG.oxygen.max - Game.oxygenDrain Keys.none) = (99.92 : ℝ)
    rw [Game.oxygenDrain_none]
    simp only [CONFIG.oxygen.max]
    norm_num
  have h2 : (Game.start realMath Game.blank (idleInput (1 / 2 : ℝ))).monster.x = -798.8 := by
    rw [hm]; norm_num
  refine ⟨h1, ?_, h2, ?_⟩
  · rw [h1]; simp only [CONFIG.oxygen.max]; norm_num
  · rw [h2]; simp only [CONFIG.monster.startDistance]; norm_num

/-- C16, amended. Reset is independent of the previous run: for every prior
state, the reset of `start()` (its assignments up to `spawnOxygenTank()`) yields
oxygen = max, distance = 0, running = true, no particle, exactly one tank, at
`x = startX + 300`, the player at `(startX, startY)` and the monster at
`(-startDistance, startY)`; `start()` then runs the first `update()` and
`render()` of the run on that state before it returns; and two calls from
different prior states with the same input and random draws agree on these
fields, both after the reset and on return. -/
theorem reset_independent (M : JsMath K) (prev1 prev2 : Game K) (inp : Input K) :
    ((Game.startSetup M prev1 inp.rand).1.oxygen = CONFIG.oxygen.max ∧
      (Game.startSetup M prev1 inp.rand).1.distance = 0 ∧
      (Game.startSetup M prev1 inp.rand).1.gameRunning = true ∧
      (Game.startSetup M prev1 inp.rand).1.particles = [] ∧
      (Game.startSetup M prev1 inp.rand).1.oxygenTanks =
        [OxygenTank.new (CONFIG.player.startX + 300)
          (CONFIG.canvas.height / 2 + (inp.rand (VentSystem.new inp.rand 12).2 - 0.5) * 200)] ∧
      (Game.startSetup M prev1 inp.rand).1.player.x = CONFIG.player.startX ∧
      (Game.startSetup M prev1 inp.rand).1.player.y = CONFIG.player.startY ∧
      (Game.startSetup M prev1 inp.rand).1.monster.x = -CONFIG.monster.startDistance ∧
      (Game.startSetup M prev1 inp.rand).1.monster.y = CONFIG.player.startY) ∧
    Game.start M prev1 inp =
      ((Game.startSetup M prev1 inp.rand).1.update M
        { inp with rand := fun i => inp.rand ((Game.startSetup M prev1 inp.rand).2 + i) }).render ∧
    (Game.startSetup M prev1 inp.rand).1.SameRun (Game.startSetup M prev2 inp.rand).1 ∧
    (Game.start M prev1 inp).SameRun (Game.start M prev2 inp) := by
  obtain ⟨hrun, hox, hd, hpa, hp, hm, _, _⟩ := Game.startSetup_fields M prev1 inp.rand
  obtain ⟨hsame, hcur⟩ := Game.startSetup_sameRun M prev1 prev2 inp.rand
  refine ⟨⟨hox, hd, hrun, hpa, Game.startSetup_tank M prev1 inp.rand, ?_, ?_, ?_, ?_⟩, ?_,
    hsame, ?_⟩
  · rw [hp]; rfl
  · rw [hp]; rfl
  · rw [hm]; rfl
  · rw [hm]; rfl
  · unfold Game.start
    exact Game.gameLoop_running M _ _ hrun
  · unfold Game.start
    simp only
    rw [hcur]
    exact hsame.stepGameLoop M _

/-! ## A run with `d` held and several tanks -/

/-- A step in which no tank is within reach of the player and the player is
more than 400 past the last tank: one tank is appended, 400 plus the draw times
300 to the right of the last one, and the oxygen is only drained. -/
theorem Game.update_spawn (M : JsMath K) (g : Game K) (inp : Input K) (last : OxygenTank K)
    (r : K) (hr : ∀ n, inp.rand n = r)
    (hreach : ∀ t ∈ g.oxygenTanks, Game.tankInReach M (g.update M inp).player t = false)
    (hl : g.oxygenTanks.getLast? = some last)
    (hx : 400 < (g.update M inp).player.x - last.x) :
    (g.update M inp).oxygenTanks = g.oxygenTanks ++
      [OxygenTank.new (last.x + 400 + r * 300) (CONFIG.canvas.height / 2 + (r - 0.5) * 200)] ∧
    (g.update M inp).oxygen = max 0 (g.oxygen - Game.oxygenDrain inp.keys) := by
  have hp : (g.update M inp).player = (g.updateHead M inp).player := (Game.update_fields M g inp).1
  have hkeep : g.oxygenTanks.filter (fun t => !Game.tankInReach M (g.update M inp).player t)
      = g.oxygenTanks := by
    rw [List.filter_eq_self]
    intro t ht
    simp [hreach t ht]
  have hnone : g.oxygenTanks.filter (Game.tankInReach M (g.update M inp).player) = [] := by
    rw [List.filter_eq_nil_iff]
    intro t ht
    simp [hreach t ht]
  have htanks : ((g.updateHead M inp).checkTankCollection M inp.rand).1.oxygenTanks
      = g.oxygenTanks := by
    rw [Game.checkTankCollection_tanks, ← hp, (Game.updateHead_fields M g inp).2.2.2.2.1, hkeep]
  have hl1 : ((g.updateHead M inp).checkTankCollection M inp.rand).1.oxygenTanks.getLast?
      = some last := by rw [htanks]; exact hl
  have hx1 : ((g.updateHead M inp).checkTankCollection M inp.rand).1.player.x - last.x > 400 := by
    rw [(Game.checkTankCollection_frame_fields M (g.updateHead M inp) inp.rand).1, ← hp]
    exact hx
  constructor
  · rw [(Game.update_fields M g inp).2.2.2.2.2]
    unfold Game.spawnNewTanks
    rw [hl1]
    simp only
    rw [if_pos hx1, Game.spawnOxygenTank_last _ _ _ last hl1, htanks, hr, hr]
  · rw [(Game.update_fields M g inp).2.2.2.2.1, Game.checkTankCollection_oxygen,
      (Game.updateHead_fields M g inp).2.2.2.2.1, ← hp, hnone,
      (Game.updateHead_fields M g inp).2.2.1]
    rfl

theorem walkRun_setup (M : JsMath K) (prev : Game K) (rand : Nat → K)
    (hr : ∀ n, rand n = 1 / 4) : WalkRun 0 [(400, 350)] (Game.startSetup M prev rand).1 := by
  obtain ⟨hrun, hox, _, _, hp, hm, hv, _⟩ := Game.startSetup_fields M prev rand
  obtain ⟨c, hc⟩ := Game.startSetup_tanks M prev rand
  refine ⟨hrun, ?_, ?_, ?_, ?_, ?_, ?_, ?_, ?_⟩
  · rw [hp]; simp [Player.new]
  · rw [hp]; simp [Player.new]
  · rw [hp]; simp [Player.new]
  · rw [hv]
    intro w hmem
    have hstraight := VentSystem.generateLoop_straight rand
      (fun n => by rw [hr n]; norm_num) 100 (-500) (CONFIG.canvas.height / 2) [] 12 w hmem
    rcases hstraight with h | ⟨h | h, hh⟩
    · simp at h
    · left; rw [h, hh]; simp; norm_num
    · right; rw [h]; simp; norm_num
  · rw [hc, hr c]; simp [OxygenTank.new]; norm_num
  · rw [hm]; simp [Monster.new]
  · rw [hm]; simp [Monster.new]
  · rw [hox]; simp

theorem walkRun_player {M : JsMath K} {k : Nat} {ts : List (K × K)} {g : Game K}
    (inp : Input K) (hkeys : inp.keys = { Keys.none with d := true }) (h : WalkRun k ts g) :
    (g.update M inp).player.x = 100 + 2.5 * ((k + 1 : Nat) : K) ∧
    (g.update M inp).player.y = 400 ∧ (g.update M inp).player.size = 16 := by
  obtain ⟨_, hpx, hpy, hps, hwalls, _, _, _, _⟩ := h
  have hfree := Player.move_free M g.player 2.5 0 g.ventSystem
    (by rw [hpy, hps]; exact VentSystem.checkCollision_row _ hwalls _)
    (by rw [hpy, hps, add_zero]; exact VentSystem.checkCollision_row _ hwalls _)
  rw [Game.update_player, Game.moveDelta_right _ hkeys]
  refine ⟨?_, ?_, ?_⟩
  · rw [hfree.1, hpx]; push_cast; ring
  · rw [hfree.2.1, hpy, add_zero]
  · rw [hfree.2.2, hps]

/-- The tanks at the coordinates `ts` are all at least 30 away from the player
of the next frame. -/
theorem walkRun_far {M : JsMath K} (hM : M.Exact) {k : Nat} {ts : List (K × K)} {g : Game K}
    (inp : Input K) (hkeys : inp.keys = { Keys.none with d := true }) (h : WalkRun k ts g)
    (hfar : ∀ p ∈ ts, 30 * 30 ≤ (100 + 2.5 * ((k + 1 : Nat) : K) - p.1)
      * (100 + 2.5 * ((k + 1 : Nat) : K) - p.1) + (400 - p.2) * (400 - p.2)) :
    ∀ t ∈ g.oxygenTanks, Game.tankInReach M (g.update M inp).player t = false := by
  obtain ⟨hpx, hpy, _⟩ := walkRun_player (M := M) inp hkeys h
  intro t ht
  have hmem : (t.x, t.y) ∈ ts := by
    rw [← h.2.2.2.2.2.1]
    exact List.mem_map.2 ⟨t, ht, rfl⟩
  unfold Game.tankInReach
  rw [decide_eq_false_iff_not, hM.lt_iff _ _ _ (by norm_num), hpx, hpy, not_lt]
  exact hfar _ hmem

/-- A frame of the run in which nothing is picked up: the state after it, given
the tanks and the oxygen that `update` leaves. -/
theorem walkRun_frame {M : JsMath K} (hM : M.Exact) (k : Nat) (hk : k < 800)
    (ts ts1 : List (K × K)) (g : Game K) (inp : Input K)
    (hkeys : inp.keys = { Keys.none with d := true }) (h : WalkRun k ts g)
    (htanks : (g.update M inp).oxygenTanks.map (fun t => (t.x, t.y)) = ts1)
    (hoxy : (g.update M inp).oxygen = max 0 (g.oxygen - Game.oxygenDrain inp.keys)) :
    WalkRun (k + 1) ts1 (g.gameLoop M inp) := by
  obtain ⟨hpx, hpy, hps⟩ := walkRun_player (M := M) inp hkeys h
  obtain ⟨hrun, _, _, _, hwalls, _, hmy, hmx, hox⟩ := h
  have hk1 : ((k + 1 : Nat) : K) ≤ 800 := by exact_mod_cast hk
  have hk0 : (0 : K) ≤ ((k + 1 : Nat) : K) := Nat.cast_nonneg _
  have hkk : ((k + 1 : Nat) : K) = (k : K) + 1 := by push_cast; ring
  have hmon := Monster.update_row hM g.monster (g.update M inp).player
    (Game.monsterSpeed (g.update M inp).distance) (by rw [hpy, hmy]) (by rw [hpx]; linarith)
  rw [← Game.update_monster] at hmon
  have hspeed := Game.monsterSpeed_le (g.update M inp).distance
  have hoxy1 : (g.update M inp).oxygen = 100 - 0.08 * ((k + 1 : Nat) : K) := by
    rw [hoxy, Game.oxygenDrain_walk _ (by rw [hkeys]; rfl), hox, max_eq_right (by linarith), hkk]
    ring
  have hrun1 : (g.update M inp).gameRunning = true := by
    rw [Game.update_gameRunning, if_neg, hrun]
    rw [not_or]
    constructor
    · rw [hoxy1]; linarith
    · rw [hpy, hmon.2, hmy, sub_self, hM.axis, hmon.1, hpx, abs_of_nonneg (by linarith)]
      rw [hkk] at hk1 ⊢
      linarith
  rw [Game.gameLoop_running M g inp hrun]
  obtain ⟨rp, rm, rv, _, _, _, rr, ro, _, _, _, _⟩ := Game.render_frame_fields (g.update M inp)
  rw [WalkRun, rp, rm, rv, rr, ro, Game.render_oxygenTanks]
  refine ⟨hrun1, hpx, hpy, hps, ?_, ?_, ?_, ?_, hoxy1⟩
  · rw [(Game.update_fields M g inp).2.2.2.1]; exact hwalls
  · rw [← htanks, List.map_map]
    rfl
  · rw [hmon.2, hmy]
  · rw [hmon.1, hkk]; linarith

/-- A frame of the run in which the tanks stay as they are. -/
theorem walkRun_step {M : JsMath K} (hM : M.Exact) (k : Nat) (hk : k < 800)
    (ts : List (K × K)) (last : K × K) (g : Game K) (inp : Input K)
    (hkeys : inp.keys = { Keys.none with d := true })
    (hfar : ∀ p ∈ ts, 30 * 30 ≤ (100 + 2.5 * ((k + 1 : Nat) : K) - p.1)
      * (100 + 2.5 * ((k + 1 : Nat) : K) - p.1) + (400 - p.2) * (400 - p.2))
    (hlast : ts.getLast? = some last)
    (hx : 100 + 2.5 * ((k + 1 : Nat) : K) - last.1 ≤ 400)
    (h : WalkRun k ts g) : WalkRun (k + 1) ts (g.gameLoop M inp) := by
  obtain ⟨hpx, _, _⟩ := walkRun_player (M := M) inp hkeys h
  have hmap := h.2.2.2.2.2.1
  rw [← hmap, List.getLast?_map] at hlast
  obtain ⟨t, ht, hcoord⟩ := Option.map_eq_some'.1 hlast
  have hquiet := Game.update_quiet M g inp t (walkRun_far hM inp hkeys h hfar) ht
    (by rw [hpx]; rw [← hcoord] at hx; exact hx)
  exact walkRun_frame hM k hk ts ts g inp hkeys h (by rw [hquiet.1]; exact hmap) hquiet.2

/-- A frame of the run in which a tank is spawned behind the last one. -/
theorem walkRun_spawn {M : JsMath K} (hM : M.Exact) (k : Nat) (hk : k < 800)
    (ts : List (K × K)) (last : K × K) (g : Game K) (inp : Input K) (r : K)
    (hkeys : inp.keys = { Keys.none with d := true }) (hr : ∀ n, inp.rand n = r)
    (hfar : ∀ p ∈ ts, 30 * 30 ≤ (100 + 2.5 * ((k + 1 : Nat) : K) - p.1)
      * (100 + 2.5 * ((k + 1 : Nat) : K) - p.1) + (400 - p.2) * (400 - p.2))
    (hlast : ts.getLast? = some last)
    (hx : 400 < 100 + 2.5 * ((k + 1 : Nat) : K) - last.1)
    (h : WalkRun k ts g) :
    WalkRun (k + 1) (ts ++ [(last.1 + 400 + r * 300, 400 + (r - 0.5) * 200)])
      (g.gameLoop M inp) := by
  obtain ⟨hpx, _, _⟩ := walkRun_player (M := M) inp hkeys h
  have hmap := h.2.2.2.2.2.1
  rw [← hmap, List.getLast?_map] at hlast
  obtain ⟨t, ht, hcoord⟩ := Option.map_eq_some'.1 hlast
  have hsp := Game.update_spawn M g inp t r hr (walkRun_far hM inp hkeys h hfar) ht
    (by rw [hpx]; rw [← hcoord] at hx; exact hx)
  refine walkRun_frame hM k hk ts _ g inp hkeys h ?_ hsp.2
  rw [hsp.1, List.map_append, hmap, ← hcoord]
  simp only [List.map_cons, List.map_nil, OxygenTank.new, CONFIG.canvas.height]
  norm_num

/-- Frames 1 to 280 of the run with `d` held and the draws `1/4`: the tank of the
initial spawn, at (400, 350), stays the only one. -/
theorem walkRun_first {M : JsMath K} (hM : M.Exact) (prev : Game K) (n : Nat) (hn : n ≤ 279) :
    WalkRun (n + 1) [(400, 350)]
      (Game.run M (Game.start M prev (rightInput (1 / 4)))
        (List.replicate n (rightInput (1 / 4)))) := by
  have hstep : ∀ (k : Nat) (g : Game K) (inp : Input K), k ≤ 279 →
      inp.keys = { Keys.none with d := true } → WalkRun k [(400, 350)] g →
      WalkRun (k + 1) [(400, 350)] (g.gameLoop M inp) := by
    intro k g inp hk hkeys h
    have hk1 : ((k + 1 : Nat) : K) ≤ 280 := by exact_mod_cast Nat.succ_le_succ hk
    refine walkRun_step hM k (by omega) _ (400, 350) g inp hkeys ?_ rfl ?_ h
    · intro p hp
      rw [List.mem_singleton] at hp
      subst hp
      nlinarith [mul_self_nonneg (100 + 2.5 * ((k + 1 : Nat) : K) - 400)]
    · show 100 + 2.5 * ((k + 1 : Nat) : K) - 400 ≤ 400
      linarith
  induction n with
  | zero =>
    show WalkRun 1 _ (Game.start M prev (rightInput (1 / 4)))
    unfold Game.start
    exact hstep 0 _ _ (by omega) rfl (walkRun_setup M prev _ (fun n => rfl))
  | succ n ih =>
    rw [List.replicate_succ', Game.run_concat]
    exact hstep (n + 1) _ _ (by omega) rfl (ih (by omega))

/-- Frame 281: the player, at 802.5, is more than 400 past the tank at 400, and
with the draw `1/2` the second tank is spawned at (950, 400). -/
theorem walkRun_second {M : JsMath K} (hM : M.Exact) (g : Game K)
    (h : WalkRun 280 [(400, 350)] g) :
    WalkRun 281 [(400, 350), (950, 400)] (g.gameLoop M (rightInput (1 / 2))) := by
  have h2 : WalkRun 281
      ([((400 : K), (350 : K))] ++ [((400 : K) + 400 + 1 / 2 * 300, 400 + (1 / 2 - 0.5) * 200)])
      (g.gameLoop M (rightInput (1 / 2))) :=
    walkRun_spawn hM 280 (by norm_num) [(400, 350)] (400, 350) g (rightInput (1 / 2)) (1 / 2) rfl
      (fun n => rfl)
      (by
        intro p hp
        rw [List.mem_singleton] at hp
        subst hp
        push_cast
        norm_num)
      rfl (by push_cast; norm_num) h
  have hts : [((400 : K), (350 : K))] ++
      [((400 : K) + 400 + 1 / 2 * 300, 400 + (1 / 2 - 0.5) * 200)]
        = [(400, 350), (950, 400)] := by
    simp only [List.singleton_append, List.cons.injEq, Prod.mk.injEq, and_true, true_and]
    constructor <;> norm_num
  rw [hts] at h2
  exact h2

/-- Frames 282 to 328: both tanks stay; the second one is still 30 away after
frame 328. -/
theorem walkRun_both {M : JsMath K} (hM : M.Exact) (g : Game K)
    (h : WalkRun 281 [(400, 350), (950, 400)] g) (j : Nat) (hj : j ≤ 47) :
    WalkRun (281 + j) [(400, 350), (950, 400)]
      (Game.run M g (List.replicate j (rightInput (1 / 2)))) := by
  induction j with
  | zero => exact h
  | succ j ih =>
    rw [List.replicate_succ', Game.run_concat]
    have hk1 : ((281 + j + 1 : Nat) : K) ≤ 328 := by exact_mod_cast (by omega : 281 + j + 1 ≤ 328)
    have hk0 : (0 : K) ≤ ((281 + j + 1 : Nat) : K) := Nat.cast_nonneg _
    refine walkRun_step hM (281 + j) (by omega) _ (950, 400) _ (rightInput (1 / 2)) rfl ?_ rfl ?_
      (ih (by omega))
    · intro p hp
      simp only [List.mem_cons, List.mem_singleton, List.not_mem_nil, or_false] at hp
      rcases hp with hp | hp
      · subst hp
        nlinarith [mul_self_nonneg (100 + 2.5 * ((281 + j + 1 : Nat) : K) - 400)]
      · subst hp
        show 30 * 30 ≤ (100 + 2.5 * ((281 + j + 1 : Nat) : K) - 950)
          * (100 + 2.5 * ((281 + j + 1 : Nat) : K) - 950) + (400 - 400) * (400 - 400)
        nlinarith
    · show 100 + 2.5 * ((281 + j + 1 : Nat) : K) - 950 ≤ 400
      linarith

theorem frame280_walkRun : WalkRun 280 [((400 : ℝ), (350 : ℝ))] frame280 :=
  walkRun_first realMath_exact Game.blank 279 (le_refl _)

theorem frame281_walkRun : WalkRun 281 [((400 : ℝ), (350 : ℝ)), (950, 400)] frame281 := by
  unfold frame281 walkToSecondTank
  rw [Game.run_concat]
  exact walkRun_second realMath_exact _ frame280_walkRun

theorem frame328_walkRun : WalkRun 328 [((400 : ℝ), (350 : ℝ)), (950, 400)] frame328 := by
  unfold frame328 walkToPickup
  rw [Game.run_append]
  exact walkRun_both realMath_exact _ frame281_walkRun 47 (le_refl _)

theorem rightInput_quarter_randOk : (rightInput (1 / 4 : ℝ)).RandOk := by
  intro n
  simp only [rightInput]
  norm_num

theorem walkToSecondTank_randOk : ∀ i ∈ walkToSecondTank, i.RandOk := by
  intro i hi
  unfold walkToSecondTank at hi
  rw [List.mem_append, List.mem_singleton] at hi
  rcases hi with hi | hi
  · rw [List.eq_of_mem_replicate hi]; exact rightInput_quarter_randOk
  · rw [hi]; exact rightInput_randOk

theorem walkToPickup_randOk : ∀ i ∈ walkToPickup, i.RandOk := by
  intro i hi
  unfold walkToPickup at hi
  rw [List.mem_append] at hi
  rcases hi with hi | hi
  · exact walkToSecondTank_randOk i hi
  · rw [List.eq_of_mem_replicate hi]; exact rightInput_randOk

theorem rightInput_threeQuarters_randOk : (rightInput (3 / 4 : ℝ)).RandOk := by
  intro n
  simp only [rightInput]
  norm_num

theorem tanks_of_pair {T : Type} {ts : List (OxygenTank T)} {a b : T × T}
    (h : ts.map (fun t => (t.x, t.y)) = [a, b]) :
    ∃ t1 t2 : OxygenTank T, ts = [t1, t2] ∧ (t1.x, t1.y) = a ∧ (t2.x, t2.y) = b := by
  match ts, h with
  | [t1, t2], h =>
    simp only [List.map_cons, List.map_nil, List.cons.injEq, and_true] at h
    exact ⟨t1, t2, rfl, h.1, h.2⟩

/-- Frame 329, with `d` held and the draw `3/4`: the player steps to (922.5, 400),
27.5 from the second tank, which is the one tank within reach; it is picked up,
the oxygen is restored once, up to the cap, and since the player is more than
400 past the remaining tank at X 400, the next tank is spawned at X
`400 + 400 + 225 = 1025`. -/
theorem frame329_fields :
    (frame328.update realMath (rightInput (3 / 4))).player.x = 922.5 ∧
    (frame328.update realMath (rightInput (3 / 4))).player.y = 400 ∧
    (frame328.oxygenTanks.filter (Game.tankInReach realMath
      (frame328.update realMath (rightInput (3 / 4))).player)).map (fun t => (t.x, t.y))
        = [(950, 400)] ∧
    (frame328.update realMath (rightInput (3 / 4))).oxygen = 100 ∧
    (frame328.update realMath (rightInput (3 / 4))).oxygenTanks.map (fun t => (t.x, t.y))
        = [(400, 350), (1025, 450)] := by
  have hw := frame328_walkRun
  obtain ⟨hpx, hpy, _⟩ := walkRun_player (M := realMath) (rightInput (3 / 4)) rfl hw
  obtain ⟨t1, t2, hts, h1, h2⟩ := tanks_of_pair hw.2.2.2.2.2.1
  have hox := hw.2.2.2.2.2.2.2.2
  rw [Prod.mk.injEq] at h1 h2
  have hpx1 : (frame328.update realMath (rightInput (3 / 4))).player.x = 922.5 := by
    rw [hpx]; push_cast; norm_num
  have hp : (frame328.update realMath (rightInput (3 / 4))).player
      = (frame328.updateHead realMath (rightInput (3 / 4))).player :=
    (Game.update_fields realMath frame328 (rightInput (3 / 4))).1
  have hr1 : Game.tankInReach realMath
      (frame328.update realMath (rightInput (3 / 4))).player t1 = false := by
    unfold Game.tankInReach
    rw [decide_eq_false_iff_not, realMath_exact.lt_iff _ _ _ (by norm_num), hpx1, hpy, h1.1, h1.2]
    norm_num
  have hr2 : Game.tankInReach realMath
      (frame328.update realMath (rightInput (3 / 4))).player t2 = true := by
    unfold Game.tankInReach
    rw [decide_eq_true_iff, realMath_exact.lt_iff _ _ _ (by norm_num), hpx1, hpy, h2.1, h2.2]
    norm_num
  have hin : frame328.oxygenTanks.filter (Game.tankInReach realMath
      (frame328.update realMath (rightInput (3 / 4))).player) = [t2] := by
    rw [hts]; simp [List.filter_cons, hr1, hr2]
  have hout : frame328.oxygenTanks.filter (fun t => !Game.tankInReach realMath
      (frame328.update realMath (rightInput (3 / 4))).player t) = [t1] := by
    rw [hts]; simp [List.filter_cons, hr1, hr2]
  have hkept : ((frame328.updateHead realMath (rightInput (3 / 4))).checkTankCollection realMath
      (rightInput (3 / 4 : ℝ)).rand).1.oxygenTanks = [t1] := by
    rw [Game.checkTankCollection_tanks, ← hp,
      (Game.updateHead_fields realMath frame328 (rightInput (3 / 4))).2.2.2.2.1, hout]
  refine ⟨hpx1, hpy, ?_, ?_, ?_⟩
  · rw [hin, List.map_cons, List.map_nil, h2.1, h2.2]
  · rw [(Game.update_fields realMath frame328 (rightInput (3 / 4))).2.2.2.2.1,
      Game.checkTankCollection_oxygen,
      (Game.updateHead_fields realMath frame328 (rightInput (3 / 4))).2.2.2.2.1, ← hp, hin,
      (Game.updateHead_fields realMath frame328 (rightInput (3 / 4))).2.2.1,
      Game.oxygenDrain_walk _ rfl, hox]
    simp only [List.length_singleton, Function.iterate_one, restoreOxygen, CONFIG.oxygen.max,
      CONFIG.oxygen.tankRestore]
    push_cast
    norm_num
  · rw [(Game.update_fields realMath frame328 (rightInput (3 / 4))).2.2.2.2.2]
    unfold Game.spawnNewTanks
    rw [hkept]
    simp only [List.getLast?_singleton]
    rw [if_pos (by
      rw [(Game.checkTankCollection_frame_fields realMath
        (frame328.updateHead realMath (rightInput (3 / 4))) (rightInput (3 / 4 : ℝ)).rand).1,
        ← hp, hpx1, h1.1]
      norm_num)]
    rw [Game.spawnOxygenTank_last _ _ _ t1 (by rw [hkept]; rfl), hkept]
    simp only [List.singleton_append, List.map_cons, List.map_nil, OxygenTank.new, rightInput,
      CONFIG.canvas.height, h1.1, h1.2]
    norm_num

theorem frame329_tanks :
    frame329.oxygenTanks.map (fun t => (t.x, t.y)) = [(400, 350), (1025, 450)] := by
  have h : frame329 = frame328.gameLoop realMath (rightInput (3 / 4)) := by
    unfold frame329 frame328
    rw [Game.run_concat]
  rw [h, Game.gameLoop_running realMath frame328 _ frame328_walkRun.1, Game.render_oxygenTanks,
    List.map_map, ← frame329_fields.2.2.2.2]
  rfl

theorem walkToPickup_then_randOk : ∀ i ∈ walkToPickup ++ [rightInput (3 / 4)], i.RandOk := by
  intro i hi
  rw [List.mem_append, List.mem_singleton] at hi
  rcases hi with hi | hi
  · exact walkToPickup_randOk i hi
  · rw [hi]; exact rightInput_threeQuarters_randOk

/-- C7 amended, on a concrete run: `d` held from `start()`, the draws `1/4` up
to frame 280, `1/2` up to frame 328 and `3/4` in frame 329. After frame 280 the
only tank is the one of the initial spawn, at (400, 350); frame 281 spawns a
second tank into the non-empty list, at (950, 400); frame 329 picks the second
tank up and spawns the next one 400 + 225 to the right of the tank that is then
last in the list, the one at X 400. The tanks of the list are 400 apart after
frame 281 and after frame 329. -/
theorem spawn_spacing_in_list_witness :
    (rightInput (1 / 4 : ℝ)).RandOk ∧ (rightInput (1 / 2 : ℝ)).RandOk ∧
    (rightInput (3 / 4 : ℝ)).RandOk ∧
    frame280.oxygenTanks.map (fun t => (t.x, t.y)) = [(400, 350)] ∧
    frame281.oxygenTanks.map (fun t => (t.x, t.y)) = [(400, 350), (950, 400)] ∧
    TanksSpaced frame281.oxygenTanks ∧
    frame328.oxygenTanks.map (fun t => (t.x, t.y)) = [(400, 350), (950, 400)] ∧
    frame329.oxygenTanks.map (fun t => (t.x, t.y)) = [(400, 350), (1025, 450)] ∧
    TanksSpaced frame329.oxygenTanks :=
  ⟨rightInput_quarter_randOk, rightInput_randOk, rightInput_threeQuarters_randOk,
    frame280_walkRun.2.2.2.2.2.1, frame281_walkRun.2.2.2.2.2.1,
    (spawn_spacing_in_list realMath Game.blank (rightInput (1 / 4)) walkToSecondTank
      rightInput_quarter_randOk walkToSecondTank_randOk).1,
    frame328_walkRun.2.2.2.2.2.1, frame329_tanks,
    (spawn_spacing_in_list realMath Game.blank (rightInput (1 / 4))
      (walkToPickup ++ [rightInput (3 / 4)])
      rightInput_quarter_randOk walkToPickup_then_randOk).1⟩

/-- C8, on a concrete run: `d` held from `start()`, the draws `1/4` up to frame
280 and `1/2` up to frame 328. After frame 328 the list holds the two tanks at
(400, 350) and (950, 400); the next step, with `d` held and the draw `3/4`,
takes the player to (922.5, 400), where exactly the second tank is within
reach: the filter removes one tank of the two and the oxygen is restored once,
up to the cap. -/
theorem at_most_one_pickup_witness :
    (rightInput (1 / 4 : ℝ)).RandOk ∧ (rightInput (1 / 2 : ℝ)).RandOk ∧
    frame328.oxygenTanks.map (fun t => (t.x, t.y)) = [(400, 350), (950, 400)] ∧
    (frame328.update realMath (rightInput (3 / 4))).player.x = 922.5 ∧
    (frame328.update realMath (rightInput (3 / 4))).player.y = 400 ∧
    (frame328.oxygenTanks.filter (Game.tankInReach realMath
      (frame328.update realMath (rightInput (3 / 4))).player)).map (fun t => (t.x, t.y))
        = [(950, 400)] ∧
    (frame328.oxygenTanks.filter (Game.tankInReach realMath
      (frame328.update realMath (rightInput (3 / 4))).player)).length ≤ 1 ∧
    frame328.oxygenTanks.length ≤
      (frame328.oxygenTanks.filter (fun t => !Game.tankInReach realMath
        (frame328.update realMath (rightInput (3 / 4))).player t)).length + 1 ∧
    ((frame328.update realMath (rightInput (3 / 4))).oxygen =
        max 0 (frame328.oxygen - Game.oxygenDrain (rightInput (3 / 4 : ℝ)).keys) ∨
      (frame328.update realMath (rightInput (3 / 4))).oxygen =
        min CONFIG.oxygen.max
          (max 0 (frame328.oxygen - Game.oxygenDrain (rightInput (3 / 4 : ℝ)).keys)
            + CONFIG.oxygen.tankRestore)) ∧
    (frame328.update realMath (rightInput (3 / 4))).oxygen = 100 :=
  have h := at_most_one_pickup realMath realMath_exact Game.blank (rightInput (1 / 4))
    walkToPickup rightInput_quarter_randOk walkToPickup_randOk (rightInput (3 / 4))
  ⟨rightInput_quarter_randOk, rightInput_randOk, frame328_walkRun.2.2.2.2.2.1,
    frame329_fields.1, frame329_fields.2.1, frame329_fields.2.2.1,
    h.1 (frame328.update realMath (rightInput (3 / 4))).player, h.2.1, h.2.2,
    frame329_fields.2.2.2.1⟩

end Theorems

end VentEscape
